import Mathlib

/-!
# Verification of `umission.cpp` (DTU Dependable Robots)

Shallow embedding of the mission sequencer `UMission`:

* `sendAndActivateSnippet` : the double-buffered upload of a code snippet into the
  inactive REGBOT thread (100 / 101) followed by the arming event (30 / 31);
* `mission1` : the search-and-approach phase, one `switch (state)` tick per call.

Conventions of the embedding

* C `int` values are `Int`; none of the arithmetic modelled here can overflow
  (`i+1` is bounded by `missionLineMax`, `distanceCount++` is guarded by `< 3`).
* C strings are `String`s of ASCII text, one character per byte;
  `snprintf (s, n, ...)` keeps the first `n - 1` characters.
* `float` readings of the camera are rationals, so that `d/1000 - 0.20` is exact.
* Everything the object writes to the outside is kept as a trace:
  `sent` lists the commands handed to `bridge->send`, `stdout` the `printf` output.
* Constants that live in `umission.h` (`missionLineMax`, `MAX_LEN`) and the
  `printf` conversions of floating point numbers are parameters (`Params`).
-/

namespace Robobot

/-! ## Parameters and text formatting -/

/-- Constants of `umission.h` and the floating point conversions of `printf`. -/
structure Params where
  /-- Number of lines of a REGBOT thread, `static const int missionLineMax`. -/
  missionLineMax : Nat
  /-- Size in bytes of one line buffer, `MAX_LEN`. -/
  MAX_LEN : Nat
  /-- Conversion `%f`. -/
  fmtF : ℚ → String
  /-- Conversion `%.1f`. -/
  fmtF1 : ℚ → String
  /-- Conversion `%.3f`. -/
  fmtF3 : ℚ → String

/-- Conversion `%d` of `printf`. -/
def fmtD (i : Int) : String := toString i

/-- The text `snprintf` leaves in a buffer of `n` bytes: at most `n - 1` characters. -/
def snprintf (n : Nat) (s : String) : String := String.mk (s.data.take (n - 1))

/-- Size of the command buffer `s` of `sendAndActivateSnippet`. -/
def MSL : Nat := 100

/-- One call of `bridge->send`. The first two constructors keep the arguments of the
`snprintf` that formats the command, `Cmd.render` gives the bytes that are sent. -/
inductive Cmd where
  /-- Command `snprintf(s, MSL, "<mod %d %d %s\n", threadToMod, i+1, missionLines[i])`. -/
  | mod (thread : Int) (lineNo : Int) (text : String)
  /-- Command `snprintf(s, MSL, "<event=%d\n", startEvent)`. -/
  | event (startEvent : Int)
  /-- Any other command, sent as a literal. -/
  | text (s : String)
  deriving DecidableEq, Repr

/-- The unbounded text of a command, before it is cut to the command buffer. -/
def Cmd.format : Cmd → String
  | .mod t n l => "<mod " ++ fmtD t ++ " " ++ fmtD n ++ " " ++ l ++ "\n"
  | .event e => "<event=" ++ fmtD e ++ "\n"
  | .text s => s

/-- The bytes handed to `bridge->send`. -/
def Cmd.render : Cmd → String
  | .text s => s
  | c => snprintf MSL c.format

/-- Recogniser of the modify-line commands `<mod ...>`. -/
def Cmd.isMod : Cmd → Bool
  | .mod _ _ _ => true
  | _ => false

/-- Recogniser of the arm commands `<event=E>`. -/
def Cmd.isArm : Cmd → Bool
  | .event _ => true
  | _ => false

/-- The REGBOT thread a command works on: the thread whose line a `<mod ...>` command
replaces, the thread an `<event=E>` command starts (`missionInit` declares thread 100
with start event 30 and thread 101 with start event 31). -/
def Cmd.thread : Cmd → Option Int
  | .mod t _ _ => some t
  | .event e => if e = 30 then some 100 else if e = 31 then some 101 else none
  | .text _ => none

/-! ## The mission object -/

/-- The members of `UMission` that the modelled functions read or write, the published
state of the collaborators `cam` and `bridge->event`, and the output traces. -/
structure UMission where
  /-- Member `threadActive`: the REGBOT thread armed last. -/
  threadActive : Int
  /-- Member `lines` (backed by `lineBuffer`): the snippet under construction. -/
  lines : Nat → String
  /-- Member `distanceCount`: the search attempt counter. -/
  distanceCount : Int
  /-- Member `dist`: drive distance of the approach. -/
  dist : ℚ
  /-- Member `angle`: turn angle of the approach. -/
  angle : ℚ
  /-- Flag `cam->doObjectDetection`: request flag of the perception thread. -/
  doObjectDetection : Bool
  /-- Reading `cam->distanceToObject`. -/
  distanceToObject : ℚ
  /-- Reading `cam->angleToObject`. -/
  angleToObject : ℚ
  /-- Event flags held by `bridge->event`. -/
  eventFlags : Int → Bool
  /-- Trace of `bridge->send`, oldest command first. -/
  sent : List Cmd
  /-- Trace of `printf`, oldest text first. -/
  stdout : List String
  /-- Ghost counter (no member of the class): calls of `sendAndActivateSnippet` so far. -/
  snippetCalls : Nat

/-- Constructor `UMission::UMission`: slot 100 is recorded as active and every line of
the line list is emptied; the remaining members are taken from `m`. -/
def construct (P : Params) (m : UMission) : UMission :=
  { m with
    threadActive := 100
    lines := fun i => if i < P.missionLineMax then "" else m.lines i }

/-- Modelled from the spec: `UEvent::isEventSet` is not part of the sources; reading an
event returns whether it is set and clears it. -/
def isEventSet (e : Int) (m : UMission) : Bool × UMission :=
  (m.eventFlags e, { m with eventFlags := Function.update m.eventFlags e false })

/-! ## `sendAndActivateSnippet` -/

/-- The `printf` block of `sendAndActivateSnippet` for a snippet that is too long. -/
def tooManyLinesReport (P : Params) (missionLineCnt : Int) : List String :=
  [ "# ----------- error - too many lines ------------\n",
    "# You tried to send " ++ fmtD missionLineCnt ++ " lines, but there is buffer space for "
      ++ fmtD P.missionLineMax ++ " only!\n",
    "# set 'missionLineMax' to a higher number in 'umission.h' about line 57\n",
    "# (not all lines will be send)\n",
    "# -----------------------------------------------\n" ]

/-- The loop `for (i; i < missionLineCnt; i++)` of `sendAndActivateSnippet`, entered at
index `i` with `k` iterations left: a non-empty line is sent as a modify command,
an empty line ends the loop (`break`). -/
def modLoop (threadToMod : Int) (missionLines : Nat → String) (i : Nat) : Nat → List Cmd
  | 0 => []
  | k + 1 =>
    if (missionLines i).length > 0 then
      Cmd.mod threadToMod ((i : Int) + 1) (missionLines i)
        :: modLoop threadToMod missionLines (i + 1) k
    else
      []

/-- Method `UMission::sendAndActivateSnippet (missionLines, missionLineCnt)`. -/
def sendAndActivateSnippet (P : Params) (missionLines : Nat → String) (missionLineCnt : Int)
    (m : UMission) : UMission :=
  let threadToMod : Int := if m.threadActive = 101 then 100 else 101
  let startEvent : Int := if m.threadActive = 101 then 30 else 31
  let tooMany : Bool := decide (missionLineCnt > (P.missionLineMax : Int))
  let out := if tooMany then m.stdout ++ tooManyLinesReport P missionLineCnt else m.stdout
  let cnt : Int := if tooMany then (P.missionLineMax : Int) else missionLineCnt
  { m with
    stdout := out
    sent := m.sent ++ modLoop threadToMod missionLines 0 cnt.toNat ++ [Cmd.event startEvent]
    threadActive := threadToMod
    snippetCalls := m.snippetCalls + 1 }

/-- Method `UMission::missionInit`: the commands that declare the three REGBOT threads.
The subscriptions and the clearing of old events leave no command in the trace. -/
def missionInit (P : Params) : List Cmd :=
  [ Cmd.text "robot stop\n",
    Cmd.text "robot <clear\n",
    Cmd.text "robot <add thread=1\n",
    Cmd.text "robot <add irsensor=1,vel=0:dist<0.2\n",
    Cmd.text "robot <add thread=100,event=30 : event=31\n" ]
  ++ List.replicate P.missionLineMax (Cmd.text "robot <add vel=0 : time=0.1\n")
  ++ [ Cmd.text "robot <add thread=101,event=31 : event=30\n" ]
  ++ List.replicate P.missionLineMax (Cmd.text "robot <add vel=0 : time=0.1\n")

/-- The command with which `missionInit` declares a thread, its start event and its
stop event. -/
def threadDeclaration (thread startEvent stopEvent : Int) : Cmd :=
  Cmd.text ("robot <add thread=" ++ fmtD thread ++ ",event=" ++ fmtD startEvent
    ++ " : event=" ++ fmtD stopEvent ++ "\n")

/-- The commands a call has added to the trace: what `after` sent beyond `before`. -/
def newCmds (before after : UMission) : List Cmd :=
  after.sent.drop before.sent.length

/-- A sequence of calls of `sendAndActivateSnippet`, each with its buffer and count. -/
def submitAll (P : Params) : List ((Nat → String) × Int) → UMission → UMission
  | [], m => m
  | (buf, cnt) :: rest, m => submitAll P rest (sendAndActivateSnippet P buf cnt m)

/-! ## `mission1` -/

/-- The consecutive `snprintf(lines[line++], MAX_LEN, ...)` of one case of `mission1`,
starting from `int line = 0`: text number `i` is written to `lines[i]`. -/
def writeLines (P : Params) (texts : List String) (m : UMission) : UMission :=
  { m with
    lines := fun i =>
      match texts[i]? with
      | some t => snprintf P.MAX_LEN t
      | none => m.lines i }

/-- The lines are written and `sendAndActivateSnippet(lines, line)` is called with the
number of lines written. -/
def submitLines (P : Params) (texts : List String) (m : UMission) : UMission :=
  let m1 := writeLines P texts m
  sendAndActivateSnippet P m1.lines (texts.length : Int) m1

/-- Lines of case 0: drive to the line, bump, reposition, signal `distanceCount`. -/
def snippet0 (distanceCount : Int) : List String :=
  [ "vel=0, acc=0, log=5, white=1, edgel=0: time=1",
    "servo=3, pservo=900: time=2",
    "vel=0.2, acc=2, white=1, edgel=0: xl>16",
    "vel=0.2, acc=2, white=1, edgel=0: dist=0.5",
    "vel=0.0, acc=2: time=0.2",
    "vel=0.2, acc=2, tr=0.0: turn=-100",
    "vel=0.2, acc=2, tr=0.0: turn=5",
    "vel=-0.2, acc=2: lv>16",
    "vel=0.0, event=" ++ fmtD distanceCount ++ ": time=1.0" ]

/-- Lines of case 20: turn and reposition, signal `distanceCount`. -/
def snippet20 (distanceCount : Int) : List String :=
  [ "vel=0.2, acc=2, tr=0.0: turn=90",
    "vel=0.2, acc=2, tr=0.0: turn=-5",
    "vel=0.2, acc=2, white=1, edgel=0: dist=0.3",
    "vel=0.0: time=0.1",
    "vel=0.2, acc=2, tr=0.0: turn=-90",
    "vel=0.2, acc=2, tr=0.0: turn=5",
    "vel=-0.2, acc=2: lv>16",
    "vel=0.0, event=" ++ fmtD distanceCount ++ ": time=0.1" ]

/-- Lines of case 30: turn by `angle`, drive `dist`, stop and signal event 1. -/
def snippet30 (P : Params) (angle dist : ℚ) : List String :=
  [ "vel=0.2,acc=2,tr=0.0:turn=" ++ P.fmtF1 (1 * angle),
    "vel=0.2,acc=2 :dist=" ++ P.fmtF3 dist,
    "vel=0, event=1:time=0.1" ]

/-- Lines of case 40: grab, turn back by `angle`, reverse, signal event 1. -/
def snippet40 (P : Params) (angle : ℚ) : List String :=
  [ "servo=3,pservo=-100:time=2",
    "vel=0.2,acc=2,tr=0.0 :turn=" ++ P.fmtF1 (-1 * angle),
    "vel=-0.2,acc=2 :lv>16",
    "vel=0, event=1:time=0.1" ]

/-- Lines of case 41. -/
def snippet41 : List String :=
  [ "vel=0.2, tr=0.0: turn=90",
    "vel=0.2, tr=0.0: turn=-5",
    "vel=0.2, acc=2, white=1, edgel=0: xl>16",
    "vel=0:time=0.1",
    "vel=0.2, tr=0.0: turn=90",
    "vel=0:time=0.1",
    "vel=0.2, acc=2, white=1, edgel=0:dist=0.1",
    "vel=0:time=0.1",
    "servo=3,pservo=900:time=2" ]

/-- Lines of case 66. -/
def snippet66 : List String :=
  [ "vel=0.2, acc=2, tr=0.0: turn=180, time=2",
    "vel=0.2, acc=2, tr=0.0: turn=-5, time=2",
    "vel=0.2, acc=2, white=1, edgel=0: xl>16",
    "vel=0.0: time=0.1" ]

/-- Appends one `printf` text to the output trace. -/
def printf (s : String) (m : UMission) : UMission :=
  { m with stdout := m.stdout ++ [s] }

/-- Result of one call `mission1(state)`. -/
structure Tick where
  /-- The returned flag `finished`. -/
  finished : Bool
  /-- The reference parameter `state` after the call. -/
  state : Int
  /-- The object after the call. -/
  obj : UMission

/-- Method `UMission::mission1 (int & state)`, one tick of the `switch (state)`. -/
def mission1 (P : Params) (state : Int) (m : UMission) : Tick :=
  if state = 0 then
    let m1 := (isEventSet m.distanceCount m).2
    let m2 := submitLines P (snippet0 m1.distanceCount) m1
    ⟨false, 10, m2⟩
  else if state = 10 then
    let r := isEventSet m.distanceCount m
    if r.1 then
      let m1 := { r.2 with doObjectDetection := true }
      ⟨false, 11, printf "State 10\n" m1⟩
    else
      ⟨false, 10, r.2⟩
  else if state = 11 then
    if ¬ m.doObjectDetection then
      if m.distanceToObject > 0 ∧ m.distanceToObject < 1100 then
        ⟨false, 30, printf "State 11, object detected!!!\n" m⟩
      else
        ⟨false, 20, printf "State 11, no object detected\n" m⟩
    else
      ⟨false, 11, m⟩
  else if state = 20 then
    let m1 := (isEventSet m.distanceCount m).2
    let m2 := submitLines P (snippet20 m1.distanceCount) m1
    if m2.distanceCount < 3 then
      let m3 := { m2 with distanceCount := m2.distanceCount + 1 }
      ⟨false, 10, printf ("State 20, distanceCount: " ++ fmtD m3.distanceCount ++ "\n") m3⟩
    else
      ⟨false, 66, printf "State 20, max distanceCount reached\n" m2⟩
  else if state = 30 then
    let m1 := (isEventSet 1 m).2
    let m2 := { m1 with dist := m1.distanceToObject / 1000 - 0.20 }
    let m3 := { m2 with angle := m2.angleToObject }
    let m4 := printf ("The distance result is: " ++ P.fmtF m3.dist ++ "\n") m3
    let m5 := printf ("The angle result is: " ++ P.fmtF m4.angle ++ "\n") m4
    let m6 := submitLines P (snippet30 P m5.angle m5.dist) m5
    ⟨false, 40, printf "State 30\n" m6⟩
  else if state = 40 then
    let r := isEventSet 1 m
    if r.1 then
      let m1 := (isEventSet 1 r.2).2
      let m2 := submitLines P (snippet40 P m1.angle) m1
      ⟨false, 41, printf "State 40\n" m2⟩
    else
      ⟨false, 40, r.2⟩
  else if state = 41 then
    let r := isEventSet 1 m
    if r.1 then
      let m1 := (isEventSet 1 r.2).2
      let m2 := submitLines P snippet41 m1
      ⟨false, 66, printf "State 41\n" m2⟩
    else
      ⟨false, 41, r.2⟩
  else if state = 66 then
    let r := isEventSet 1 m
    if r.1 then
      let m1 := (isEventSet 1 r.2).2
      let m2 := submitLines P snippet66 m1
      ⟨false, 999, printf "Finishing task\n" m2⟩
    else
      ⟨false, 66, r.2⟩
  else
    let m1 := printf "mission 1 ended\n" m
    ⟨true, state, { m1 with sent := m1.sent ++ [Cmd.text "oled 5 mission 3 ended\n"] }⟩

/-! ## Runs of `mission1` against its collaborators -/

/-- What the collaborating threads (event reader, perception) publish between two
ticks of the phase. -/
structure Ext where
  /-- The event flags. -/
  eventFlags : Int → Bool
  /-- The request flag `cam->doObjectDetection`. -/
  doObjectDetection : Bool
  /-- The reading `cam->distanceToObject`. -/
  distanceToObject : ℚ
  /-- The reading `cam->angleToObject`. -/
  angleToObject : ℚ

/-- The object as the mission thread sees it once the collaborators have published. -/
def publish (x : Ext) (m : UMission) : UMission :=
  { m with
    eventFlags := x.eventFlags
    doObjectDetection := x.doObjectDetection
    distanceToObject := x.distanceToObject
    angleToObject := x.angleToObject }

/-- Tick number `k` of a run (`k = 0` is the first): the collaborators publish `env j`
before tick `j`, the phase starts in `state` on the object `m`. -/
def tickAt (P : Params) (env : Nat → Ext) (state : Int) (m : UMission) : Nat → Tick
  | 0 => mission1 P state (publish (env 0) m)
  | k + 1 =>
    let t := tickAt P env state m k
    mission1 P t.state (publish (env (k + 1)) t.obj)

/-- The state in which tick number `k` of a run is entered. -/
def stateAt (P : Params) (env : Nat → Ext) (state : Int) (m : UMission) : Nat → Int
  | 0 => state
  | k + 1 => (tickAt P env state m k).state

/-- The object on which tick number `k` of a run is entered, after publication. -/
def objAt (P : Params) (env : Nat → Ext) (state : Int) (m : UMission) : Nat → UMission
  | 0 => publish (env 0) m
  | k + 1 => publish (env (k + 1)) (tickAt P env state m k).obj

/-- States reachable from state 0 by ticks of `mission1`, whatever the object holds at
each tick (events, perception results, attempt counter). -/
inductive Reachable (P : Params) : Int → Prop where
  | start : Reachable P 0
  | tick (s : Int) (m : UMission) : Reachable P s → Reachable P (mission1 P s m).state

/-- Detection fails: the request has been served and the reading is outside (0, 1100). -/
def Ext.noDetection (x : Ext) : Prop :=
  x.doObjectDetection = false ∧ ¬ (0 < x.distanceToObject ∧ x.distanceToObject < 1100)

/-- Every event reads as set. -/
def Ext.allEventsSet (x : Ext) : Prop := ∀ e, x.eventFlags e = true

/-- The collaborators of the end-to-end scenario: every event reads set, the detection
request has been served, the object is reported at 450 mm and 12 degrees. -/
def Ext.objectAhead (x : Ext) : Prop :=
  x.allEventsSet ∧ x.doObjectDetection = false ∧ x.distanceToObject = 450 ∧
    x.angleToObject = 12

/-! ## The controller of the fail-open scenario -/

/-- Value of the leading decimal digits of a text, continuing from `acc`. -/
def readNat (acc : Nat) : List Char → Nat
  | [] => acc
  | c :: cs => if c.isDigit then readNat (acc * 10 + (c.toNat - 48)) cs else acc

/-- Strips the literal `lit` from the front of a text. -/
def stripLit : List Char → List Char → Option (List Char)
  | [], cs => some cs
  | _ :: _, [] => none
  | l :: ls, c :: cs => if l = c then stripLit ls cs else none

/-- The event id of the first field `event=N` of a mission line, if it has one. -/
def eventField : List Char → Option Int
  | [] => none
  | c :: cs =>
    match stripLit "event=".data (c :: cs) with
    | some (d :: ds) =>
      if d.isDigit then some (readNat 0 (d :: ds) : Nat) else eventField cs
    | _ => eventField cs

/-- The event raised by the synchronization line of a snippet: the event field of the
last line uploaded by the commands `cmds`. -/
def syncEvent (cmds : List Cmd) : Option Int :=
  match (cmds.filter Cmd.isMod).getLast? with
  | some (Cmd.mod _ _ l) => eventField l.data
  | _ => none

/-- One tick of the fail-open scenario followed by the reaction of the collaborators:
the controller raises the event of the synchronization line of a snippet submitted in
this tick, once; perception serves a pending request and reports the reading
`reading` (taken outside (0, 1100)). -/
def failOpenTick (P : Params) (reading : ℚ) (state : Int) (m : UMission) : Tick :=
  let t := mission1 P state m
  let flags : Int → Bool :=
    match syncEvent (newCmds m t.obj) with
    | some e => Function.update t.obj.eventFlags e true
    | none => t.obj.eventFlags
  { t with
    obj := { t.obj with
      eventFlags := flags
      doObjectDetection := false
      distanceToObject := reading } }

/-- Tick number `k` of the fail-open scenario. -/
def failOpenRun (P : Params) (reading : ℚ) (state : Int) (m : UMission) : Nat → Tick
  | 0 => failOpenTick P reading state m
  | k + 1 =>
    let t := failOpenRun P reading state m k
    failOpenTick P reading t.state t.obj

/-! ## A concrete instance -/

/-- Decimal digits of `n`, padded with zeros on the left to `width` characters. -/
def padDigits (width n : Nat) : String :=
  let ds := Nat.toDigits 10 n
  String.mk (List.replicate (width - ds.length) '0' ++ ds)

/-- Fixed point text of a rational with `digits` decimals, rounded to nearest. -/
def fmtFixed (digits : Nat) (q : ℚ) : String :=
  let scaled : Nat := (2 * q.num.natAbs * 10 ^ digits + q.den) / (2 * q.den)
  (if q < 0 then "-" else "") ++ toString (scaled / 10 ^ digits) ++ "." ++
    padDigits digits (scaled % 10 ^ digits)

/-- An instance of the parameters: 20 lines per thread, 100 bytes per line. -/
def exampleParams : Params where
  missionLineMax := 20
  MAX_LEN := 100
  fmtF := fmtFixed 6
  fmtF1 := fmtFixed 1
  fmtF3 := fmtFixed 3

/-- An object right after construction and `missionInit`: slot 100 active, no line,
counter at 0, no event pending, no detection request. -/
def freshObject : UMission where
  threadActive := 100
  lines := fun _ => ""
  distanceCount := 0
  dist := 0
  angle := 0
  doObjectDetection := false
  distanceToObject := 0
  angleToObject := 0
  eventFlags := fun _ => false
  sent := []
  stdout := []
  snippetCalls := 0

/-- A buffer given by its list of lines; the lines beyond the list are empty. -/
def bufferOf (ls : List String) : Nat → String := fun i => ls.getD i ""

/-- The collaborators of the end-to-end scenario: every event set, no request pending,
object at 450 mm and 12 degrees. -/
def scenarioExt : Ext where
  eventFlags := fun _ => true
  doObjectDetection := false
  distanceToObject := 450
  angleToObject := 12

/-- The collaborators of a search that finds nothing: every event set, no request
pending, reading 0. -/
def nothingFoundExt : Ext where
  eventFlags := fun _ => true
  doObjectDetection := false
  distanceToObject := 0
  angleToObject := 0


/-- The collaborators when perception never serves the request: the request flag is
still set, every event is set. -/
def busyExt : Ext where
  eventFlags := fun _ => true
  doObjectDetection := true
  distanceToObject := 450
  angleToObject := 12

/-! ## Events awaited and raised by `mission1` -/

/-- The event a wait state of `mission1` polls to decide whether it goes on: the
argument of the `isEventSet` that guards the case (`distanceCount` in case 10, event 1
in the cases 40, 41 and 66); the other states wait for no event. -/
def awaitedEvent (state : Int) (m : UMission) : Option Int :=
  if state = 10 then some m.distanceCount
  else if state = 40 ∨ state = 41 ∨ state = 66 then some 1
  else none

/-- The event ids written into the lines of a snippet, line by line. -/
def eventIds (texts : List String) : List Int :=
  texts.filterMap (fun t => eventField t.data)

/-- The event ids reserved by the mission loop: 0 (all-stop, polled by `runMission`),
33 (operator go), 30 and 31 (start events of the threads 100 and 101). -/
def reservedEvents : List Int := [0, 33, 30, 31]

/-! ## `mission4` and `runMission` -/

/-- One call `bridge->send(c)`. -/
def send (c : Cmd) (m : UMission) : UMission :=
  { m with sent := m.sent ++ [c] }

/-- Method `UMission::mission4 (int & state)`: every state is the default case. -/
def mission4 (state : Int) (m : UMission) : Tick :=
  ⟨true, state, send (Cmd.text "oled 5 mission 4 ended.") (printf "mission 4 ended\n" m)⟩

/-- The members `mission`, `missionState`, `finished` and the locals of `runMission`,
the camera flags the loop sets, the mission object, and the traces. The log file is
left out: nothing in the loop depends on it. -/
structure Supervisor where
  /-- Member `mission`: the current mission part. -/
  mission : Int
  /-- Member `missionState`: the state of the current part. -/
  missionState : Int
  /-- Member `finished`. -/
  finished : Bool
  /-- Local `missionOld`. -/
  missionOld : Int
  /-- Local `missionStateOld`. -/
  missionStateOld : Int
  /-- Local `regbotStarted`: the start event 33 has been seen. -/
  regbotStarted : Bool
  /-- Local `ended`: the flag returned by the handler ticked last. -/
  ended : Bool
  /-- Local `inManual`. -/
  inManual : Bool
  /-- Local `loop`, the debug loop counter. -/
  loop : Int
  /-- Flag `cam->saveImage`. -/
  saveImage : Bool
  /-- Flag `cam->doArUcoAnalysis`. -/
  doArUcoAnalysis : Bool
  /-- The mission object. -/
  obj : UMission
  /-- Trace of `system`, oldest call first. -/
  spoken : List String
  /-- Ghost trace: the handler calls so far, each with the mission id and the value of
  `missionState` passed in. -/
  handlerCalls : List (Int × Int)
  /-- Ghost trace: the event ids polled by `runMission` itself so far. -/
  polled : List Int

/-- What the loop reads from the gamepad in one iteration. -/
structure Operator where
  /-- Flag `bridge->joy->manual`. -/
  manual : Bool
  /-- Button `bridge->joy->button[BUTTON_RED]`. -/
  buttonRed : Bool
  /-- Button `bridge->joy->button[BUTTON_YELLOW]`. -/
  buttonYellow : Bool

/-- The inputs of one loop iteration. -/
structure LoopInput where
  /-- What the event reader and perception have published when the iteration starts. -/
  ext : Ext
  /-- The gamepad. -/
  op : Operator
  /-- Member `th1stop`, as the loop condition reads it before the iteration. -/
  th1stop : Bool

/-- The block `if (inManual)` of the automatic branch: resumption is announced once. -/
def resumeAuto (s : Supervisor) : Supervisor :=
  if s.inManual then
    { s with
      inManual := false
      spoken := s.spoken ++ ["espeak \"Mission resuming.\" -ven+f4 -s130 -a40 2>/dev/null &"]
      obj := send (Cmd.text "oled 3 running AUTO\n") s.obj }
  else s

/-- The `switch (mission)` of `runMission`. -/
def switchMission (P : Params) (s : Supervisor) : Supervisor :=
  if s.mission = 1 then
    let t := mission1 P s.missionState s.obj
    { s with
      ended := t.finished
      missionState := t.state
      obj := t.obj
      handlerCalls := s.handlerCalls ++ [(1, s.missionState)] }
  else if s.mission = 2 then
    let t := mission4 s.missionState s.obj
    { s with
      ended := t.finished
      missionState := t.state
      obj := t.obj
      handlerCalls := s.handlerCalls ++ [(2, s.missionState)] }
  else
    { s with finished := true }

/-- The block `if (ended)`: the next mission part is started in state 0. -/
def advanceMission (s : Supervisor) : Supervisor :=
  if s.ended then
    { s with mission := s.mission + 1, ended := false, missionState := 0 }
  else s

/-- The display update when the mission part or its state has changed. -/
def showState (s : Supervisor) : Supervisor :=
  if s.mission ≠ s.missionOld ∨ s.missionState ≠ s.missionStateOld then
    { s with
      obj := send (Cmd.text (snprintf 120
        ("oled 4 mission " ++ fmtD s.mission ++ " state " ++ fmtD s.missionState ++ "\n"))) s.obj
      missionOld := s.mission
      missionStateOld := s.missionState }
  else s

/-- The statement `loop++` that opens the loop body. -/
def countLoop (s : Supervisor) : Supervisor :=
  { s with loop := s.loop + 1 }

/-- First part of the loop body of `runMission`: the manual override, the wait for the
start event 33, or one tick of the current mission part. -/
def phaseStep (P : Params) (op : Operator) (s : Supervisor) : Supervisor :=
  let s0 := countLoop s
  if op.manual then
    let s1 :=
      if ¬ s0.inManual then
        { s0 with
          spoken := s0.spoken ++ ["espeak \"Mission paused.\" -ven+f4 -s130 -a40 2>/dev/null &"] }
      else s0
    { s1 with inManual := true, obj := send (Cmd.text "oled 3 GAMEPAD control\n") s1.obj }
  else if ¬ s0.regbotStarted then
    let r := isEventSet 33 s0.obj
    let s1 := { s0 with obj := r.2, polled := s0.polled ++ [33] }
    if r.1 then { s1 with regbotStarted := true } else s1
  else
    showState (advanceMission (switchMission P (resumeAuto s0)))

/-- The red button asks the camera to save an image, once. -/
def redButton (op : Operator) (s : Supervisor) : Supervisor :=
  if op.buttonRed then
    if ¬ s.saveImage then
      { s with
        saveImage := true
        obj := printf "UMission::runMission:: button 1 (red) pressed -> save image\n" s.obj }
    else s
  else s

/-- The yellow button asks the camera for an ArUco analysis, once. -/
def yellowButton (op : Operator) (s : Supervisor) : Supervisor :=
  if op.buttonYellow then
    if ¬ s.doArUcoAnalysis then
      { s with
        doArUcoAnalysis := true
        obj := printf "UMission::runMission:: button 3 (yellow) pressed -> do ArUco\n" s.obj }
    else s
  else s

/-- The two stop conditions: the all-stop event 0, else the end of the mission range. -/
def stopChecks (toMission : Int) (s : Supervisor) : Supervisor :=
  let r := isEventSet 0 s.obj
  let s1 := { s with obj := r.2, polled := s.polled ++ [0] }
  if r.1 then
    { s1 with finished := true, obj := printf "Mission:: insist we are finished\n" s1.obj }
  else if s1.mission > toMission then
    { s1 with obj := send (Cmd.text "stop\n") s1.obj, finished := true }
  else s1

/-- Second part of the loop body: the gamepad buttons and the two stop conditions. -/
def globalChecks (toMission : Int) (op : Operator) (s : Supervisor) : Supervisor :=
  stopChecks toMission (yellowButton op (redButton op s))

/-- The body of the loop `while (not finished and not th1stop)` of `runMission`. -/
def loopBody (P : Params) (toMission : Int) (op : Operator) (s : Supervisor) : Supervisor :=
  globalChecks toMission op (phaseStep P op s)

/-- The supervisor once the collaborators have published `x` to the mission object. -/
def published (x : Ext) (s : Supervisor) : Supervisor :=
  { s with obj := publish x s.obj }

/-- One executed iteration: the collaborators have published, the body runs. -/
def iteration (P : Params) (toMission : Int) (i : LoopInput) (s : Supervisor) : Supervisor :=
  loopBody P toMission i.op (published i.ext s)

/-- A sequence of executed iterations, one per input. -/
def iterations (P : Params) (toMission : Int) : List LoopInput → Supervisor → Supervisor
  | [], s => s
  | i :: rest, s => iterations P toMission rest (iteration P toMission i s)

/-- The loop of `runMission` on the inputs of its successive iterations: it iterates
while `finished` and `th1stop` are both clear (and inputs are left). -/
def runLoop (P : Params) (toMission : Int) : List LoopInput → Supervisor → Supervisor
  | [], s => s
  | i :: rest, s =>
    if s.finished = false ∧ i.th1stop = false then
      runLoop P toMission rest (iteration P toMission i s)
    else s

/-- The start of `runMission` up to the loop: the locals are initialised, `missionInit`
declares the threads and clears the events, the start command is sent. `finished` is
the value of the member when the loop is reached (the heartbeat test and `stop ()` are
not part of the sources). -/
def runMissionEntry (P : Params) (fromMission : Int) (finished : Bool) (m : UMission) :
    Supervisor where
  mission := fromMission
  missionState := 0
  finished := finished
  missionOld := fromMission
  missionStateOld := 0
  regbotStarted := false
  ended := false
  inManual := false
  loop := 0
  saveImage := false
  doArUcoAnalysis := false
  obj :=
    { m with
      eventFlags := fun _ => false
      sent := m.sent ++ missionInit P
        ++ [Cmd.text "start\n", Cmd.text "oled 3 waiting for REGBOT\n"] }
  spoken := []
  handlerCalls := []
  polled := []

/-- The end of `runMission` after the loop: the final stop command, the announcement
for the robot `robotname`, the display text. -/
def runMissionExit (robotname : String) (s : Supervisor) : Supervisor :=
  let m1 := send (Cmd.text "stop\n") s.obj
  let m2 := printf "Mission:: all finished\n" m1
  { s with
    obj := send (Cmd.text "oled 3 finished\n") m2
    spoken := s.spoken ++ [snprintf 120
      ("espeak \"" ++ robotname ++ " finished.\"  -ven+f4 -s130 -a12  2>/dev/null &")] }

/-- A supervisor in the loop with mission part 1 started in state 0 on a fresh object. -/
def startedSupervisor : Supervisor where
  mission := 1
  missionState := 0
  finished := false
  missionOld := 1
  missionStateOld := 0
  regbotStarted := true
  ended := false
  inManual := false
  loop := 0
  saveImage := false
  doArUcoAnalysis := false
  obj := freshObject
  spoken := []
  handlerCalls := []
  polled := []

/-- Gamepad at rest: automatic mode, no button pressed. -/
def autoOp : Operator := ⟨false, false, false⟩

/-- Gamepad in manual override, no button pressed. -/
def manualOp : Operator := ⟨true, false, false⟩

/-! ## The mission loop closed by the controller -/

/-- The collaborators at rest: no event set, no detection request, reading 0. -/
def quietExt : Ext where
  eventFlags := fun _ => false
  doObjectDetection := false
  distanceToObject := 0
  angleToObject := 0

/-- The operator asks for the stop: event 0 is set and no other event. -/
def allStopExt : Ext where
  eventFlags := fun e => decide (e = 0)
  doObjectDetection := false
  distanceToObject := 0
  angleToObject := 0

/-- A supervisor in the loop with mission part 1 waiting in state 10 on a fresh object
(attempt counter 0), as the first tick of the part leaves it. -/
def waitingSupervisor : Supervisor :=
  { startedSupervisor with missionState := 10, missionStateOld := 10 }

/-- What an object holds of the published state of its collaborators. -/
def ownExt (m : UMission) : Ext where
  eventFlags := m.eventFlags
  doObjectDetection := m.doObjectDetection
  distanceToObject := m.distanceToObject
  angleToObject := m.angleToObject

/-- One loop iteration of `runMission` followed by the reaction of the collaborators:
the controller raises the event of the synchronization line of a snippet submitted in
this iteration, once, and raises no other event (the operator asks for nothing);
perception serves a pending request and reports the reading `reading`. -/
def closedLoopStep (P : Params) (toMission : Int) (reading : ℚ) (op : Operator)
    (s : Supervisor) : Supervisor :=
  let s1 := iteration P toMission ⟨ownExt s.obj, op, false⟩ s
  let flags : Int → Bool :=
    match syncEvent (newCmds s.obj s1.obj) with
    | some e => Function.update s1.obj.eventFlags e true
    | none => s1.obj.eventFlags
  { s1 with
    obj := { s1.obj with
      eventFlags := flags
      doObjectDetection := false
      distanceToObject := reading } }

/-- The loop of `runMission` in closed loop, for at most `n` iterations: it iterates
while `finished` is clear. -/
def closedLoopRun (P : Params) (toMission : Int) (reading : ℚ) (op : Operator) :
    Nat → Supervisor → Supervisor
  | 0, s => s
  | n + 1, s =>
    if s.finished = false then
      closedLoopRun P toMission reading op n (closedLoopStep P toMission reading op s)
    else s

/-! ## Lemmas on `sendAndActivateSnippet` -/

theorem length_pos_iff_ne_empty (s : String) : s.length > 0 ↔ s ≠ "" := by
  constructor
  · intro h e
    subst e
    simp at h
  · intro h
    rcases s with ⟨cs⟩
    cases cs with
    | nil => exact absurd rfl h
    | cons c cs => simp [String.length]

theorem snprintf_of_fits (n : Nat) (s : String) (h : s.length < n) : snprintf n s = s := by
  unfold snprintf
  have h1 : s.data.length ≤ n - 1 := by
    have : s.data.length = s.length := rfl
    omega
  rw [List.take_of_length_le h1]

/-- The loop uploads the lines before the first empty one, numbered from 1. -/
theorem modLoop_eq (T : Int) (buf : Nat → String) :
    ∀ (n k i : Nat), k ≤ n → (∀ j, j < k → buf (i + j) ≠ "") → (k < n → buf (i + k) = "") →
      modLoop T buf i n
        = (List.range k).map (fun j => Cmd.mod T (((i + j : Nat) : Int) + 1) (buf (i + j))) := by
  intro n
  induction n with
  | zero =>
    intro k i hk _ _
    have : k = 0 := by omega
    subst this
    simp [modLoop]
  | succ n ih =>
    intro k i hk hne hempty
    cases k with
    | zero =>
      have h0 : buf i = "" := by simpa using hempty (by omega)
      simp [modLoop, h0]
    | succ k =>
      have h0 : buf i ≠ "" := by simpa using hne 0 (by omega)
      have hpos : (buf i).length > 0 := (length_pos_iff_ne_empty _).2 h0
      have hrec := ih k (i + 1) (by omega)
        (fun j hj => by have := hne (j + 1) (by omega); rwa [show i + 1 + j = i + (j + 1) by omega])
        (fun hk' => by have := hempty (by omega); rwa [show i + 1 + k = i + (k + 1) by omega])
      rw [modLoop, if_pos hpos, hrec, List.range_succ_eq_map, List.map_cons, List.map_map]
      congr 1
      apply List.map_congr_left
      intro j _
      simp only [Function.comp_apply]
      rw [show i + 1 + j = i + (j + 1) by omega]

/-- Some number `k` of leading lines, all non-empty, is what the loop uploads. -/
theorem modLoop_exists (buf : Nat → String) :
    ∀ (n i : Nat), ∃ k, k ≤ n ∧ (∀ j, j < k → buf (i + j) ≠ "") ∧ (k < n → buf (i + k) = "") := by
  intro n
  induction n with
  | zero => intro i; exact ⟨0, le_refl _, fun j hj => absurd hj (by omega), fun h => absurd h (by omega)⟩
  | succ n ih =>
    intro i
    by_cases h0 : buf i = ""
    · exact ⟨0, by omega, fun j hj => absurd hj (by omega), fun _ => by simpa using h0⟩
    · obtain ⟨k, hk, hne, hempty⟩ := ih (i + 1)
      refine ⟨k + 1, by omega, ?_, ?_⟩
      · intro j hj
        cases j with
        | zero => simpa using h0
        | succ j =>
          have := hne j (by omega)
          rwa [show i + 1 + j = i + (j + 1) by omega] at this
      · intro hk'
        have := hempty (by omega)
        rwa [show i + 1 + k = i + (k + 1) by omega] at this

theorem newCmds_sendAndActivateSnippet (P : Params) (buf : Nat → String) (cnt : Int)
    (m : UMission) :
    newCmds m (sendAndActivateSnippet P buf cnt m)
      = modLoop (if m.threadActive = 101 then 100 else 101) buf 0
          (min cnt (P.missionLineMax : Int)).toNat
        ++ [Cmd.event (if m.threadActive = 101 then 30 else 31)] := by
  unfold newCmds sendAndActivateSnippet
  simp only [List.append_assoc, List.drop_left]
  by_cases h : cnt > (P.missionLineMax : Int)
  · have hm : min cnt (P.missionLineMax : Int) = P.missionLineMax := min_eq_right (le_of_lt h)
    simp [h, hm]
  · have hm : min cnt (P.missionLineMax : Int) = cnt := min_eq_left (not_lt.1 h)
    simp [h, hm]

theorem threadActive_sendAndActivateSnippet (P : Params) (buf : Nat → String) (cnt : Int)
    (m : UMission) :
    (sendAndActivateSnippet P buf cnt m).threadActive
      = if m.threadActive = 101 then 100 else 101 := rfl

theorem snippetCalls_sendAndActivateSnippet (P : Params) (buf : Nat → String) (cnt : Int)
    (m : UMission) :
    (sendAndActivateSnippet P buf cnt m).snippetCalls = m.snippetCalls + 1 := rfl

/-- Shape of the commands of one call: `k` modify commands for the leading non-empty
lines, then the arm command. -/
theorem newCmds_shape (P : Params) (buf : Nat → String) (cnt : Int) (m : UMission) :
    ∃ k, k ≤ (min cnt (P.missionLineMax : Int)).toNat ∧
      (∀ j, j < k → buf j ≠ "") ∧
      (k < (min cnt (P.missionLineMax : Int)).toNat → buf k = "") ∧
      newCmds m (sendAndActivateSnippet P buf cnt m)
        = (List.range k).map
            (fun j : Nat =>
              Cmd.mod (if m.threadActive = 101 then 100 else 101) ((j : Int) + 1) (buf j))
          ++ [Cmd.event (if m.threadActive = 101 then 30 else 31)] := by
  obtain ⟨k, hk, hne, hempty⟩ :=
    modLoop_exists buf (min cnt (P.missionLineMax : Int)).toNat 0
  refine ⟨k, hk, fun j hj => by simpa using hne j hj, fun h => by simpa using hempty h, ?_⟩
  rw [newCmds_sendAndActivateSnippet, modLoop_eq _ _ _ k 0 hk hne hempty]
  simp


theorem submitAll_append (P : Params) (l1 l2 : List ((Nat → String) × Int)) :
    ∀ m : UMission, submitAll P (l1 ++ l2) m = submitAll P l2 (submitAll P l1 m) := by
  induction l1 with
  | nil => intro m; rfl
  | cons c l1 ih =>
    intro m
    obtain ⟨buf, cnt⟩ := c
    simp only [List.cons_append, submitAll]
    exact ih _

theorem submitAll_take_succ (P : Params) (calls : List ((Nat → String) × Int)) (i : Nat)
    (hi : i < calls.length) (m : UMission) :
    submitAll P (calls.take (i + 1)) m
      = sendAndActivateSnippet P (calls.get ⟨i, hi⟩).1 (calls.get ⟨i, hi⟩).2
          (submitAll P (calls.take i) m) := by
  rw [List.take_succ, submitAll_append, List.getElem?_eq_getElem hi]
  rfl

/-- Parity of the active thread after a sequence of calls, from either slot. -/
theorem threadActive_submitAll (P : Params) (calls : List ((Nat → String) × Int)) :
    ∀ m : UMission,
      (m.threadActive = 100 →
        (submitAll P calls m).threadActive = if calls.length % 2 = 1 then 101 else 100) ∧
      (m.threadActive = 101 →
        (submitAll P calls m).threadActive = if calls.length % 2 = 1 then 100 else 101) := by
  induction calls with
  | nil => intro m; simp [submitAll]
  | cons c calls ih =>
    intro m
    obtain ⟨buf, cnt⟩ := c
    have h := ih (sendAndActivateSnippet P buf cnt m)
    rw [threadActive_sendAndActivateSnippet] at h
    simp only [submitAll, List.length_cons]
    constructor
    · intro hm
      rw [h.2 (by simp [hm])]
      rcases Nat.mod_two_eq_zero_or_one calls.length with h2 | h2 <;>
        simp [Nat.succ_mod_two_eq_one_iff, Nat.add_mod, h2]
    · intro hm
      rw [h.1 (by simp [hm])]
      rcases Nat.mod_two_eq_zero_or_one calls.length with h2 | h2 <;>
        simp [Nat.add_mod, h2]

/-- Every command of one call works on the thread recorded as active after the call. -/
theorem thread_of_newCmds (P : Params) (buf : Nat → String) (cnt : Int) (m : UMission)
    (c : Cmd) (hc : c ∈ newCmds m (sendAndActivateSnippet P buf cnt m)) :
    c.thread = some (sendAndActivateSnippet P buf cnt m).threadActive := by
  obtain ⟨k, _, _, _, hshape⟩ := newCmds_shape P buf cnt m
  rw [hshape] at hc
  rw [threadActive_sendAndActivateSnippet]
  rcases List.mem_append.1 hc with h | h
  · obtain ⟨j, _, rfl⟩ := List.mem_map.1 h
    rfl
  · rw [List.mem_singleton.1 h]
    by_cases h101 : m.threadActive = 101 <;> simp [Cmd.thread, h101]

/-! ## The claims on `sendAndActivateSnippet` -/

/-- C1, slot alternation. From the state left by the constructor, in every sequence of
calls of `sendAndActivateSnippet` the active thread recorded after the call number
`i + 1` is 101 when `i + 1` is odd and 100 when it is even (and before it, after `i`
calls, likewise); it is always 100 or 101, it differs from the one recorded after the
preceding call, and every command of the call (modify and arm) works on it, so that two
consecutive calls never work on the same thread. -/
theorem slot_alternation (P : Params) (m0 : UMission) (calls : List ((Nat → String) × Int))
    (i : Nat) (hi : i < calls.length) :
    (submitAll P (calls.take i) (construct P m0)).threadActive
        = (if i % 2 = 1 then 101 else 100) ∧
    (submitAll P (calls.take (i + 1)) (construct P m0)).threadActive
        = (if (i + 1) % 2 = 1 then 101 else 100) ∧
    ((submitAll P (calls.take (i + 1)) (construct P m0)).threadActive = 100 ∨
      (submitAll P (calls.take (i + 1)) (construct P m0)).threadActive = 101) ∧
    (submitAll P (calls.take (i + 1)) (construct P m0)).threadActive
        ≠ (submitAll P (calls.take i) (construct P m0)).threadActive ∧
    (∀ c ∈ newCmds (submitAll P (calls.take i) (construct P m0))
            (submitAll P (calls.take (i + 1)) (construct P m0)),
        c.thread = some (submitAll P (calls.take (i + 1)) (construct P m0)).threadActive) := by
  have h0 : (construct P m0).threadActive = 100 := rfl
  have hb := (threadActive_submitAll P (calls.take i) (construct P m0)).1 h0
  have ha := (threadActive_submitAll P (calls.take (i + 1)) (construct P m0)).1 h0
  rw [List.length_take, min_eq_left (le_of_lt hi)] at hb
  rw [List.length_take, min_eq_left (Nat.succ_le_of_lt hi)] at ha
  refine ⟨hb, ha, ?_, ?_, ?_⟩
  · rw [ha]; split <;> simp
  · rw [ha, hb]
    rcases Nat.mod_two_eq_zero_or_one i with h2 | h2 <;> simp [Nat.add_mod, h2]
  · intro c hc
    rw [submitAll_take_succ P calls i hi] at hc ⊢
    exact thread_of_newCmds P _ _ _ c hc

/-- Witness of C1: three calls with buffers of different lengths, second call. -/
theorem slot_alternation_witness :
    1 < [(bufferOf ["a", "b"], (2 : Int)), (bufferOf [], 0), (bufferOf ["c"], 5)].length ∧
    (submitAll exampleParams
        ([(bufferOf ["a", "b"], (2 : Int)), (bufferOf [], 0), (bufferOf ["c"], 5)].take 2)
        (construct exampleParams freshObject)).threadActive = 100 :=
  ⟨by decide,
    (slot_alternation exampleParams freshObject
      [(bufferOf ["a", "b"], (2 : Int)), (bufferOf [], 0), (bufferOf ["c"], 5)] 1
      (by decide)).2.1⟩

/-- C2, no-stall arming. Every call of `sendAndActivateSnippet`, whatever the buffer and
the count, sends exactly one arm command; it is the last command of the call and every
command before it is a modify command for the thread recorded as active afterwards;
the event of the arm command is 30 when that thread is 100 and 31 when it is 101, the
recorded thread is one of the two, and these are the start events with which
`missionInit` declares the threads 100 and 101. -/
theorem arm_after_upload (P : Params) (buf : Nat → String) (cnt : Int) (m : UMission) :
    (newCmds m (sendAndActivateSnippet P buf cnt m)).countP Cmd.isArm = 1 ∧
    (∃ mods E,
      newCmds m (sendAndActivateSnippet P buf cnt m) = mods ++ [Cmd.event E] ∧
      (∀ c ∈ mods, c.isMod = true ∧
        c.thread = some (sendAndActivateSnippet P buf cnt m).threadActive) ∧
      ((sendAndActivateSnippet P buf cnt m).threadActive = 100 → E = 30) ∧
      ((sendAndActivateSnippet P buf cnt m).threadActive = 101 → E = 31)) ∧
    ((sendAndActivateSnippet P buf cnt m).threadActive = 100 ∨
      (sendAndActivateSnippet P buf cnt m).threadActive = 101) ∧
    threadDeclaration 100 30 31 ∈ missionInit P ∧
    threadDeclaration 101 31 30 ∈ missionInit P := by
  obtain ⟨k, _, _, _, hshape⟩ := newCmds_shape P buf cnt m
  have hmods : ∀ c ∈ (List.range k).map
      (fun j : Nat => Cmd.mod (if m.threadActive = 101 then 100 else 101) ((j : Int) + 1) (buf j)),
      c.isMod = true ∧ c.isArm = false ∧
        c.thread = some (sendAndActivateSnippet P buf cnt m).threadActive := by
    intro c hc
    obtain ⟨j, _, rfl⟩ := List.mem_map.1 hc
    exact ⟨rfl, rfl, rfl⟩
  refine ⟨?_, ⟨_, _, hshape, fun c hc => ⟨(hmods c hc).1, (hmods c hc).2.2⟩, ?_, ?_⟩, ?_, ?_, ?_⟩
  · rw [hshape, List.countP_append, List.countP_eq_zero.2 (fun c hc => by simp [(hmods c hc).2.1])]
    rfl
  · rw [threadActive_sendAndActivateSnippet]
    by_cases h101 : m.threadActive = 101 <;> simp [h101]
  · rw [threadActive_sendAndActivateSnippet]
    by_cases h101 : m.threadActive = 101 <;> simp [h101]
  · rw [threadActive_sendAndActivateSnippet]
    by_cases h101 : m.threadActive = 101 <;> simp [h101]
  · rw [show threadDeclaration 100 30 31
        = Cmd.text "robot <add thread=100,event=30 : event=31\n" by decide]
    simp [missionInit]
  · rw [show threadDeclaration 101 31 30
        = Cmd.text "robot <add thread=101,event=31 : event=30\n" by decide]
    simp [missionInit]


theorem stdout_sendAndActivateSnippet (P : Params) (buf : Nat → String) (cnt : Int)
    (m : UMission) :
    (sendAndActivateSnippet P buf cnt m).stdout
      = if cnt > (P.missionLineMax : Int) then m.stdout ++ tooManyLinesReport P cnt
        else m.stdout := by
  unfold sendAndActivateSnippet
  by_cases h : cnt > (P.missionLineMax : Int) <;> simp [h]

theorem countP_isMod_shape (T E : Int) (buf : Nat → String) (k : Nat) :
    ((List.range k).map (fun j : Nat => Cmd.mod T ((j : Int) + 1) (buf j))
      ++ [Cmd.event E]).countP Cmd.isMod = k := by
  rw [List.countP_append, List.countP_eq_length.2]
  · simp [Cmd.isMod]
  · intro c hc
    obtain ⟨j, _, rfl⟩ := List.mem_map.1 hc
    rfl

theorem filter_isMod_shape (T E : Int) (buf : Nat → String) (k : Nat) :
    ((List.range k).map (fun j : Nat => Cmd.mod T ((j : Int) + 1) (buf j))
      ++ [Cmd.event E]).filter Cmd.isMod
      = (List.range k).map (fun j : Nat => Cmd.mod T ((j : Int) + 1) (buf j)) := by
  rw [List.filter_append, List.filter_eq_self.2]
  · simp [Cmd.isMod]
  · intro c hc
    obtain ⟨j, _, rfl⟩ := List.mem_map.1 hc
    rfl

/-- The commands of a call when the first empty line among the lines offered is known. -/
theorem newCmds_of_firstEmpty (P : Params) (buf : Nat → String) (cnt : Int) (m : UMission)
    (k : Nat) (hk : k ≤ (min cnt (P.missionLineMax : Int)).toNat)
    (hne : ∀ j, j < k → buf j ≠ "")
    (hempty : k < (min cnt (P.missionLineMax : Int)).toNat → buf k = "") :
    newCmds m (sendAndActivateSnippet P buf cnt m)
      = (List.range k).map
          (fun j : Nat =>
            Cmd.mod (if m.threadActive = 101 then 100 else 101) ((j : Int) + 1) (buf j))
        ++ [Cmd.event (if m.threadActive = 101 then 30 else 31)] := by
  rw [newCmds_sendAndActivateSnippet,
    modLoop_eq _ _ _ k 0 hk (fun j hj => by simpa using hne j hj)
      (fun h => by simpa using hempty h)]
  simp

/-- C3, capacity truncation. For a buffer whose first `min (count, missionLineMax)`
lines are all non-empty: a call with `count > missionLineMax` sends exactly
`missionLineMax` modify commands and prints the capacity report, five lines of text
that name the error "too many lines", the count asked for and the space there is; a
call with `0 <= count <= missionLineMax` sends exactly `count` modify commands and
prints nothing. -/
theorem capacity_truncation (P : Params) (buf : Nat → String) (cnt : Int) (m : UMission)
    (hne : ∀ j, j < (min cnt (P.missionLineMax : Int)).toNat → buf j ≠ "") :
    (cnt > (P.missionLineMax : Int) →
      (newCmds m (sendAndActivateSnippet P buf cnt m)).countP Cmd.isMod = P.missionLineMax ∧
      (sendAndActivateSnippet P buf cnt m).stdout = m.stdout ++ tooManyLinesReport P cnt ∧
      tooManyLinesReport P cnt ≠ [] ∧
      (sendAndActivateSnippet P buf cnt m).stdout
        = m.stdout ++
          [ "# ----------- error - too many lines ------------\n",
            "# You tried to send " ++ fmtD cnt ++ " lines, but there is buffer space for "
              ++ fmtD (P.missionLineMax : Int) ++ " only!\n",
            "# set 'missionLineMax' to a higher number in 'umission.h' about line 57\n",
            "# (not all lines will be send)\n",
            "# -----------------------------------------------\n" ]) ∧
    (0 ≤ cnt → cnt ≤ (P.missionLineMax : Int) →
      ((newCmds m (sendAndActivateSnippet P buf cnt m)).countP Cmd.isMod : Int) = cnt ∧
      (sendAndActivateSnippet P buf cnt m).stdout = m.stdout) := by
  have hshape := newCmds_of_firstEmpty P buf cnt m _ (le_refl _) hne
    (fun h => absurd h (lt_irrefl _))
  rw [stdout_sendAndActivateSnippet, hshape, countP_isMod_shape]
  constructor
  · intro h
    refine ⟨?_, by simp [h], by simp [tooManyLinesReport], by simp [h, tooManyLinesReport]⟩
    rw [min_eq_right (le_of_lt h)]
    simp
  · intro h0 h
    refine ⟨?_, by simp [not_lt.2 h]⟩
    rw [min_eq_left h]
    exact Int.toNat_of_nonneg h0

/-- Witness of C3: five lines offered to a thread of 3 lines are cut to 3 and the
report says so. -/
theorem capacity_truncation_witness :
    (∀ j, j < (min (5 : Int) ((⟨3, 100, fmtFixed 6, fmtFixed 1, fmtFixed 3⟩ : Params).missionLineMax
        : Int)).toNat → bufferOf ["a", "b", "c", "d", "e"] j ≠ "") ∧
    (newCmds freshObject
        (sendAndActivateSnippet ⟨3, 100, fmtFixed 6, fmtFixed 1, fmtFixed 3⟩
          (bufferOf ["a", "b", "c", "d", "e"]) 5 freshObject)).countP Cmd.isMod = 3 ∧
    (sendAndActivateSnippet ⟨3, 100, fmtFixed 6, fmtFixed 1, fmtFixed 3⟩
        (bufferOf ["a", "b", "c", "d", "e"]) 5 freshObject).stdout
      = [ "# ----------- error - too many lines ------------\n",
          "# You tried to send 5 lines, but there is buffer space for 3 only!\n",
          "# set 'missionLineMax' to a higher number in 'umission.h' about line 57\n",
          "# (not all lines will be send)\n",
          "# -----------------------------------------------\n" ] :=
  ⟨by decide,
    ((capacity_truncation ⟨3, 100, fmtFixed 6, fmtFixed 1, fmtFixed 3⟩
      (bufferOf ["a", "b", "c", "d", "e"]) 5 freshObject (by decide)).1 (by decide)).1,
    ((capacity_truncation ⟨3, 100, fmtFixed 6, fmtFixed 1, fmtFixed 3⟩
      (bufferOf ["a", "b", "c", "d", "e"]) 5 freshObject (by decide)).1
        (by decide)).2.2.2.trans (by decide)⟩

/-- C4, early terminator. If `k` is the index of the first empty line among the first
`min (count, missionLineMax)` lines of the buffer (`k` is that minimum when none of them
is empty), the modify commands of the call are exactly those of the lines at the
positions `0 .. k-1`, in this order, and no command of the call uploads a line at a
position `>= k` (a modify command carries the line number position + 1), whatever the
lines after the empty one hold. -/
theorem early_terminator (P : Params) (buf : Nat → String) (cnt : Int) (m : UMission)
    (k : Nat) (hk : k ≤ (min cnt (P.missionLineMax : Int)).toNat)
    (hne : ∀ j, j < k → buf j ≠ "")
    (hempty : k < (min cnt (P.missionLineMax : Int)).toNat → buf k = "") :
    (newCmds m (sendAndActivateSnippet P buf cnt m)).filter Cmd.isMod
      = (List.range k).map
          (fun j : Nat =>
            Cmd.mod (sendAndActivateSnippet P buf cnt m).threadActive ((j : Int) + 1) (buf j)) ∧
    (∀ (t n : Int) (l : String),
      Cmd.mod t n l ∈ newCmds m (sendAndActivateSnippet P buf cnt m) → 1 ≤ n ∧ n ≤ (k : Int)) := by
  have hshape := newCmds_of_firstEmpty P buf cnt m k hk hne hempty
  rw [hshape, filter_isMod_shape]
  refine ⟨rfl, ?_⟩
  intro t n l hmem
  rcases List.mem_append.1 hmem with h | h
  · obtain ⟨j, hj, hjeq⟩ := List.mem_map.1 h
    have hjk : j < k := List.mem_range.1 hj
    injection hjeq with _ hn _
    omega
  · simp at h

/-- Witness of C4: the empty second line ends the upload although the third line is not
empty. -/
theorem early_terminator_witness :
    (1 ≤ (min (3 : Int) (exampleParams.missionLineMax : Int)).toNat) ∧
    (∀ j, j < 1 → bufferOf ["a", "", "c"] j ≠ "") ∧
    (1 < (min (3 : Int) (exampleParams.missionLineMax : Int)).toNat →
      bufferOf ["a", "", "c"] 1 = "") ∧
    (newCmds freshObject
        (sendAndActivateSnippet exampleParams (bufferOf ["a", "", "c"]) 3 freshObject)).filter
        Cmd.isMod
      = (List.range 1).map
          (fun j : Nat =>
            Cmd.mod (sendAndActivateSnippet exampleParams (bufferOf ["a", "", "c"]) 3
              freshObject).threadActive ((j : Int) + 1) (bufferOf ["a", "", "c"] j)) :=
  ⟨by decide, by decide, by decide,
    (early_terminator exampleParams (bufferOf ["a", "", "c"]) 3 freshObject 1
      (by decide) (by decide) (by decide)).1⟩

/-- C5, upload order and frame. Within one call every modify command names the thread
that was inactive on entry (100 if `threadActive` was 101, otherwise 101), which is never
the thread active on entry; the modify commands come first, numbered 1, 2, ..., `k` in
this order, the command numbered `i + 1` carrying the buffer line `i`; when the
formatted command fits the command buffer of `MSL = 100` bytes the bytes sent are the
whole text `<mod T N line`. -/
theorem upload_order (P : Params) (buf : Nat → String) (cnt : Int) (m : UMission) :
    ∃ k, k ≤ (min cnt (P.missionLineMax : Int)).toNat ∧
      newCmds m (sendAndActivateSnippet P buf cnt m)
        = (List.range k).map
            (fun i : Nat =>
              Cmd.mod (if m.threadActive = 101 then 100 else 101) ((i : Int) + 1) (buf i))
          ++ [Cmd.event (if m.threadActive = 101 then 30 else 31)] ∧
      ((newCmds m (sendAndActivateSnippet P buf cnt m)).filterMap
          (fun c => match c with
            | Cmd.mod _ n _ => some n
            | _ => none)
        = (List.range k).map (fun i : Nat => (i : Int) + 1)) ∧
      (∀ (t n : Int) (l : String),
        Cmd.mod t n l ∈ newCmds m (sendAndActivateSnippet P buf cnt m) →
          t = (if m.threadActive = 101 then 100 else 101) ∧ t ≠ m.threadActive ∧
          1 ≤ n ∧ l = buf (n - 1).toNat ∧
          ((Cmd.mod t n l).format.length < MSL →
            (Cmd.mod t n l).render
              = "<mod " ++ fmtD t ++ " " ++ fmtD n ++ " " ++ buf (n - 1).toNat ++ "\n")) := by
  obtain ⟨k, hk, _, _, hshape⟩ := newCmds_shape P buf cnt m
  refine ⟨k, hk, hshape, ?_, ?_⟩
  · rw [hshape, List.filterMap_append, List.filterMap_map]
    simp only [Function.comp_def, List.filterMap_cons, List.filterMap_nil, List.append_nil]
    exact congrFun (List.filterMap_eq_map (fun i : Nat => (i : Int) + 1)) (List.range k)
  · intro t n l hmem
    rw [hshape] at hmem
    rcases List.mem_append.1 hmem with h | h
    · obtain ⟨j, _, hjeq⟩ := List.mem_map.1 h
      cases hjeq
      have hj : ((j : Int) + 1 - 1).toNat = j := by omega
      rw [hj]
      refine ⟨rfl, ?_, by omega, rfl, ?_⟩
      · by_cases h101 : m.threadActive = 101
        · simp [h101]
        · simp only [h101, if_false]
          exact fun h => h101 h.symm
      · intro hfit
        show snprintf MSL (Cmd.mod _ _ _).format = _
        rw [snprintf_of_fits _ _ hfit]
        rfl
    · simp at h


/-! ## One tick of `mission1`, state by state -/

theorem sent_submitLines (P : Params) (texts : List String) (m : UMission) :
    newCmds m (submitLines P texts m)
      = newCmds m (sendAndActivateSnippet P (writeLines P texts m).lines texts.length m) := rfl

/-- Case 0: the preparatory snippet is submitted, next state 10. -/
theorem mission1_case0 (P : Params) (m : UMission) :
    (mission1 P 0 m).state = 10 ∧ (mission1 P 0 m).finished = false ∧
    (mission1 P 0 m).obj.snippetCalls = m.snippetCalls + 1 ∧
    (mission1 P 0 m).obj.distanceCount = m.distanceCount ∧
    (mission1 P 0 m).obj.doObjectDetection = m.doObjectDetection := by
  simp [mission1, submitLines, sendAndActivateSnippet, writeLines, isEventSet]

/-- Case 10: the wait for the completion event `distanceCount`. -/
theorem mission1_case10 (P : Params) (m : UMission) :
    (mission1 P 10 m).finished = false ∧
    (mission1 P 10 m).obj.snippetCalls = m.snippetCalls ∧
    (mission1 P 10 m).obj.distanceCount = m.distanceCount ∧
    (mission1 P 10 m).obj.sent = m.sent ∧
    (m.eventFlags m.distanceCount = true →
      (mission1 P 10 m).state = 11 ∧ (mission1 P 10 m).obj.doObjectDetection = true) ∧
    (m.eventFlags m.distanceCount = false →
      (mission1 P 10 m).state = 10 ∧
      (mission1 P 10 m).obj.doObjectDetection = m.doObjectDetection) := by
  cases h : m.eventFlags m.distanceCount <;> simp [mission1, isEventSet, printf, h]

/-- Case 11: the poll of the detection request and the test of the reading. -/
theorem mission1_case11 (P : Params) (m : UMission) :
    (mission1 P 11 m).finished = false ∧
    (mission1 P 11 m).obj.snippetCalls = m.snippetCalls ∧
    (mission1 P 11 m).obj.distanceCount = m.distanceCount ∧
    (mission1 P 11 m).obj.sent = m.sent ∧
    (mission1 P 11 m).obj.doObjectDetection = m.doObjectDetection ∧
    (m.doObjectDetection = false → 0 < m.distanceToObject ∧ m.distanceToObject < 1100 →
      (mission1 P 11 m).state = 30) ∧
    (m.doObjectDetection = false → ¬ (0 < m.distanceToObject ∧ m.distanceToObject < 1100) →
      (mission1 P 11 m).state = 20) ∧
    (m.doObjectDetection = true → (mission1 P 11 m).state = 11) := by
  cases h : m.doObjectDetection
  · by_cases hd : 0 < m.distanceToObject ∧ m.distanceToObject < 1100
    · simp [mission1, printf, h, hd]
    · have hd2 : ¬ (m.distanceToObject > 0 ∧ m.distanceToObject < 1100) := hd
      simp only [mission1, printf, h, hd, hd2]
      simp
  · simp [mission1, printf, h]

/-- Case 20: the turn-and-reposition snippet is submitted, then the counter decides. -/
theorem mission1_case20 (P : Params) (m : UMission) :
    (mission1 P 20 m).finished = false ∧
    (mission1 P 20 m).obj.snippetCalls = m.snippetCalls + 1 ∧
    (mission1 P 20 m).obj.doObjectDetection = m.doObjectDetection ∧
    (mission1 P 20 m).obj.sent = (submitLines P (snippet20 m.distanceCount) m).sent ∧
    (m.distanceCount < 3 →
      (mission1 P 20 m).state = 10 ∧
      (mission1 P 20 m).obj.distanceCount = m.distanceCount + 1) ∧
    (¬ m.distanceCount < 3 →
      (mission1 P 20 m).state = 66 ∧
      (mission1 P 20 m).obj.distanceCount = m.distanceCount) := by
  by_cases h : m.distanceCount < 3 <;>
    simp [mission1, submitLines, sendAndActivateSnippet, writeLines, isEventSet, printf, h]

/-- Case 30: the approach snippet is submitted, next state 40. -/
theorem mission1_case30 (P : Params) (m : UMission) :
    (mission1 P 30 m).state = 40 ∧ (mission1 P 30 m).finished = false ∧
    (mission1 P 30 m).obj.snippetCalls = m.snippetCalls + 1 ∧
    (mission1 P 30 m).obj.distanceCount = m.distanceCount ∧
    (mission1 P 30 m).obj.doObjectDetection = m.doObjectDetection := by
  simp [mission1, submitLines, sendAndActivateSnippet, writeLines, isEventSet, printf]

/-- Cases 40, 41 and 66: the wait for event 1, then the next snippet. -/
theorem mission1_wait1 (P : Params) (m : UMission) (s : Int)
    (hs : s = 40 ∨ s = 41 ∨ s = 66) :
    (mission1 P s m).finished = false ∧
    (mission1 P s m).obj.distanceCount = m.distanceCount ∧
    (mission1 P s m).obj.doObjectDetection = m.doObjectDetection ∧
    (m.eventFlags 1 = true →
      (mission1 P s m).state = (if s = 40 then 41 else if s = 41 then 66 else 999) ∧
      (mission1 P s m).obj.snippetCalls = m.snippetCalls + 1) ∧
    (m.eventFlags 1 = false →
      (mission1 P s m).state = s ∧
      (mission1 P s m).obj.snippetCalls = m.snippetCalls ∧
      (mission1 P s m).obj.sent = m.sent) := by
  rcases hs with rfl | rfl | rfl <;> cases h : m.eventFlags 1 <;>
    simp [mission1, submitLines, sendAndActivateSnippet, writeLines, isEventSet, printf, h]

/-- Case 999 and default: the phase reports its end and keeps its state. -/
theorem mission1_default (P : Params) (m : UMission) (s : Int)
    (hs : s ≠ 0 ∧ s ≠ 10 ∧ s ≠ 11 ∧ s ≠ 20 ∧ s ≠ 30 ∧ s ≠ 40 ∧ s ≠ 41 ∧ s ≠ 66) :
    (mission1 P s m).state = s ∧ (mission1 P s m).finished = true ∧
    (mission1 P s m).obj.snippetCalls = m.snippetCalls ∧
    (mission1 P s m).obj.distanceCount = m.distanceCount ∧
    (mission1 P s m).obj.doObjectDetection = m.doObjectDetection ∧
    newCmds m (mission1 P s m).obj = [Cmd.text "oled 5 mission 3 ended\n"] := by
  obtain ⟨h0, h10, h11, h20, h30, h40, h41, h66⟩ := hs
  simp [mission1, printf, newCmds, h0, h10, h11, h20, h30, h40, h41, h66]


theorem countP_isArm_sendAndActivateSnippet (P : Params) (buf : Nat → String) (cnt : Int)
    (m : UMission) :
    (newCmds m (sendAndActivateSnippet P buf cnt m)).countP Cmd.isArm = 1 := by
  obtain ⟨k, _, _, _, hshape⟩ := newCmds_shape P buf cnt m
  rw [hshape, List.countP_append, List.countP_eq_zero.2]
  · rfl
  · intro c hc
    obtain ⟨j, _, rfl⟩ := List.mem_map.1 hc
    simp [Cmd.isArm]

/-! ## Runs -/

theorem tickAt_eq (P : Params) (env : Nat → Ext) (s : Int) (m : UMission) (k : Nat) :
    tickAt P env s m k = mission1 P (stateAt P env s m k) (objAt P env s m k) := by
  cases k <;> rfl

theorem stateAt_succ (P : Params) (env : Nat → Ext) (s : Int) (m : UMission) (k : Nat) :
    stateAt P env s m (k + 1)
      = (mission1 P (stateAt P env s m k) (objAt P env s m k)).state := by
  show (tickAt P env s m k).state = _
  rw [tickAt_eq]

theorem objAt_succ (P : Params) (env : Nat → Ext) (s : Int) (m : UMission) (k : Nat) :
    objAt P env s m (k + 1)
      = publish (env (k + 1)) (mission1 P (stateAt P env s m k) (objAt P env s m k)).obj := by
  show publish _ (tickAt P env s m k).obj = _
  rw [tickAt_eq]

theorem objAt_published (P : Params) (env : Nat → Ext) (s : Int) (m : UMission) (k : Nat) :
    (objAt P env s m k).eventFlags = (env k).eventFlags ∧
    (objAt P env s m k).doObjectDetection = (env k).doObjectDetection ∧
    (objAt P env s m k).distanceToObject = (env k).distanceToObject ∧
    (objAt P env s m k).angleToObject = (env k).angleToObject := by
  cases k <;> exact ⟨rfl, rfl, rfl, rfl⟩

theorem distanceCount_objAt_succ (P : Params) (env : Nat → Ext) (s : Int) (m : UMission)
    (k : Nat) :
    (objAt P env s m (k + 1)).distanceCount
      = (mission1 P (stateAt P env s m k) (objAt P env s m k)).obj.distanceCount := by
  rw [objAt_succ]
  rfl

/-- One step of a run in which detection always fails and every event reads set: the
next state and the next counter value, from the current ones. -/
theorem search_step (P : Params) (env : Nat → Ext) (s : Int) (m : UMission)
    (henv : ∀ k, (env k).noDetection ∧ (env k).allEventsSet) (k : Nat) :
    (stateAt P env s m k = 0 →
      stateAt P env s m (k + 1) = 10 ∧
      (objAt P env s m (k + 1)).distanceCount = (objAt P env s m k).distanceCount) ∧
    (stateAt P env s m k = 10 →
      stateAt P env s m (k + 1) = 11 ∧
      (objAt P env s m (k + 1)).distanceCount = (objAt P env s m k).distanceCount) ∧
    (stateAt P env s m k = 11 →
      stateAt P env s m (k + 1) = 20 ∧
      (objAt P env s m (k + 1)).distanceCount = (objAt P env s m k).distanceCount) ∧
    (stateAt P env s m k = 20 → (objAt P env s m k).distanceCount < 3 →
      stateAt P env s m (k + 1) = 10 ∧
      (objAt P env s m (k + 1)).distanceCount = (objAt P env s m k).distanceCount + 1) ∧
    (stateAt P env s m k = 20 → ¬ (objAt P env s m k).distanceCount < 3 →
      stateAt P env s m (k + 1) = 66 ∧
      (objAt P env s m (k + 1)).distanceCount = (objAt P env s m k).distanceCount) ∧
    (stateAt P env s m k = 66 →
      stateAt P env s m (k + 1) = 999 ∧
      (objAt P env s m (k + 1)).distanceCount = (objAt P env s m k).distanceCount) ∧
    (stateAt P env s m k = 999 →
      stateAt P env s m (k + 1) = 999 ∧
      (objAt P env s m (k + 1)).distanceCount = (objAt P env s m k).distanceCount) := by
  obtain ⟨hflags, hreq, hdist, _⟩ := objAt_published P env s m k
  obtain ⟨⟨hnoreq, hnodet⟩, hall⟩ := henv k
  have hset : ∀ e, (objAt P env s m k).eventFlags e = true := fun e => by rw [hflags]; exact hall e
  rw [stateAt_succ, distanceCount_objAt_succ]
  refine ⟨?_, ?_, ?_, ?_, ?_, ?_, ?_⟩
  · intro h; rw [h]
    exact ⟨(mission1_case0 P _).1, (mission1_case0 P _).2.2.2.1⟩
  · intro h; rw [h]
    exact ⟨((mission1_case10 P _).2.2.2.2.1 (hset _)).1, (mission1_case10 P _).2.2.1⟩
  · intro h; rw [h]
    refine ⟨(mission1_case11 P _).2.2.2.2.2.2.1 (by rw [hreq, hnoreq]) ?_,
      (mission1_case11 P _).2.2.1⟩
    rw [hdist]; exact hnodet
  · intro h hd; rw [h]
    exact (mission1_case20 P _).2.2.2.2.1 hd
  · intro h hd; rw [h]
    exact (mission1_case20 P _).2.2.2.2.2 hd
  · intro h; rw [h]
    exact ⟨((mission1_wait1 P _ 66 (by simp)).2.2.2.1 (hset 1)).1,
      (mission1_wait1 P _ 66 (by simp)).2.1⟩
  · intro h; rw [h]
    exact ⟨(mission1_default P _ 999 (by decide)).1, (mission1_default P _ 999 (by decide)).2.2.2.1⟩

/-- The first fifteen ticks of a search that never detects anything, counter from 0. -/
theorem search_trace (P : Params) (env : Nat → Ext) (m : UMission)
    (hm : m.distanceCount = 0)
    (henv : ∀ k, (env k).noDetection ∧ (env k).allEventsSet) :
    (List.range 15).map (fun k => (stateAt P env 0 m k, (objAt P env 0 m k).distanceCount))
      = [(0, 0), (10, 0), (11, 0), (20, 0), (10, 1), (11, 1), (20, 1), (10, 2), (11, 2),
         (20, 2), (10, 3), (11, 3), (20, 3), (66, 3), (999, 3)] := by
  have st := search_step P env 0 m henv
  have h0 : stateAt P env 0 m 0 = 0 ∧ (objAt P env 0 m 0).distanceCount = 0 := ⟨rfl, hm⟩
  have h1 := (st 0).1 h0.1
  have h2 := (st 1).2.1 h1.1
  have h3 := (st 2).2.2.1 h2.1
  rw [h1.2, h0.2] at h2
  rw [h2.2] at h3
  have h4 := (st 3).2.2.2.1 h3.1 (by rw [h3.2]; decide)
  rw [h3.2] at h4
  have h5 := (st 4).2.1 h4.1
  rw [h4.2] at h5
  have h6 := (st 5).2.2.1 h5.1
  rw [h5.2] at h6
  have h7 := (st 6).2.2.2.1 h6.1 (by rw [h6.2]; decide)
  rw [h6.2] at h7
  have h8 := (st 7).2.1 h7.1
  rw [h7.2] at h8
  have h9 := (st 8).2.2.1 h8.1
  rw [h8.2] at h9
  have h10 := (st 9).2.2.2.1 h9.1 (by rw [h9.2]; decide)
  rw [h9.2] at h10
  have h11 := (st 10).2.1 h10.1
  rw [h10.2] at h11
  have h12 := (st 11).2.2.1 h11.1
  rw [h11.2] at h12
  have h13 := (st 12).2.2.2.2.1 h12.1 (by rw [h12.2]; decide)
  rw [h12.2] at h13
  have h14 := (st 13).2.2.2.2.2.1 h13.1
  rw [h13.2] at h14
  simp only [List.range, List.range.loop, List.map]
  rw [h0.1, h0.2, h1.1, h1.2, h0.2, h2.1, h2.2, h3.1, h3.2, h4.1, h4.2, h5.1, h5.2, h6.1, h6.2,
    h7.1, h7.2, h8.1, h8.2, h9.1, h9.2, h10.1, h10.2, h11.1, h11.2, h12.1, h12.2, h13.1, h13.2,
    h14.1, h14.2]
  rfl

/-- From tick 14 on the phase rests in state 999 with the counter at 3. -/
theorem search_rest (P : Params) (env : Nat → Ext) (m : UMission)
    (hm : m.distanceCount = 0)
    (henv : ∀ k, (env k).noDetection ∧ (env k).allEventsSet) (k : Nat) :
    stateAt P env 0 m (14 + k) = 999 ∧ (objAt P env 0 m (14 + k)).distanceCount = 3 := by
  induction k with
  | zero =>
    have h := congrArg (fun l => l.getD 14 (0, 0)) (search_trace P env m hm henv)
    simp only [List.range, List.range.loop, List.map, List.getD] at h
    simpa using h
  | succ k ih =>
    have h := (search_step P env 0 m henv (14 + k)).2.2.2.2.2.2 ih.1
    rw [ih.2] at h
    exact h


theorem getD_of_map_range {α : Type} (f : Nat → α) (n : Nat) (L : List α) (d : α)
    (h : (List.range n).map f = L) (k : Nat) (hk : k < n) : f k = L.getD k d := by
  subst h
  simp [List.getD, hk]

theorem search_at (P : Params) (env : Nat → Ext) (m : UMission)
    (hm : m.distanceCount = 0)
    (henv : ∀ k, (env k).noDetection ∧ (env k).allEventsSet) (k : Nat) (hk : k < 15) :
    (stateAt P env 0 m k, (objAt P env 0 m k).distanceCount)
      = [((0 : Int), (0 : Int)), (10, 0), (11, 0), (20, 0), (10, 1), (11, 1), (20, 1), (10, 2),
         (11, 2), (20, 2), (10, 3), (11, 3), (20, 3), (66, 3), (999, 3)].getD k (0, 0) := by
  exact getD_of_map_range _ 15 _ (0, 0) (search_trace P env m hm henv) k hk

/-! ## The claims on `mission1` -/

/-- C6, bounded retry. A tick entered in state 20 submits exactly one snippet, the
turn-and-reposition lines `snippet20`, and then moves to state 10 with the counter
increased by exactly 1 when the counter is below 3, and to state 66 with the counter
unchanged otherwise. In a run from state 0 with the counter at 0 in which detection
always fails and every event reads set, the first fifteen ticks are entered in the
states 0, 10, 11, 20, 10, 11, 20, 10, 11, 20, 10, 11, 20, 66, 999 and every later one in
999; the counter never exceeds 3; state 20 is followed by state 10 exactly at the ticks
3, 6 and 9, the fourth visit of state 20 (tick 12) is followed by state 66, and state 10
is never entered again. -/
theorem bounded_retry (P : Params) (env : Nat → Ext) (m : UMission)
    (hm : m.distanceCount = 0)
    (henv : ∀ k, (env k).noDetection ∧ (env k).allEventsSet) :
    (∀ o : UMission,
      (mission1 P 20 o).obj.snippetCalls = o.snippetCalls + 1 ∧
      newCmds o (mission1 P 20 o).obj = newCmds o (submitLines P (snippet20 o.distanceCount) o) ∧
      (newCmds o (mission1 P 20 o).obj).countP Cmd.isArm = 1 ∧
      (mission1 P 20 o).finished = false ∧
      (o.distanceCount < 3 →
        (mission1 P 20 o).state = 10 ∧ (mission1 P 20 o).obj.distanceCount = o.distanceCount + 1) ∧
      (¬ o.distanceCount < 3 →
        (mission1 P 20 o).state = 66 ∧ (mission1 P 20 o).obj.distanceCount = o.distanceCount)) ∧
    (List.range 15).map (stateAt P env 0 m)
      = [0, 10, 11, 20, 10, 11, 20, 10, 11, 20, 10, 11, 20, 66, 999] ∧
    (∀ k, 14 ≤ k → stateAt P env 0 m k = 999) ∧
    (∀ k, (objAt P env 0 m k).distanceCount ≤ 3) ∧
    (∀ k, (stateAt P env 0 m k = 20 ∧ stateAt P env 0 m (k + 1) = 10) ↔ (k = 3 ∨ k = 6 ∨ k = 9)) ∧
    (stateAt P env 0 m 12 = 20 ∧ stateAt P env 0 m 13 = 66) ∧
    (∀ k, 13 ≤ k → stateAt P env 0 m k ≠ 10) := by
  have hat := search_at P env m hm henv
  have hrest := search_rest P env m hm henv
  have hlate : ∀ k, 14 ≤ k →
      stateAt P env 0 m k = 999 ∧ (objAt P env 0 m k).distanceCount = 3 := by
    intro k hk
    obtain ⟨j, rfl⟩ := Nat.exists_eq_add_of_le hk
    exact hrest j
  have hS : ∀ k, k < 15 → stateAt P env 0 m k
      = ([((0 : Int), (0 : Int)), (10, 0), (11, 0), (20, 0), (10, 1), (11, 1), (20, 1), (10, 2),
         (11, 2), (20, 2), (10, 3), (11, 3), (20, 3), (66, 3), (999, 3)].getD k (0, 0)).1 :=
    fun k hk => congrArg Prod.fst (hat k hk)
  have hD : ∀ k, k < 15 → (objAt P env 0 m k).distanceCount
      = ([((0 : Int), (0 : Int)), (10, 0), (11, 0), (20, 0), (10, 1), (11, 1), (20, 1), (10, 2),
         (11, 2), (20, 2), (10, 3), (11, 3), (20, 3), (66, 3), (999, 3)].getD k (0, 0)).2 :=
    fun k hk => congrArg Prod.snd (hat k hk)
  refine ⟨?_, ?_, fun k hk => (hlate k hk).1, ?_, ?_, ?_, ?_⟩
  · intro o
    have h := mission1_case20 P o
    refine ⟨h.2.1, ?_, ?_, h.1, h.2.2.2.2.1, h.2.2.2.2.2⟩
    · unfold newCmds
      rw [h.2.2.2.1]
    · unfold newCmds
      rw [h.2.2.2.1]
      exact countP_isArm_sendAndActivateSnippet P _ _ _
  · simp only [List.range, List.range.loop, List.map]
    rw [hS 0 (by omega), hS 1 (by omega), hS 2 (by omega), hS 3 (by omega), hS 4 (by omega),
      hS 5 (by omega), hS 6 (by omega), hS 7 (by omega), hS 8 (by omega), hS 9 (by omega),
      hS 10 (by omega), hS 11 (by omega), hS 12 (by omega), hS 13 (by omega), hS 14 (by omega)]
    rfl
  · intro k
    by_cases hk : k < 14
    · rw [hD k (by omega)]
      interval_cases k <;> decide
    · rw [(hlate k (by omega)).2]
  · intro k
    by_cases hk : k < 14
    · rw [hS k (by omega), hS (k + 1) (by omega)]
      interval_cases k <;> simp
    · rw [(hlate k (by omega)).1]
      constructor
      · intro h; exact absurd h.1 (by decide)
      · intro h; omega
  · rw [hS 12 (by omega), hS 13 (by omega)]
    exact ⟨rfl, rfl⟩
  · intro k hk
    by_cases h13 : k = 13
    · subst h13
      rw [hS 13 (by omega)]
      decide
    · rw [(hlate k (by omega)).1]
      decide

/-- Witness of C6: the collaborators that never find anything, on a fresh object. -/
theorem bounded_retry_witness :
    freshObject.distanceCount = 0 ∧
    (∀ k : Nat, ((fun _ => nothingFoundExt) k).noDetection ∧
      ((fun _ => nothingFoundExt) k).allEventsSet) ∧
    (List.range 15).map (stateAt exampleParams (fun _ => nothingFoundExt) 0 freshObject)
      = [0, 10, 11, 20, 10, 11, 20, 10, 11, 20, 10, 11, 20, 66, 999] :=
  ⟨rfl, fun _ => ⟨⟨rfl, by simp [nothingFoundExt]⟩, fun _ => rfl⟩,
    (bounded_retry exampleParams (fun _ => nothingFoundExt) freshObject rfl
      (fun _ => ⟨⟨rfl, by simp [nothingFoundExt]⟩, fun _ => rfl⟩)).2.1⟩


/-- One step of the end-to-end scenario, for each state on its path: next state,
returned flag, request flag after the tick and number of snippets submitted so far. -/
theorem scenario_step (P : Params) (env : Nat → Ext) (s : Int) (m : UMission)
    (henv : ∀ k, (env k).objectAhead) (k : Nat) :
    (objAt P env s m (k + 1)).snippetCalls = (tickAt P env s m k).obj.snippetCalls ∧
    (stateAt P env s m k = 0 →
      stateAt P env s m (k + 1) = 10 ∧ (tickAt P env s m k).finished = false ∧
      (tickAt P env s m k).obj.doObjectDetection = false ∧
      (tickAt P env s m k).obj.snippetCalls = (objAt P env s m k).snippetCalls + 1) ∧
    (stateAt P env s m k = 10 →
      stateAt P env s m (k + 1) = 11 ∧ (tickAt P env s m k).finished = false ∧
      (tickAt P env s m k).obj.doObjectDetection = true ∧
      (tickAt P env s m k).obj.snippetCalls = (objAt P env s m k).snippetCalls) ∧
    (stateAt P env s m k = 11 →
      stateAt P env s m (k + 1) = 30 ∧ (tickAt P env s m k).finished = false ∧
      (tickAt P env s m k).obj.doObjectDetection = false ∧
      (tickAt P env s m k).obj.snippetCalls = (objAt P env s m k).snippetCalls) ∧
    (stateAt P env s m k = 30 →
      stateAt P env s m (k + 1) = 40 ∧ (tickAt P env s m k).finished = false ∧
      (tickAt P env s m k).obj.doObjectDetection = false ∧
      (tickAt P env s m k).obj.snippetCalls = (objAt P env s m k).snippetCalls + 1) ∧
    (stateAt P env s m k = 40 →
      stateAt P env s m (k + 1) = 41 ∧ (tickAt P env s m k).finished = false ∧
      (tickAt P env s m k).obj.doObjectDetection = false ∧
      (tickAt P env s m k).obj.snippetCalls = (objAt P env s m k).snippetCalls + 1) ∧
    (stateAt P env s m k = 41 →
      stateAt P env s m (k + 1) = 66 ∧ (tickAt P env s m k).finished = false ∧
      (tickAt P env s m k).obj.doObjectDetection = false ∧
      (tickAt P env s m k).obj.snippetCalls = (objAt P env s m k).snippetCalls + 1) ∧
    (stateAt P env s m k = 66 →
      stateAt P env s m (k + 1) = 999 ∧ (tickAt P env s m k).finished = false ∧
      (tickAt P env s m k).obj.doObjectDetection = false ∧
      (tickAt P env s m k).obj.snippetCalls = (objAt P env s m k).snippetCalls + 1) ∧
    (stateAt P env s m k = 999 →
      stateAt P env s m (k + 1) = 999 ∧ (tickAt P env s m k).finished = true ∧
      (tickAt P env s m k).obj.doObjectDetection = false ∧
      (tickAt P env s m k).obj.snippetCalls = (objAt P env s m k).snippetCalls) := by
  obtain ⟨hflags, hreq, hdist, _⟩ := objAt_published P env s m k
  obtain ⟨hall, hnoreq, h450, _⟩ := henv k
  have hset : ∀ e, (objAt P env s m k).eventFlags e = true := fun e => by rw [hflags]; exact hall e
  have hreq0 : (objAt P env s m k).doObjectDetection = false := by rw [hreq, hnoreq]
  have hdet : 0 < (objAt P env s m k).distanceToObject ∧
      (objAt P env s m k).distanceToObject < 1100 := by
    rw [hdist, h450]; norm_num
  refine ⟨?_, ?_, ?_, ?_, ?_, ?_, ?_, ?_, ?_⟩
  · rw [objAt_succ, tickAt_eq]; rfl
  · intro h
    rw [stateAt_succ, tickAt_eq, h]
    have c := mission1_case0 P (objAt P env s m k)
    exact ⟨c.1, c.2.1, by rw [c.2.2.2.2, hreq0], c.2.2.1⟩
  · intro h
    rw [stateAt_succ, tickAt_eq, h]
    have c := mission1_case10 P (objAt P env s m k)
    exact ⟨(c.2.2.2.2.1 (hset _)).1, c.1, (c.2.2.2.2.1 (hset _)).2, c.2.1⟩
  · intro h
    rw [stateAt_succ, tickAt_eq, h]
    have c := mission1_case11 P (objAt P env s m k)
    exact ⟨c.2.2.2.2.2.1 hreq0 hdet, c.1, by rw [c.2.2.2.2.1, hreq0], c.2.1⟩
  · intro h
    rw [stateAt_succ, tickAt_eq, h]
    have c := mission1_case30 P (objAt P env s m k)
    exact ⟨c.1, c.2.1, by rw [c.2.2.2.2, hreq0], c.2.2.1⟩
  · intro h
    rw [stateAt_succ, tickAt_eq, h]
    have c := mission1_wait1 P (objAt P env s m k) 40 (by simp)
    exact ⟨(c.2.2.2.1 (hset 1)).1, c.1, by rw [c.2.2.1, hreq0], (c.2.2.2.1 (hset 1)).2⟩
  · intro h
    rw [stateAt_succ, tickAt_eq, h]
    have c := mission1_wait1 P (objAt P env s m k) 41 (by simp)
    exact ⟨(c.2.2.2.1 (hset 1)).1, c.1, by rw [c.2.2.1, hreq0], (c.2.2.2.1 (hset 1)).2⟩
  · intro h
    rw [stateAt_succ, tickAt_eq, h]
    have c := mission1_wait1 P (objAt P env s m k) 66 (by simp)
    exact ⟨(c.2.2.2.1 (hset 1)).1, c.1, by rw [c.2.2.1, hreq0], (c.2.2.2.1 (hset 1)).2⟩
  · intro h
    rw [stateAt_succ, tickAt_eq, h]
    have c := mission1_default P (objAt P env s m k) 999 (by decide)
    exact ⟨c.1, c.2.1, by rw [c.2.2.2.2.1, hreq0], c.2.2.1⟩

/-- C8, end-to-end scenario. From state 0, when before every tick the collaborators
have every event set, the detection request cleared and the object reported at 450 mm
and 12 degrees, eight ticks are entered in the states 0, 10, 11, 30, 40, 41, 66, 999;
the first seven return false and the eighth returns true; the request flag
`cam->doObjectDetection` is set by the second tick (state 10) and by no other; the
ticks entered in the states 0, 30, 40, 41, 66 call `sendAndActivateSnippet` once each and
the others do not, five calls in all. -/
theorem end_to_end (P : Params) (env : Nat → Ext) (m : UMission)
    (henv : ∀ k, (env k).objectAhead) :
    (List.range 8).map (stateAt P env 0 m) = [0, 10, 11, 30, 40, 41, 66, 999] ∧
    (List.range 8).map (fun k => (tickAt P env 0 m k).finished)
      = [false, false, false, false, false, false, false, true] ∧
    (List.range 8).map (fun k => (tickAt P env 0 m k).obj.doObjectDetection)
      = [false, true, false, false, false, false, false, false] ∧
    (List.range 8).map
        (fun k => (tickAt P env 0 m k).obj.snippetCalls - (objAt P env 0 m k).snippetCalls)
      = [1, 0, 0, 1, 1, 1, 1, 0] ∧
    (tickAt P env 0 m 7).obj.snippetCalls = m.snippetCalls + 5 := by
  have st := scenario_step P env 0 m henv
  have s0 : stateAt P env 0 m 0 = 0 := rfl
  have c0 : (objAt P env 0 m 0).snippetCalls = m.snippetCalls := rfl
  have t0 := (st 0).2.1 s0
  have t1 := (st 1).2.2.1 t0.1
  have t2 := (st 2).2.2.2.1 t1.1
  have t3 := (st 3).2.2.2.2.1 t2.1
  have t4 := (st 4).2.2.2.2.2.1 t3.1
  have t5 := (st 5).2.2.2.2.2.2.1 t4.1
  have t6 := (st 6).2.2.2.2.2.2.2.1 t5.1
  have t7 := (st 7).2.2.2.2.2.2.2.2 t6.1
  have n1 := (st 0).1
  have n2 := (st 1).1
  have n3 := (st 2).1
  have n4 := (st 3).1
  have n5 := (st 4).1
  have n6 := (st 5).1
  have n7 := (st 6).1
  refine ⟨?_, ?_, ?_, ?_, ?_⟩
  · simp only [List.range, List.range.loop, List.map]
    rw [s0, t0.1, t1.1, t2.1, t3.1, t4.1, t5.1, t6.1]
  · simp only [List.range, List.range.loop, List.map]
    rw [t0.2.1, t1.2.1, t2.2.1, t3.2.1, t4.2.1, t5.2.1, t6.2.1, t7.2.1]
  · simp only [List.range, List.range.loop, List.map]
    rw [t0.2.2.1, t1.2.2.1, t2.2.2.1, t3.2.2.1, t4.2.2.1, t5.2.2.1, t6.2.2.1, t7.2.2.1]
  · simp only [List.range, List.range.loop, List.map]
    rw [t0.2.2.2, t1.2.2.2, t2.2.2.2, t3.2.2.2, t4.2.2.2, t5.2.2.2, t6.2.2.2, t7.2.2.2]
    simp
  · rw [t7.2.2.2, n7, t6.2.2.2, n6, t5.2.2.2, n5, t4.2.2.2, n4, t3.2.2.2, n3, t2.2.2.2, n2,
      t1.2.2.2, n1, t0.2.2.2, c0]

/-- Witness of C8: the scenario on a fresh object with the example parameters. -/
theorem end_to_end_witness :
    (∀ k : Nat, ((fun _ => scenarioExt) k).objectAhead) ∧
    (List.range 8).map (stateAt exampleParams (fun _ => scenarioExt) 0 freshObject)
      = [0, 10, 11, 30, 40, 41, 66, 999] :=
  ⟨fun _ => ⟨fun _ => rfl, rfl, rfl, rfl⟩,
    (end_to_end exampleParams (fun _ => scenarioExt) freshObject
      (fun _ => ⟨fun _ => rfl, rfl, rfl, rfl⟩)).1⟩

/-- The next state of a tick entered in one of the nine states of the phase is again one
of them. -/
theorem mission1_state_mem (P : Params) (s : Int) (m : UMission)
    (hs : s ∈ [(0 : Int), 10, 11, 20, 30, 40, 41, 66, 999]) :
    (mission1 P s m).state ∈ [(0 : Int), 10, 11, 20, 30, 40, 41, 66, 999] := by
  simp only [List.mem_cons, List.mem_singleton, List.not_mem_nil, or_false] at hs
  rcases hs with rfl | rfl | rfl | rfl | rfl | rfl | rfl | rfl | rfl
  · rw [(mission1_case0 P m).1]; decide
  · cases h : m.eventFlags m.distanceCount
    · rw [((mission1_case10 P m).2.2.2.2.2 h).1]; decide
    · rw [((mission1_case10 P m).2.2.2.2.1 h).1]; decide
  · cases h : m.doObjectDetection
    · by_cases hd : 0 < m.distanceToObject ∧ m.distanceToObject < 1100
      · rw [(mission1_case11 P m).2.2.2.2.2.1 h hd]; decide
      · rw [(mission1_case11 P m).2.2.2.2.2.2.1 h hd]; decide
    · rw [(mission1_case11 P m).2.2.2.2.2.2.2 h]; decide
  · by_cases h : m.distanceCount < 3
    · rw [((mission1_case20 P m).2.2.2.2.1 h).1]; decide
    · rw [((mission1_case20 P m).2.2.2.2.2 h).1]; decide
  · rw [(mission1_case30 P m).1]; decide
  · cases h : m.eventFlags 1
    · rw [((mission1_wait1 P m 40 (by simp)).2.2.2.2 h).1]; decide
    · rw [((mission1_wait1 P m 40 (by simp)).2.2.2.1 h).1]; decide
  · cases h : m.eventFlags 1
    · rw [((mission1_wait1 P m 41 (by simp)).2.2.2.2 h).1]; decide
    · rw [((mission1_wait1 P m 41 (by simp)).2.2.2.1 h).1]; decide
  · cases h : m.eventFlags 1
    · rw [((mission1_wait1 P m 66 (by simp)).2.2.2.2 h).1]; decide
    · rw [((mission1_wait1 P m 66 (by simp)).2.2.2.1 h).1]; decide
  · rw [(mission1_default P m 999 (by decide)).1]; decide

theorem mission1_finished_false (P : Params) (s : Int) (m : UMission)
    (hs : s ∈ [(0 : Int), 10, 11, 20, 30, 40, 41, 66]) :
    (mission1 P s m).finished = false := by
  simp only [List.mem_cons, List.mem_singleton, List.not_mem_nil, or_false] at hs
  rcases hs with rfl | rfl | rfl | rfl | rfl | rfl | rfl | rfl
  · exact (mission1_case0 P m).2.1
  · exact (mission1_case10 P m).1
  · exact (mission1_case11 P m).1
  · exact (mission1_case20 P m).1
  · exact (mission1_case30 P m).2.1
  · exact (mission1_wait1 P m 40 (by simp)).1
  · exact (mission1_wait1 P m 41 (by simp)).1
  · exact (mission1_wait1 P m 66 (by simp)).1

theorem reachable_mem (P : Params) (s : Int) (h : Reachable P s) :
    s ∈ [(0 : Int), 10, 11, 20, 30, 40, 41, 66, 999] := by
  induction h with
  | start => decide
  | tick s m _ ih => exact mission1_state_mem P s m ih

/-- The terminal state is reached along 0, 10, 11, 30, 40, 41, 66 when every event is
set and an object is detected. -/
theorem reachable_terminal (P : Params) : Reachable P 999 := by
  have hset : ∀ e, (publish scenarioExt freshObject).eventFlags e = true := fun _ => rfl
  have hdet : 0 < (publish scenarioExt freshObject).distanceToObject ∧
      (publish scenarioExt freshObject).distanceToObject < 1100 := by
    show (0 : ℚ) < 450 ∧ (450 : ℚ) < 1100
    norm_num
  have r10 := Reachable.tick 0 (publish scenarioExt freshObject) (Reachable.start (P := P))
  rw [(mission1_case0 P _).1] at r10
  have r11 := Reachable.tick 10 (publish scenarioExt freshObject) r10
  rw [((mission1_case10 P _).2.2.2.2.1 (hset _)).1] at r11
  have r30 := Reachable.tick 11 (publish scenarioExt freshObject) r11
  rw [(mission1_case11 P _).2.2.2.2.2.1 rfl hdet] at r30
  have r40 := Reachable.tick 30 (publish scenarioExt freshObject) r30
  rw [(mission1_case30 P _).1] at r40
  have r41 := Reachable.tick 40 (publish scenarioExt freshObject) r40
  rw [((mission1_wait1 P _ 40 (by simp)).2.2.2.1 (hset 1)).1] at r41
  have r66 := Reachable.tick 41 (publish scenarioExt freshObject) r41
  rw [((mission1_wait1 P _ 41 (by simp)).2.2.2.1 (hset 1)).1] at r66
  have r999 := Reachable.tick 66 (publish scenarioExt freshObject) r66
  rw [((mission1_wait1 P _ 66 (by simp)).2.2.2.1 (hset 1)).1] at r999
  exact r999

/-- C9, phase complete only from the terminal state. Every state reachable from state 0
by ticks of `mission1`, whatever the object holds at each tick, is one of 0, 10, 11, 20,
30, 40, 41, 66, 999 (and 999 is reachable); a tick entered in state 999 returns true,
leaves the state at 999 and submits no snippet (it sends the display text only); a tick
entered in any other reachable state returns false. -/
theorem phase_complete_only_terminal (P : Params) :
    (∀ s, Reachable P s → s ∈ [(0 : Int), 10, 11, 20, 30, 40, 41, 66, 999]) ∧
    Reachable P 999 ∧
    (∀ m : UMission,
      (mission1 P 999 m).finished = true ∧ (mission1 P 999 m).state = 999 ∧
      (mission1 P 999 m).obj.snippetCalls = m.snippetCalls ∧
      (mission1 P 999 m).obj.threadActive = m.threadActive ∧
      newCmds m (mission1 P 999 m).obj = [Cmd.text "oled 5 mission 3 ended\n"]) ∧
    (∀ (s : Int) (m : UMission), Reachable P s → s ≠ 999 →
      (mission1 P s m).finished = false) := by
  refine ⟨reachable_mem P, ?_, ?_, ?_⟩
  · exact reachable_terminal P
  · intro m
    have c := mission1_default P m 999 (by decide)
    exact ⟨c.2.1, c.1, c.2.2.1, by simp [mission1, printf], c.2.2.2.2.2⟩
  · intro s m hr hne
    have hmem := reachable_mem P s hr
    apply mission1_finished_false
    simp only [List.mem_cons, List.mem_singleton, List.not_mem_nil, or_false] at hmem ⊢
    tauto

/-- C10, detection outcome. A tick entered in state 11 with the request flag cleared
moves to state 30 exactly when `0 < distanceToObject < 1100` and to state 20 otherwise; it
submits no snippet, sends no command and returns false. -/
theorem detection_outcome (P : Params) (m : UMission) (hreq : m.doObjectDetection = false) :
    ((mission1 P 11 m).state = 30 ↔ (0 < m.distanceToObject ∧ m.distanceToObject < 1100)) ∧
    ((mission1 P 11 m).state = 20 ↔ ¬ (0 < m.distanceToObject ∧ m.distanceToObject < 1100)) ∧
    (mission1 P 11 m).obj.snippetCalls = m.snippetCalls ∧
    (mission1 P 11 m).obj.sent = m.sent ∧
    (mission1 P 11 m).obj.threadActive = m.threadActive ∧
    (mission1 P 11 m).finished = false := by
  have c := mission1_case11 P m
  refine ⟨?_, ?_, c.2.1, c.2.2.2.1, ?_, c.1⟩
  · by_cases hd : 0 < m.distanceToObject ∧ m.distanceToObject < 1100
    · simp [c.2.2.2.2.2.1 hreq hd, hd]
    · rw [c.2.2.2.2.2.2.1 hreq hd]
      simp [hd]
  · by_cases hd : 0 < m.distanceToObject ∧ m.distanceToObject < 1100
    · rw [c.2.2.2.2.2.1 hreq hd]
      simp [hd]
    · simp [c.2.2.2.2.2.2.1 hreq hd, hd]
  · by_cases hd : 0 < m.distanceToObject ∧ m.distanceToObject < 1100
    · have hd2 : m.distanceToObject > 0 ∧ m.distanceToObject < 1100 := hd
      simp [mission1, printf, hreq, hd2]
    · have hd2 : ¬ (m.distanceToObject > 0 ∧ m.distanceToObject < 1100) := hd
      simp only [mission1, printf, hreq, hd2]
      simp

/-- Witness of C10: a reading of 450 with the request served leads to state 30. -/
theorem detection_outcome_witness :
    (publish scenarioExt freshObject).doObjectDetection = false ∧
    ((mission1 exampleParams 11 (publish scenarioExt freshObject)).state = 30 ↔
      (0 < (publish scenarioExt freshObject).distanceToObject ∧
        (publish scenarioExt freshObject).distanceToObject < 1100)) :=
  ⟨rfl, (detection_outcome exampleParams (publish scenarioExt freshObject) rfl).1⟩


/-! ## The fail-open scenario -/

/-- A tick of the fail-open scenario entered in state 10 while the awaited event
`distanceCount` is not set: nothing is sent, no event is raised, the wait goes on. -/
theorem failOpenTick_wait (P : Params) (reading : ℚ) (m : UMission)
    (h : m.eventFlags m.distanceCount = false) :
    (failOpenTick P reading 10 m).state = 10 ∧
    (failOpenTick P reading 10 m).finished = false ∧
    (failOpenTick P reading 10 m).obj.distanceCount = m.distanceCount ∧
    (failOpenTick P reading 10 m).obj.eventFlags m.distanceCount = false := by
  simp [failOpenTick, mission1, isEventSet, newCmds, syncEvent, h]

/-- C7, fail-open on retry exhaustion, evaluated on the code. In the run of `mission1`
from state 0 on a fresh object (counter 0, no event pending) in which detection always
fails (request served, reading 0) and the controller raises exactly the event of the
synchronization line of each submitted snippet, the first retry (tick 3, state 20)
uploads a snippet that raises event 0 and increases the counter to 1, so that state 10
waits for event 1: from tick 3 on (ticks counted from 0) every tick ends in state 10 with event 1 not set, every
tick of the run returns false, and state 999 is never reached. -/
theorem fail_open_stuck :
    ((List.range 4).map (fun k => (failOpenRun exampleParams 0 0 freshObject k).state)
      = [10, 11, 20, 10]) ∧
    syncEvent (newCmds (failOpenRun exampleParams 0 0 freshObject 2).obj
      (failOpenRun exampleParams 0 0 freshObject 3).obj) = some 0 ∧
    (∀ n, 3 ≤ n →
      (failOpenRun exampleParams 0 0 freshObject n).state = 10 ∧
      (failOpenRun exampleParams 0 0 freshObject n).obj.distanceCount = 1 ∧
      (failOpenRun exampleParams 0 0 freshObject n).obj.eventFlags 1 = false) ∧
    (∀ n, (failOpenRun exampleParams 0 0 freshObject n).finished = false ∧
      (failOpenRun exampleParams 0 0 freshObject n).state ≠ 999) := by
  have h3 : (failOpenRun exampleParams 0 0 freshObject 3).state = 10 ∧
      (failOpenRun exampleParams 0 0 freshObject 3).obj.distanceCount = 1 ∧
      (failOpenRun exampleParams 0 0 freshObject 3).obj.eventFlags 1 = false := by
    refine ⟨by decide, by decide, by decide⟩
  have hlate : ∀ n, 3 ≤ n →
      (failOpenRun exampleParams 0 0 freshObject n).state = 10 ∧
      (failOpenRun exampleParams 0 0 freshObject n).finished = false ∧
      (failOpenRun exampleParams 0 0 freshObject n).obj.distanceCount = 1 ∧
      (failOpenRun exampleParams 0 0 freshObject n).obj.eventFlags 1 = false := by
    intro n hn
    induction n, hn using Nat.le_induction with
    | base => exact ⟨h3.1, by decide, h3.2.1, h3.2.2⟩
    | succ n _ ih =>
      obtain ⟨hs, _, hd, hf⟩ := ih
      have hw := failOpenTick_wait exampleParams 0
        (failOpenRun exampleParams 0 0 freshObject n).obj (by rw [hd]; exact hf)
      rw [hd] at hw
      have hrun : failOpenRun exampleParams 0 0 freshObject (n + 1)
          = failOpenTick exampleParams 0 10 (failOpenRun exampleParams 0 0 freshObject n).obj := by
        rw [← hs]
        rfl
      rw [hrun]
      exact hw
  refine ⟨by decide, by decide, fun n hn => ⟨(hlate n hn).1, (hlate n hn).2.2⟩, ?_⟩
  intro n
  by_cases hn : 3 ≤ n
  · refine ⟨(hlate n hn).2.1, ?_⟩
    rw [(hlate n hn).1]
    decide
  · have : n = 0 ∨ n = 1 ∨ n = 2 := by omega
    rcases this with rfl | rfl | rfl <;> exact ⟨by decide, by decide⟩


/-! ## Decimal event ids -/

theorem digitChar_spec (x : Nat) (hx : x < 10) :
    (Nat.digitChar x).isDigit = true ∧ (Nat.digitChar x).toNat - 48 = x := by
  interval_cases x <;> exact ⟨by decide, by decide⟩

theorem toDigitsCore_append (fuel : Nat) :
    ∀ (n : Nat) (ds : List Char),
      Nat.toDigitsCore 10 fuel n ds = Nat.toDigitsCore 10 fuel n [] ++ ds := by
  induction fuel with
  | zero => intro n ds; simp [Nat.toDigitsCore]
  | succ fuel ih =>
    intro n ds
    simp only [Nat.toDigitsCore]
    by_cases h : n / 10 = 0
    · simp [h]
    · simp only [h, if_false]
      rw [ih (n / 10) (Nat.digitChar (n % 10) :: ds), ih (n / 10) [Nat.digitChar (n % 10)]]
      simp

/-- Reading back the decimal digits of `n`: they start with a digit and their value,
continued from `acc`, is `acc * 10 ^ k + n` for the number `k` of digits. -/
theorem readNat_toDigitsCore (n : Nat) :
    ∀ fuel, n < fuel → ∀ ds : List Char, ∃ c cs k,
      Nat.toDigitsCore 10 fuel n ds = c :: cs ∧ c.isDigit = true ∧
      ∀ acc, readNat acc (c :: cs) = readNat (acc * 10 ^ k + n) ds := by
  induction n using Nat.strong_induction_on with
  | _ n ih =>
    intro fuel hfuel ds
    obtain ⟨f, rfl⟩ : ∃ f, fuel = f + 1 := ⟨fuel - 1, by omega⟩
    simp only [Nat.toDigitsCore]
    by_cases h : n / 10 = 0
    · have hn : n < 10 := by omega
      have hd := digitChar_spec (n % 10) (Nat.mod_lt _ (by decide))
      refine ⟨Nat.digitChar (n % 10), ds, 1, by simp [h], hd.1, ?_⟩
      intro acc
      rw [readNat, if_pos hd.1, hd.2, Nat.mod_eq_of_lt hn]
      simp
    · have hlt : n / 10 < n := by omega
      obtain ⟨c, cs, k, heq, hc, hread⟩ :=
        ih (n / 10) hlt f (by omega) (Nat.digitChar (n % 10) :: ds)
      have hd := digitChar_spec (n % 10) (Nat.mod_lt _ (by decide))
      refine ⟨c, cs, k + 1, by simp [h, heq], hc, ?_⟩
      intro acc
      rw [hread acc, readNat, if_pos hd.1, hd.2]
      congr 1
      have := Nat.div_add_mod n 10
      rw [pow_succ]
      nlinarith [this]

/-- A field `event=N` at the front of a text, closed by a character that is no digit,
reads as `N`. -/
theorem eventField_at (n : Nat) (c : Char) (rest : List Char) (hc : c.isDigit = false) :
    eventField ('e' :: 'v' :: 'e' :: 'n' :: 't' :: '=' :: ((toString n).data ++ c :: rest))
      = some (n : Int) := by
  have happ : (toString n).data ++ c :: rest = Nat.toDigitsCore 10 (n + 1) n (c :: rest) := by
    rw [toDigitsCore_append (n + 1) n (c :: rest)]
    rfl
  obtain ⟨d, ds, k, heq, hd, hread⟩ := readNat_toDigitsCore n (n + 1) (by omega) (c :: rest)
  rw [happ, heq]
  have hval : readNat 0 (d :: ds) = n := by
    rw [hread 0, readNat, if_neg (by simp [hc])]
    simp
  simp [eventField, stripLit, hd, hval]

theorem fmtD_natCast (n : Nat) : fmtD (n : Int) = toString n := rfl


/-- The synchronization line of case 0 raises the event `distanceCount`. -/
theorem eventField_sync0 (n : Nat) :
    eventField ("vel=0.0, event=" ++ fmtD (n : Int) ++ ": time=1.0").data = some (n : Int) := by
  rw [fmtD_natCast]
  simp only [String.data_append]
  have h := eventField_at n ':' [' ', 't', 'i', 'm', 'e', '=', '1', '.', '0'] (by decide)
  simp only [List.cons_append, List.nil_append, List.append_assoc]
  simp only [eventField, stripLit]
  simp only [eventField, stripLit] at h
  simpa using h

/-- The synchronization line of case 20 raises the event `distanceCount`. -/
theorem eventField_sync20 (n : Nat) :
    eventField ("vel=0.0, event=" ++ fmtD (n : Int) ++ ": time=0.1").data = some (n : Int) := by
  rw [fmtD_natCast]
  simp only [String.data_append]
  have h := eventField_at n ':' [' ', 't', 'i', 'm', 'e', '=', '0', '.', '1'] (by decide)
  simp only [List.cons_append, List.nil_append, List.append_assoc]
  simp only [eventField, stripLit]
  simp only [eventField, stripLit] at h
  simpa using h


/-! ## What a submitted snippet puts on the link -/

theorem lines_writeLines (P : Params) (texts : List String) (m : UMission) (j : Nat)
    (hj : j < texts.length) :
    (writeLines P texts m).lines j = snprintf P.MAX_LEN (texts.getD j "") := by
  simp [writeLines, List.getD, List.getElem?_eq_getElem hj]

theorem snprintf_ne_empty (n : Nat) (t : String) (ht : t ≠ "") (hn : 2 ≤ n) :
    snprintf n t ≠ "" := by
  rcases t with ⟨cs⟩
  cases cs with
  | nil => exact absurd rfl ht
  | cons c cs =>
    obtain ⟨k, rfl⟩ : ∃ k, n = k + 2 := ⟨n - 2, by omega⟩
    intro h
    have := congrArg String.data h
    simp [snprintf] at this

theorem append_ne_empty (a b : String) (ha : a ≠ "") : a ++ b ≠ "" := by
  intro h
  have h1 := congrArg String.data h
  simp only [String.data_append] at h1
  have h2 : a.data = [] := (List.append_eq_nil.1 h1).1
  exact ha (by rcases a with ⟨cs⟩; simp at h2; subst h2; rfl)

/-- A snippet that fits the thread and has no line that is empty once cut to the line
buffer is uploaded whole: one modify command per line, in order, then the arm command. -/
theorem newCmds_submitLines (P : Params) (texts : List String) (m : UMission)
    (hlen : texts.length ≤ P.missionLineMax)
    (hne : ∀ t ∈ texts, snprintf P.MAX_LEN t ≠ "") :
    newCmds m (submitLines P texts m)
      = (List.range texts.length).map
          (fun j : Nat =>
            Cmd.mod (if m.threadActive = 101 then 100 else 101) ((j : Int) + 1)
              (snprintf P.MAX_LEN (texts.getD j "")))
        ++ [Cmd.event (if m.threadActive = 101 then 30 else 31)] := by
  have hmin : (min (texts.length : Int) (P.missionLineMax : Int)).toNat = texts.length := by
    rw [min_eq_left (by exact_mod_cast hlen)]
    simp
  have hlines : ∀ j, j < texts.length → (writeLines P texts m).lines j ≠ "" := by
    intro j hj
    rw [lines_writeLines P texts m j hj]
    apply hne
    rw [List.getD_eq_getElem _ _ hj]
    exact List.getElem_mem hj
  rw [sent_submitLines,
    newCmds_of_firstEmpty P _ _ m texts.length (by rw [hmin]) hlines
      (fun h => absurd h (by rw [hmin]; exact lt_irrefl _))]
  congr 1
  apply List.map_congr_left
  intro j hj
  rw [lines_writeLines P texts m j (List.mem_range.1 hj)]

/-- The event raised by a snippet uploaded whole is the event field of its last line. -/
theorem syncEvent_submitLines (P : Params) (texts : List String) (m : UMission) (k : Nat)
    (hk : texts.length = k + 1)
    (hlen : texts.length ≤ P.missionLineMax)
    (hne : ∀ t ∈ texts, snprintf P.MAX_LEN t ≠ "") :
    syncEvent (newCmds m (submitLines P texts m))
      = eventField (snprintf P.MAX_LEN (texts.getD k "")).data := by
  rw [newCmds_submitLines P texts m hlen hne, syncEvent, filter_isMod_shape, hk,
    List.range_succ, List.map_append]
  simp

theorem countP_isMod_submitLines (P : Params) (texts : List String) (m : UMission)
    (hlen : texts.length ≤ P.missionLineMax)
    (hne : ∀ t ∈ texts, snprintf P.MAX_LEN t ≠ "") :
    (newCmds m (submitLines P texts m)).countP Cmd.isMod = texts.length := by
  rw [newCmds_submitLines P texts m hlen hne, countP_isMod_shape]

theorem snippet0_ne_empty (d : Int) : ∀ t ∈ snippet0 d, t ≠ "" := by
  intro t ht
  simp only [snippet0, List.mem_cons, List.mem_singleton, List.not_mem_nil, or_false] at ht
  rcases ht with rfl | rfl | rfl | rfl | rfl | rfl | rfl | rfl | rfl
  any_goals decide
  rw [String.append_assoc]
  exact append_ne_empty _ _ (by decide)

theorem snippet20_ne_empty (d : Int) : ∀ t ∈ snippet20 d, t ≠ "" := by
  intro t ht
  simp only [snippet20, List.mem_cons, List.mem_singleton, List.not_mem_nil, or_false] at ht
  rcases ht with rfl | rfl | rfl | rfl | rfl | rfl | rfl | rfl
  any_goals decide
  rw [String.append_assoc]
  exact append_ne_empty _ _ (by decide)

theorem snippet30_ne_empty (P : Params) (a d : ℚ) : ∀ t ∈ snippet30 P a d, t ≠ "" := by
  intro t ht
  simp only [snippet30, List.mem_cons, List.mem_singleton, List.not_mem_nil, or_false] at ht
  rcases ht with rfl | rfl | rfl
  · exact append_ne_empty _ _ (by decide)
  · exact append_ne_empty _ _ (by decide)
  · decide

theorem snippet40_ne_empty (P : Params) (a : ℚ) : ∀ t ∈ snippet40 P a, t ≠ "" := by
  intro t ht
  simp only [snippet40, List.mem_cons, List.mem_singleton, List.not_mem_nil, or_false] at ht
  rcases ht with rfl | rfl | rfl | rfl
  · decide
  · exact append_ne_empty _ _ (by decide)
  · decide
  · decide

theorem snippet41_ne_empty : ∀ t ∈ snippet41, t ≠ "" := by decide

theorem snippet66_ne_empty : ∀ t ∈ snippet66, t ≠ "" := by decide

/-- The commands of a tick that submits a snippet are those of the submission: case by
case, the lines handed to `sendAndActivateSnippet`. -/
theorem mission1_newCmds (P : Params) (m : UMission) :
    newCmds m (mission1 P 0 m).obj = newCmds m (submitLines P (snippet0 m.distanceCount) m) ∧
    newCmds m (mission1 P 20 m).obj = newCmds m (submitLines P (snippet20 m.distanceCount) m) ∧
    newCmds m (mission1 P 30 m).obj
      = newCmds m (submitLines P
          (snippet30 P m.angleToObject (m.distanceToObject / 1000 - 0.20)) m) ∧
    (m.eventFlags 1 = true →
      newCmds m (mission1 P 40 m).obj = newCmds m (submitLines P (snippet40 P m.angle) m) ∧
      newCmds m (mission1 P 41 m).obj = newCmds m (submitLines P snippet41 m) ∧
      newCmds m (mission1 P 66 m).obj = newCmds m (submitLines P snippet66 m)) := by
  refine ⟨?_, ?_, ?_, ?_⟩
  · simp [mission1, submitLines, sendAndActivateSnippet, writeLines, isEventSet, newCmds]
  · by_cases h : m.distanceCount < 3 <;>
      simp [mission1, submitLines, sendAndActivateSnippet, writeLines, isEventSet, newCmds,
        printf, h]
  · simp [mission1, submitLines, sendAndActivateSnippet, writeLines, isEventSet, newCmds, printf]
  · intro h
    refine ⟨?_, ?_, ?_⟩ <;>
      simp [mission1, submitLines, sendAndActivateSnippet, writeLines, isEventSet, newCmds,
        printf, h]


/-! ## The claims on the approach and on the events of `mission1` -/

/-- C11, approach parameters. A tick entered in state 30 stores `angle = angleToObject`
and `dist = distanceToObject / 1000 - 0.20` (exact arithmetic), calls
`sendAndActivateSnippet` once with the three lines turn by `angle`, drive by `dist`,
stop and raise event 1, and moves to state 40; when the thread holds three lines and the
line buffer 24 bytes the three lines go out as three modify commands, the last one
raising event 1; for `distanceToObject = 450` and `angleToObject = 12` the turn parameter
is 12 and the drive parameter is 0.25. -/
theorem approach_parameters (P : Params) (m : UMission) :
    (mission1 P 30 m).obj.angle = m.angleToObject ∧
    (mission1 P 30 m).obj.dist = m.distanceToObject / 1000 - 1 / 5 ∧
    (mission1 P 30 m).state = 40 ∧
    (mission1 P 30 m).obj.snippetCalls = m.snippetCalls + 1 ∧
    newCmds m (mission1 P 30 m).obj
      = newCmds m (sendAndActivateSnippet P (mission1 P 30 m).obj.lines 3 m) ∧
    (mission1 P 30 m).obj.lines 0
      = snprintf P.MAX_LEN
          ("vel=0.2,acc=2,tr=0.0:turn=" ++ P.fmtF1 (1 * (mission1 P 30 m).obj.angle)) ∧
    (mission1 P 30 m).obj.lines 1
      = snprintf P.MAX_LEN ("vel=0.2,acc=2 :dist=" ++ P.fmtF3 (mission1 P 30 m).obj.dist) ∧
    (mission1 P 30 m).obj.lines 2 = snprintf P.MAX_LEN "vel=0, event=1:time=0.1" ∧
    (3 ≤ P.missionLineMax → 24 ≤ P.MAX_LEN →
      (newCmds m (mission1 P 30 m).obj).countP Cmd.isMod = 3 ∧
      syncEvent (newCmds m (mission1 P 30 m).obj) = some 1) ∧
    (m.distanceToObject = 450 → m.angleToObject = 12 →
      1 * (mission1 P 30 m).obj.angle = 12 ∧ (mission1 P 30 m).obj.dist = 1 / 4) := by
  have hang : (mission1 P 30 m).obj.angle = m.angleToObject := by
    simp [mission1, submitLines, sendAndActivateSnippet, writeLines, isEventSet, printf]
  have hdist : (mission1 P 30 m).obj.dist = m.distanceToObject / 1000 - 1 / 5 := by
    simp [mission1, submitLines, sendAndActivateSnippet, writeLines, isEventSet, printf]
    norm_num
  have hne : ∀ t ∈ snippet30 P m.angleToObject (m.distanceToObject / 1000 - 0.20),
      2 ≤ P.MAX_LEN → snprintf P.MAX_LEN t ≠ "" :=
    fun t ht h2 => snprintf_ne_empty _ _ (snippet30_ne_empty P _ _ t ht) h2
  refine ⟨hang, hdist, (mission1_case30 P m).1, (mission1_case30 P m).2.2.1, ?_, ?_, ?_, ?_, ?_, ?_⟩
  · simp [mission1, submitLines, sendAndActivateSnippet, writeLines, isEventSet, printf, newCmds,
      snippet30]
  · simp [mission1, submitLines, sendAndActivateSnippet, writeLines, isEventSet, printf,
      snippet30]
  · simp [mission1, submitLines, sendAndActivateSnippet, writeLines, isEventSet, printf,
      snippet30]
  · simp [mission1, submitLines, sendAndActivateSnippet, writeLines, isEventSet, printf,
      snippet30]
  · intro h3 h24
    rw [(mission1_newCmds P m).2.2.1]
    refine ⟨?_, ?_⟩
    · rw [countP_isMod_submitLines P _ m (by simpa [snippet30] using h3)
        (fun t ht => hne t ht (by omega))]
      rfl
    · rw [syncEvent_submitLines P
        (snippet30 P m.angleToObject (m.distanceToObject / 1000 - 0.20)) m 2 rfl
        (by simpa [snippet30] using h3) (fun t ht => hne t ht (by omega))]
      have hfit : snprintf P.MAX_LEN "vel=0, event=1:time=0.1" = "vel=0, event=1:time=0.1" :=
        snprintf_of_fits _ _ (by
          have : ("vel=0, event=1:time=0.1" : String).length = 23 := by decide
          omega)
      simp only [snippet30, List.getD_cons_succ, List.getD_cons_zero]
      rw [hfit]
      decide
  · intro h450 h12
    rw [hang, hdist, h450, h12]
    norm_num

/-- Witness of C11: the approach of an object at 450 mm and 12 degrees with the example
parameters. -/
theorem approach_parameters_witness :
    (3 ≤ exampleParams.missionLineMax) ∧ (24 ≤ exampleParams.MAX_LEN) ∧
    (publish scenarioExt freshObject).distanceToObject = 450 ∧
    (publish scenarioExt freshObject).angleToObject = 12 ∧
    (newCmds (publish scenarioExt freshObject)
      (mission1 exampleParams 30 (publish scenarioExt freshObject)).obj).countP Cmd.isMod = 3 ∧
    (mission1 exampleParams 30 (publish scenarioExt freshObject)).obj.dist = 1 / 4 :=
  ⟨by decide, by decide, rfl, rfl,
    ((approach_parameters exampleParams (publish scenarioExt freshObject)).2.2.2.2.2.2.2.2.1
      (by decide) (by decide)).1,
    ((approach_parameters exampleParams (publish scenarioExt freshObject)).2.2.2.2.2.2.2.2.2
      rfl rfl).2⟩

theorem length_sync0 (d : Int) :
    ("vel=0.0, event=" ++ fmtD d ++ ": time=1.0").length = (fmtD d).length + 25 := by
  simp only [String.length_append]
  have h1 : ("vel=0.0, event=" : String).length = 15 := by decide
  have h2 : (": time=1.0" : String).length = 10 := by decide
  omega

theorem length_sync20 (d : Int) :
    ("vel=0.0, event=" ++ fmtD d ++ ": time=0.1").length = (fmtD d).length + 25 := by
  simp only [String.length_append]
  have h1 : ("vel=0.0, event=" : String).length = 15 := by decide
  have h2 : (": time=0.1" : String).length = 10 := by decide
  omega

/-- The wait states leave their state exactly when the event they await reads set. -/
theorem awaitedEvent_spec (P : Params) (s e : Int) (m : UMission)
    (h : awaitedEvent s m = some e) :
    ((mission1 P s m).state ≠ s ↔ m.eventFlags e = true) := by
  unfold awaitedEvent at h
  by_cases h10 : s = 10
  · subst h10
    simp at h
    subst h
    cases hf : m.eventFlags m.distanceCount
    · simp [((mission1_case10 P m).2.2.2.2.2 hf).1]
    · simp [((mission1_case10 P m).2.2.2.2.1 hf).1]
  · simp only [h10, if_false] at h
    by_cases hs : s = 40 ∨ s = 41 ∨ s = 66
    · simp only [hs, if_true, Option.some.injEq] at h
      subst h
      have c := mission1_wait1 P m s hs
      cases hf : m.eventFlags 1
      · simp [(c.2.2.2.2 hf).1]
      · rw [(c.2.2.2.1 hf).1]
        rcases hs with rfl | rfl | rfl <;> simp
    · simp [hs] at h

/-- C16, synchronization line, as the code has it. When the thread holds nine lines and
the line buffer holds the synchronization line whole, the snippets submitted in the
states 0 and 20 end with a line that raises the event `distanceCount` (for a counter
that is not negative), those submitted in the states 30 and 40 end with a line that
raises event 1, and the snippet submitted in state 66, after which the phase is in its
terminal state and awaits nothing, ends with a line without event field. -/
theorem sync_line_present (P : Params) (m : UMission) (n : Nat)
    (h9 : 9 ≤ P.missionLineMax) (hd : m.distanceCount = (n : Int))
    (hfit : (fmtD (n : Int)).length + 26 ≤ P.MAX_LEN) :
    syncEvent (newCmds m (mission1 P 0 m).obj) = some (n : Int) ∧
    syncEvent (newCmds m (mission1 P 20 m).obj) = some (n : Int) ∧
    syncEvent (newCmds m (mission1 P 30 m).obj) = some 1 ∧
    (m.eventFlags 1 = true → syncEvent (newCmds m (mission1 P 40 m).obj) = some 1) ∧
    (m.eventFlags 1 = true →
      (mission1 P 66 m).state = 999 ∧ syncEvent (newCmds m (mission1 P 66 m).obj) = none) := by
  have h2 : 2 ≤ P.MAX_LEN := by omega
  have hc := mission1_newCmds P m
  have hfit1 : snprintf P.MAX_LEN "vel=0, event=1:time=0.1" = "vel=0, event=1:time=0.1" :=
    snprintf_of_fits _ _ (by
      have : ("vel=0, event=1:time=0.1" : String).length = 23 := by decide
      omega)
  refine ⟨?_, ?_, ?_, ?_, ?_⟩
  · rw [hc.1, syncEvent_submitLines P (snippet0 m.distanceCount) m 8 rfl
      (by simpa [snippet0] using h9)
      (fun t ht => snprintf_ne_empty _ _ (snippet0_ne_empty _ t ht) h2)]
    simp only [snippet0, List.getD_cons_succ, List.getD_cons_zero]
    rw [hd, snprintf_of_fits _ _ (by rw [length_sync0]; omega)]
    exact eventField_sync0 n
  · rw [hc.2.1, syncEvent_submitLines P (snippet20 m.distanceCount) m 7 rfl
      (by simp only [snippet20, List.length_cons, List.length_nil]; omega)
      (fun t ht => snprintf_ne_empty _ _ (snippet20_ne_empty _ t ht) h2)]
    simp only [snippet20, List.getD_cons_succ, List.getD_cons_zero]
    rw [hd, snprintf_of_fits _ _ (by rw [length_sync20]; omega)]
    exact eventField_sync20 n
  · rw [hc.2.2.1, syncEvent_submitLines P
      (snippet30 P m.angleToObject (m.distanceToObject / 1000 - 0.20)) m 2 rfl
      (by simp only [snippet30, List.length_cons, List.length_nil]; omega)
      (fun t ht => snprintf_ne_empty _ _ (snippet30_ne_empty _ _ _ t ht) h2)]
    simp only [snippet30, List.getD_cons_succ, List.getD_cons_zero]
    rw [hfit1]
    decide
  · intro hf
    rw [(hc.2.2.2 hf).1, syncEvent_submitLines P (snippet40 P m.angle) m 3 rfl
      (by simp only [snippet40, List.length_cons, List.length_nil]; omega)
      (fun t ht => snprintf_ne_empty _ _ (snippet40_ne_empty _ _ t ht) h2)]
    simp only [snippet40, List.getD_cons_succ, List.getD_cons_zero]
    rw [hfit1]
    decide
  · intro hf
    refine ⟨((mission1_wait1 P m 66 (by simp)).2.2.2.1 hf).1, ?_⟩
    rw [(hc.2.2.2 hf).2.2, syncEvent_submitLines P snippet66 m 3 rfl
      (by simp only [snippet66, List.length_cons, List.length_nil]; omega)
      (fun t ht => snprintf_ne_empty _ _ (snippet66_ne_empty t ht) h2)]
    simp only [snippet66, List.getD_cons_succ, List.getD_cons_zero]
    rw [snprintf_of_fits _ _ (by
      have : ("vel=0.0: time=0.1" : String).length = 17 := by decide
      omega)]
    decide

/-- Witness of C16 as amended: a fresh object with the example parameters. -/
theorem sync_line_present_witness :
    (9 ≤ exampleParams.missionLineMax) ∧ freshObject.distanceCount = ((0 : Nat) : Int) ∧
    ((fmtD ((0 : Nat) : Int)).length + 26 ≤ exampleParams.MAX_LEN) ∧
    syncEvent (newCmds freshObject (mission1 exampleParams 20 freshObject).obj)
      = some ((0 : Nat) : Int) :=
  ⟨by decide, rfl, by decide,
    (sync_line_present exampleParams freshObject 0 (by decide) rfl (by decide)).2.1⟩

/-- Counterexample to C16 as stated: with the example parameters and event 1 set, the
ticks entered in the states 41 and 66 each submit a snippet (nine and four modify
commands) whose last line has no event field; no line of these snippets has one. -/
theorem sync_line_missing :
    (mission1 exampleParams 41 (publish scenarioExt freshObject)).obj.snippetCalls
      = (publish scenarioExt freshObject).snippetCalls + 1 ∧
    (newCmds (publish scenarioExt freshObject)
      (mission1 exampleParams 41 (publish scenarioExt freshObject)).obj).countP Cmd.isMod = 9 ∧
    syncEvent (newCmds (publish scenarioExt freshObject)
      (mission1 exampleParams 41 (publish scenarioExt freshObject)).obj) = none ∧
    (mission1 exampleParams 66 (publish scenarioExt freshObject)).obj.snippetCalls
      = (publish scenarioExt freshObject).snippetCalls + 1 ∧
    (newCmds (publish scenarioExt freshObject)
      (mission1 exampleParams 66 (publish scenarioExt freshObject)).obj).countP Cmd.isMod = 4 ∧
    syncEvent (newCmds (publish scenarioExt freshObject)
      (mission1 exampleParams 66 (publish scenarioExt freshObject)).obj) = none ∧
    eventIds snippet41 = [] ∧ eventIds snippet66 = [] := by
  refine ⟨by decide, by decide, by decide, by decide, by decide, by decide, by decide, by decide⟩


/-- C17, completion event and wait, evaluated on the code with the example parameters.
From a fresh object (counter 0) the tick entered in state 0 raises event 0 and state 10
then awaits event 0; but the tick entered in state 20 raises event 0 and leaves the
counter at 1, so that state 10 awaits event 1; with the counter at 3 it raises event 3
and state 66 awaits event 1; and the tick entered in state 41 raises no event while
state 66 awaits event 1. -/
theorem completion_event_mismatch :
    (syncEvent (newCmds freshObject (mission1 exampleParams 0 freshObject).obj) = some 0 ∧
      (mission1 exampleParams 0 freshObject).state = 10 ∧
      awaitedEvent 10 (mission1 exampleParams 0 freshObject).obj = some 0) ∧
    (syncEvent (newCmds freshObject (mission1 exampleParams 20 freshObject).obj) = some 0 ∧
      (mission1 exampleParams 20 freshObject).state = 10 ∧
      awaitedEvent 10 (mission1 exampleParams 20 freshObject).obj = some 1) ∧
    (syncEvent (newCmds { freshObject with distanceCount := 3 }
        (mission1 exampleParams 20 { freshObject with distanceCount := 3 }).obj) = some 3 ∧
      (mission1 exampleParams 20 { freshObject with distanceCount := 3 }).state = 66 ∧
      awaitedEvent 66 (mission1 exampleParams 20 { freshObject with distanceCount := 3 }).obj
        = some 1) ∧
    (syncEvent (newCmds (publish scenarioExt freshObject)
        (mission1 exampleParams 41 (publish scenarioExt freshObject)).obj) = none ∧
      (mission1 exampleParams 41 (publish scenarioExt freshObject)).state = 66 ∧
      awaitedEvent 66 (mission1 exampleParams 41 (publish scenarioExt freshObject)).obj
        = some 1) := by
  refine ⟨⟨by decide, by decide, by decide⟩, ⟨by decide, by decide, by decide⟩,
    ⟨by decide, by decide, by decide⟩, ⟨by decide, by decide, by decide⟩⟩

/-- A text without the letter `e` has no event field. -/
theorem eventField_eq_none (cs : List Char) (h : 'e' ∉ cs) : eventField cs = none := by
  induction cs with
  | nil => rfl
  | cons c cs ih =>
    have hc : 'e' ≠ c := fun e => h (e ▸ List.mem_cons_self _ _)
    have hcs : 'e' ∉ cs := fun e => h (List.mem_cons_of_mem _ e)
    simp [eventField, stripLit, hc, ih hcs]

/-- The event ids written by `mission1`. For every counter value `d` from 0 to 3
the only event id written into the lines of the states 0 and 20 is `d` itself, the last
line of the states 30 and 40 writes event 1 (their only event id when the floating point
conversions produce no letter `e`), and the states 41 and 66 write none; these ids are
never 33, 30 or 31, event 1 is not reserved, and `d` is a reserved id exactly when
`d = 0`, the all-stop id. -/
theorem reserved_event_ids (d : Int) (h0 : 0 ≤ d) (h3 : d ≤ 3) :
    eventIds (snippet0 d) = [d] ∧ eventIds (snippet20 d) = [d] ∧
    (∀ (P : Params) (a x : ℚ),
      eventField ((snippet30 P a x).getD 2 "").data = some 1 ∧
      eventField ((snippet40 P a).getD 3 "").data = some 1 ∧
      ((∀ q, 'e' ∉ (P.fmtF1 q).data ∧ 'e' ∉ (P.fmtF3 q).data) →
        eventIds (snippet30 P a x) = [1] ∧ eventIds (snippet40 P a) = [1])) ∧
    eventIds snippet41 = [] ∧ eventIds snippet66 = [] ∧
    d ≠ 33 ∧ d ≠ 30 ∧ d ≠ 31 ∧ (1 : Int) ∉ reservedEvents ∧
    (d ∈ reservedEvents ↔ d = 0) := by
  refine ⟨?_, ?_, ?_, by decide, by decide, by omega, by omega, by omega, by decide, ?_⟩
  · interval_cases d <;> decide
  · interval_cases d <;> decide
  · intro P a x
    refine ⟨by simp only [snippet30, List.getD_cons_succ, List.getD_cons_zero]; decide,
      by simp only [snippet40, List.getD_cons_succ, List.getD_cons_zero]; decide, ?_⟩
    intro hfmt
    have e1 : ∀ q, eventField (P.fmtF1 q).data = none :=
      fun q => eventField_eq_none _ (hfmt q).1
    have e3 : ∀ q, eventField (P.fmtF3 q).data = none :=
      fun q => eventField_eq_none _ (hfmt q).2
    constructor
    · simp only [eventIds, snippet30, List.filterMap_cons, List.filterMap_nil,
        String.data_append]
      simp [eventField, stripLit, e1, e3]
      decide
    · simp only [eventIds, snippet40, List.filterMap_cons, List.filterMap_nil,
        String.data_append]
      simp [eventField, stripLit, e1, e3]
      decide
  · interval_cases d <;> decide

/-- The event ids written at the counter value 2. -/
theorem reserved_event_ids_witness :
    (0 : Int) ≤ 2 ∧ (2 : Int) ≤ 3 ∧ eventIds (snippet0 2) = [2] ∧
    ((2 : Int) ∈ reservedEvents ↔ (2 : Int) = 0) :=
  ⟨by decide, by decide, (reserved_event_ids 2 (by decide) (by decide)).1,
    (reserved_event_ids 2 (by decide) (by decide)).2.2.2.2.2.2.2.2.2⟩

/-! ## Waiting in `mission1` -/

/-- While the detection request stays set, a phase entered in state 11 is in state 11 at
every tick and every tick returns false and sends nothing. -/
theorem stateAt_waiting (P : Params) (env : Nat → Ext) (m : UMission)
    (hbusy : ∀ k, (env k).doObjectDetection = true) (n : Nat) :
    stateAt P env 11 m n = 11 ∧ (tickAt P env 11 m n).state = 11 ∧
    (tickAt P env 11 m n).finished = false ∧
    (tickAt P env 11 m n).obj.sent = (objAt P env 11 m n).sent ∧
    (tickAt P env 11 m n).obj.snippetCalls = (objAt P env 11 m n).snippetCalls := by
  have hstep : ∀ k, stateAt P env 11 m k = 11 →
      (tickAt P env 11 m k).state = 11 ∧ (tickAt P env 11 m k).finished = false ∧
      (tickAt P env 11 m k).obj.sent = (objAt P env 11 m k).sent ∧
      (tickAt P env 11 m k).obj.snippetCalls = (objAt P env 11 m k).snippetCalls := by
    intro k hk
    have hreq : (objAt P env 11 m k).doObjectDetection = true := by
      rw [(objAt_published P env 11 m k).2.1]
      exact hbusy k
    have c := mission1_case11 P (objAt P env 11 m k)
    rw [tickAt_eq, hk]
    exact ⟨c.2.2.2.2.2.2.2 hreq, c.1, c.2.2.2.1, c.2.1⟩
  have hstate : ∀ k, stateAt P env 11 m k = 11 := by
    intro k
    induction k with
    | zero => rfl
    | succ k ih => exact (hstep k ih).1
  exact ⟨hstate n, hstep n (hstate n)⟩

/-- C18, detection unavailable, as the code has it. The code has no bound on the wait:
in every run in which the request flag stays set, a phase entered in state 11 is still in
state 11 after any number of ticks, each of which returns false, submits no snippet and
sends no command; state 11 is left only by a tick at which the flag reads cleared, for
state 30 or state 20 according to the reading. -/
theorem detection_wait (P : Params) (env : Nat → Ext) (m : UMission)
    (hbusy : ∀ k, (env k).doObjectDetection = true) :
    (∀ n, stateAt P env 11 m n = 11 ∧ (tickAt P env 11 m n).state = 11 ∧
      (tickAt P env 11 m n).finished = false ∧
      (tickAt P env 11 m n).obj.sent = (objAt P env 11 m n).sent ∧
      (tickAt P env 11 m n).obj.snippetCalls = (objAt P env 11 m n).snippetCalls) ∧
    (∀ o : UMission, (mission1 P 11 o).state ≠ 11 ↔ o.doObjectDetection = false) ∧
    (∀ o : UMission, o.doObjectDetection = false →
      (mission1 P 11 o).state = 30 ∨ (mission1 P 11 o).state = 20) := by
  refine ⟨stateAt_waiting P env m hbusy, ?_, ?_⟩
  · intro o
    have c := mission1_case11 P o
    cases h : o.doObjectDetection
    · by_cases hd : 0 < o.distanceToObject ∧ o.distanceToObject < 1100
      · simp [c.2.2.2.2.2.1 h hd]
      · simp [c.2.2.2.2.2.2.1 h hd]
    · simp [c.2.2.2.2.2.2.2 h]
  · intro o h
    have c := mission1_case11 P o
    by_cases hd : 0 < o.distanceToObject ∧ o.distanceToObject < 1100
    · exact Or.inl (c.2.2.2.2.2.1 h hd)
    · exact Or.inr (c.2.2.2.2.2.2.1 h hd)

/-- Witness of C18 as amended: perception never serves the request; after 1000 ticks
the phase is still in state 11. -/
theorem detection_wait_witness :
    (∀ k : Nat, ((fun _ => busyExt) k).doObjectDetection = true) ∧
    stateAt exampleParams (fun _ => busyExt) 11 freshObject 1000 = 11 :=
  ⟨fun _ => rfl, ((detection_wait exampleParams (fun _ => busyExt) freshObject
    (fun _ => rfl)).1 1000).1⟩

/-- Counterexample to C18 as stated: no number `N` of ticks bounds the stay in state 11
over the runs in which the request flag stays set. -/
theorem detection_wait_unbounded :
    ¬ ∃ N : Nat, ∀ env : Nat → Ext, (∀ k, (env k).doObjectDetection = true) →
      ∃ n, n ≤ N ∧ stateAt exampleParams env 11 freshObject n = 20 := by
  rintro ⟨N, h⟩
  obtain ⟨n, _, hn⟩ := h (fun _ => busyExt) (fun _ => rfl)
  rw [(stateAt_waiting exampleParams (fun _ => busyExt) freshObject (fun _ => rfl) n).1] at hn
  exact absurd hn (by decide)

theorem isEventSet_of_clear (e : Int) (m : UMission) (h : m.eventFlags e = false) :
    (isEventSet e m).2 = m := by
  have hupd : Function.update m.eventFlags e false = m.eventFlags := by
    rw [← h]
    exact Function.update_eq_self e m.eventFlags
  unfold isEventSet
  rw [hupd]

/-- C19, non-blocking wait. A tick entered in a wait state whose awaited condition is
absent (state 10 with the event `distanceCount` not set, state 40, 41 or 66 with event 1
not set, state 11 with the request flag set) returns false, leaves the state as it is and
leaves the whole object as it is: attempt counter, `dist`, `angle`, `threadActive`, and
the trace of commands, to which nothing is added. -/
theorem non_blocking_wait (P : Params) (m : UMission) :
    (m.eventFlags m.distanceCount = false →
      (mission1 P 10 m).finished = false ∧ (mission1 P 10 m).state = 10 ∧
      (mission1 P 10 m).obj = m ∧ newCmds m (mission1 P 10 m).obj = []) ∧
    (m.eventFlags 1 = false → ∀ s : Int, s = 40 ∨ s = 41 ∨ s = 66 →
      (mission1 P s m).finished = false ∧ (mission1 P s m).state = s ∧
      (mission1 P s m).obj = m ∧ newCmds m (mission1 P s m).obj = []) ∧
    (m.doObjectDetection = true →
      (mission1 P 11 m).finished = false ∧ (mission1 P 11 m).state = 11 ∧
      (mission1 P 11 m).obj = m ∧ newCmds m (mission1 P 11 m).obj = []) := by
  have hnil : ∀ o : UMission, o = m → newCmds m o = [] := by
    intro o ho
    rw [ho]
    simp [newCmds]
  refine ⟨?_, ?_, ?_⟩
  · intro h
    have c := mission1_case10 P m
    have hobj : (mission1 P 10 m).obj = m := by
      have : (mission1 P 10 m).obj = (isEventSet m.distanceCount m).2 := by
        simp [mission1, isEventSet, h]
      rw [this, isEventSet_of_clear _ _ h]
    exact ⟨c.1, (c.2.2.2.2.2 h).1, hobj, hnil _ hobj⟩
  · intro h s hs
    have c := mission1_wait1 P m s hs
    have hobj : (mission1 P s m).obj = m := by
      have : (mission1 P s m).obj = (isEventSet 1 m).2 := by
        rcases hs with rfl | rfl | rfl <;> simp [mission1, isEventSet, h]
      rw [this, isEventSet_of_clear _ _ h]
    exact ⟨c.1, (c.2.2.2.2 h).1, hobj, hnil _ hobj⟩
  · intro h
    have c := mission1_case11 P m
    have hobj : (mission1 P 11 m).obj = m := by simp [mission1, h]
    exact ⟨c.1, c.2.2.2.2.2.2.2 h, hobj, hnil _ hobj⟩

/-- Witness of C19: a fresh object has no event pending, its tick in state 40 changes
nothing. -/
theorem non_blocking_wait_witness :
    freshObject.eventFlags 1 = false ∧ ((40 : Int) = 40 ∨ (40 : Int) = 41 ∨ (40 : Int) = 66) ∧
    (mission1 exampleParams 40 freshObject).state = 40 ∧
    (mission1 exampleParams 40 freshObject).obj = freshObject :=
  ⟨rfl, Or.inl rfl,
    ((non_blocking_wait exampleParams freshObject).2.1 rfl 40 (Or.inl rfl)).2.1,
    ((non_blocking_wait exampleParams freshObject).2.1 rfl 40 (Or.inl rfl)).2.2.1⟩


/-! ## The loop of `runMission` -/

theorem published_frame (x : Ext) (s : Supervisor) :
    (published x s).mission = s.mission ∧ (published x s).missionState = s.missionState ∧
    (published x s).regbotStarted = s.regbotStarted ∧ (published x s).ended = s.ended ∧
    (published x s).finished = s.finished ∧ (published x s).handlerCalls = s.handlerCalls ∧
    (published x s).polled = s.polled ∧ (published x s).obj.sent = s.obj.sent ∧
    (published x s).obj.snippetCalls = s.obj.snippetCalls ∧
    (published x s).obj.threadActive = s.obj.threadActive ∧
    (published x s).obj.eventFlags = x.eventFlags :=
  ⟨rfl, rfl, rfl, rfl, rfl, rfl, rfl, rfl, rfl, rfl, rfl⟩

theorem countLoop_frame (s : Supervisor) :
    (countLoop s).mission = s.mission ∧ (countLoop s).missionState = s.missionState ∧
    (countLoop s).regbotStarted = s.regbotStarted ∧ (countLoop s).ended = s.ended ∧
    (countLoop s).finished = s.finished ∧ (countLoop s).handlerCalls = s.handlerCalls ∧
    (countLoop s).polled = s.polled ∧ (countLoop s).obj = s.obj ∧
    (countLoop s).inManual = s.inManual :=
  ⟨rfl, rfl, rfl, rfl, rfl, rfl, rfl, rfl, rfl⟩

theorem redButton_frame (op : Operator) (s : Supervisor) :
    (redButton op s).mission = s.mission ∧ (redButton op s).missionState = s.missionState ∧
    (redButton op s).regbotStarted = s.regbotStarted ∧ (redButton op s).ended = s.ended ∧
    (redButton op s).finished = s.finished ∧ (redButton op s).handlerCalls = s.handlerCalls ∧
    (redButton op s).polled = s.polled ∧ (redButton op s).obj.sent = s.obj.sent ∧
    (redButton op s).obj.snippetCalls = s.obj.snippetCalls ∧
    (redButton op s).obj.threadActive = s.obj.threadActive ∧
    (redButton op s).obj.eventFlags = s.obj.eventFlags := by
  unfold redButton
  split_ifs <;> simp [printf]

theorem yellowButton_frame (op : Operator) (s : Supervisor) :
    (yellowButton op s).mission = s.mission ∧
    (yellowButton op s).missionState = s.missionState ∧
    (yellowButton op s).regbotStarted = s.regbotStarted ∧
    (yellowButton op s).ended = s.ended ∧
    (yellowButton op s).finished = s.finished ∧
    (yellowButton op s).handlerCalls = s.handlerCalls ∧
    (yellowButton op s).polled = s.polled ∧ (yellowButton op s).obj.sent = s.obj.sent ∧
    (yellowButton op s).obj.snippetCalls = s.obj.snippetCalls ∧
    (yellowButton op s).obj.threadActive = s.obj.threadActive ∧
    (yellowButton op s).obj.eventFlags = s.obj.eventFlags := by
  unfold yellowButton
  split_ifs <;> simp [printf]

/-- The two stop conditions: what they leave alone, what sets `finished`, what is sent. -/
theorem stopChecks_spec (toMission : Int) (s : Supervisor) :
    (stopChecks toMission s).mission = s.mission ∧
    (stopChecks toMission s).missionState = s.missionState ∧
    (stopChecks toMission s).regbotStarted = s.regbotStarted ∧
    (stopChecks toMission s).ended = s.ended ∧
    (stopChecks toMission s).handlerCalls = s.handlerCalls ∧
    (stopChecks toMission s).obj.snippetCalls = s.obj.snippetCalls ∧
    (stopChecks toMission s).obj.threadActive = s.obj.threadActive ∧
    (stopChecks toMission s).polled = s.polled ++ [0] ∧
    (s.finished = true → (stopChecks toMission s).finished = true) ∧
    (s.obj.eventFlags 0 = true →
      (stopChecks toMission s).finished = true ∧
      (stopChecks toMission s).obj.sent = s.obj.sent) ∧
    (s.obj.eventFlags 0 = false → s.mission > toMission →
      (stopChecks toMission s).finished = true ∧
      (stopChecks toMission s).obj.sent = s.obj.sent ++ [Cmd.text "stop\n"]) ∧
    (s.obj.eventFlags 0 = false → ¬ s.mission > toMission →
      (stopChecks toMission s).finished = s.finished ∧
      (stopChecks toMission s).obj.sent = s.obj.sent) := by
  unfold stopChecks
  cases h0 : s.obj.eventFlags 0
  · by_cases hm : s.mission > toMission <;> simp [isEventSet, printf, send, h0, hm]
  · simp [isEventSet, printf, send, h0]

/-- What the second part of the loop body leaves alone, and what it adds: one poll of
event 0 and at most the command `stop`. -/
theorem globalChecks_frame (toMission : Int) (op : Operator) (s : Supervisor) :
    (globalChecks toMission op s).mission = s.mission ∧
    (globalChecks toMission op s).missionState = s.missionState ∧
    (globalChecks toMission op s).regbotStarted = s.regbotStarted ∧
    (globalChecks toMission op s).ended = s.ended ∧
    (globalChecks toMission op s).handlerCalls = s.handlerCalls ∧
    (globalChecks toMission op s).obj.snippetCalls = s.obj.snippetCalls ∧
    (globalChecks toMission op s).obj.threadActive = s.obj.threadActive ∧
    (globalChecks toMission op s).polled = s.polled ++ [0] ∧
    (s.finished = true → (globalChecks toMission op s).finished = true) ∧
    (∃ extra, (globalChecks toMission op s).obj.sent = s.obj.sent ++ extra ∧
      ∀ c ∈ extra, c = Cmd.text "stop\n") := by
  have hr := redButton_frame op s
  have hy := yellowButton_frame op (redButton op s)
  have hc := stopChecks_spec toMission (yellowButton op (redButton op s))
  unfold globalChecks
  refine ⟨hc.1.trans (hy.1.trans hr.1), hc.2.1.trans (hy.2.1.trans hr.2.1),
    hc.2.2.1.trans (hy.2.2.1.trans hr.2.2.1), hc.2.2.2.1.trans (hy.2.2.2.1.trans hr.2.2.2.1),
    hc.2.2.2.2.1.trans (hy.2.2.2.2.2.1.trans hr.2.2.2.2.2.1),
    hc.2.2.2.2.2.1.trans (hy.2.2.2.2.2.2.2.2.1.trans hr.2.2.2.2.2.2.2.2.1),
    hc.2.2.2.2.2.2.1.trans (hy.2.2.2.2.2.2.2.2.2.1.trans hr.2.2.2.2.2.2.2.2.2.1),
    ?_, ?_, ?_⟩
  · rw [hc.2.2.2.2.2.2.2.1, hy.2.2.2.2.2.2.1, hr.2.2.2.2.2.2.1]
  · intro hf
    exact hc.2.2.2.2.2.2.2.2.1 ((hy.2.2.2.2.1.trans hr.2.2.2.2.1).trans hf)
  · have hsent : (yellowButton op (redButton op s)).obj.sent = s.obj.sent :=
      hy.2.2.2.2.2.2.2.1.trans hr.2.2.2.2.2.2.2.1
    cases h0 : (yellowButton op (redButton op s)).obj.eventFlags 0
    · by_cases hm : (yellowButton op (redButton op s)).mission > toMission
      · exact ⟨[Cmd.text "stop\n"],
          by rw [(hc.2.2.2.2.2.2.2.2.2.2.1 h0 hm).2, hsent], by simp⟩
      · exact ⟨[], by rw [(hc.2.2.2.2.2.2.2.2.2.2.2 h0 hm).2, hsent]; simp, by simp⟩
    · exact ⟨[], by rw [(hc.2.2.2.2.2.2.2.2.2.1 h0).2, hsent]; simp, by simp⟩

/-- An iteration in which event 0 reads set at the stop check: `finished` is set and no
command is sent by the checks. -/
theorem globalChecks_allStop (toMission : Int) (op : Operator) (s : Supervisor)
    (h0 : s.obj.eventFlags 0 = true) :
    (globalChecks toMission op s).finished = true ∧
    (globalChecks toMission op s).obj.sent = s.obj.sent := by
  have hr := redButton_frame op s
  have hy := yellowButton_frame op (redButton op s)
  have hc := stopChecks_spec toMission (yellowButton op (redButton op s))
  have hflag : (yellowButton op (redButton op s)).obj.eventFlags 0 = true := by
    rw [hy.2.2.2.2.2.2.2.2.2.2, hr.2.2.2.2.2.2.2.2.2.2]
    exact h0
  unfold globalChecks
  exact ⟨(hc.2.2.2.2.2.2.2.2.2.1 hflag).1,
    (hc.2.2.2.2.2.2.2.2.2.1 hflag).2.trans (hy.2.2.2.2.2.2.2.1.trans hr.2.2.2.2.2.2.2.1)⟩

/-- An iteration in manual override: the phase part only records the override. -/
theorem phaseStep_manual (P : Params) (op : Operator) (s : Supervisor)
    (h : op.manual = true) :
    (phaseStep P op s).mission = s.mission ∧
    (phaseStep P op s).missionState = s.missionState ∧
    (phaseStep P op s).regbotStarted = s.regbotStarted ∧
    (phaseStep P op s).ended = s.ended ∧
    (phaseStep P op s).finished = s.finished ∧
    (phaseStep P op s).handlerCalls = s.handlerCalls ∧
    (phaseStep P op s).obj.snippetCalls = s.obj.snippetCalls ∧
    (phaseStep P op s).obj.threadActive = s.obj.threadActive ∧
    (phaseStep P op s).polled = s.polled ∧
    (phaseStep P op s).obj.sent = s.obj.sent ++ [Cmd.text "oled 3 GAMEPAD control\n"] := by
  simp only [phaseStep, h, if_true, countLoop]
  split_ifs <;> simp [send]

/-- An iteration in automatic mode before the start event: event 33 is polled, no
handler is called. -/
theorem phaseStep_waiting (P : Params) (op : Operator) (s : Supervisor)
    (h : op.manual = false) (hs : s.regbotStarted = false) :
    (phaseStep P op s).mission = s.mission ∧
    (phaseStep P op s).missionState = s.missionState ∧
    (phaseStep P op s).regbotStarted = s.obj.eventFlags 33 ∧
    (phaseStep P op s).ended = s.ended ∧
    (phaseStep P op s).finished = s.finished ∧
    (phaseStep P op s).handlerCalls = s.handlerCalls ∧
    (phaseStep P op s).obj.snippetCalls = s.obj.snippetCalls ∧
    (phaseStep P op s).polled = s.polled ++ [33] ∧
    (phaseStep P op s).obj.sent = s.obj.sent := by
  cases h33 : s.obj.eventFlags 33 <;> simp [phaseStep, countLoop, h, hs, isEventSet, h33]

theorem resumeAuto_frame (s : Supervisor) :
    (resumeAuto s).mission = s.mission ∧ (resumeAuto s).missionState = s.missionState ∧
    (resumeAuto s).regbotStarted = s.regbotStarted ∧ (resumeAuto s).ended = s.ended ∧
    (resumeAuto s).finished = s.finished ∧ (resumeAuto s).handlerCalls = s.handlerCalls ∧
    (resumeAuto s).polled = s.polled := by
  unfold resumeAuto
  split_ifs <;> simp

theorem resumeAuto_countLoop (s : Supervisor) :
    (resumeAuto (countLoop s)).obj = (resumeAuto s).obj := by
  unfold resumeAuto countLoop
  split_ifs <;> rfl

theorem showState_frame (s : Supervisor) :
    (showState s).mission = s.mission ∧ (showState s).missionState = s.missionState ∧
    (showState s).regbotStarted = s.regbotStarted ∧ (showState s).ended = s.ended ∧
    (showState s).finished = s.finished ∧ (showState s).handlerCalls = s.handlerCalls ∧
    (showState s).polled = s.polled := by
  unfold showState
  split_ifs <;> simp

theorem advanceMission_frame (s : Supervisor) :
    (advanceMission s).regbotStarted = s.regbotStarted ∧ (advanceMission s).ended = false ∧
    (advanceMission s).finished = s.finished ∧
    (advanceMission s).handlerCalls = s.handlerCalls ∧
    (advanceMission s).polled = s.polled ∧
    (s.ended = true →
      (advanceMission s).mission = s.mission + 1 ∧ (advanceMission s).missionState = 0) ∧
    (s.ended = false →
      (advanceMission s).mission = s.mission ∧
      (advanceMission s).missionState = s.missionState) := by
  unfold advanceMission
  cases h : s.ended <;> simp [h]

/-- The `switch (mission)`: the handler of mission part 1 or 2 is called with the
current `missionState`, any other part sets `finished`. -/
theorem switchMission_spec (P : Params) (s : Supervisor) :
    (switchMission P s).mission = s.mission ∧
    (switchMission P s).regbotStarted = s.regbotStarted ∧
    (switchMission P s).polled = s.polled ∧
    (s.mission = 1 →
      (switchMission P s).handlerCalls = s.handlerCalls ++ [(1, s.missionState)] ∧
      (switchMission P s).ended = (mission1 P s.missionState s.obj).finished ∧
      (switchMission P s).missionState = (mission1 P s.missionState s.obj).state ∧
      (switchMission P s).finished = s.finished) ∧
    (s.mission = 2 →
      (switchMission P s).handlerCalls = s.handlerCalls ++ [(2, s.missionState)] ∧
      (switchMission P s).ended = true ∧
      (switchMission P s).missionState = s.missionState ∧
      (switchMission P s).finished = s.finished) ∧
    (s.mission ≠ 1 → s.mission ≠ 2 →
      (switchMission P s).handlerCalls = s.handlerCalls ∧
      (switchMission P s).ended = s.ended ∧
      (switchMission P s).missionState = s.missionState ∧
      (switchMission P s).finished = true) := by
  unfold switchMission
  by_cases h1 : s.mission = 1
  · simp [h1]
  · by_cases h2 : s.mission = 2
    · simp [h2, mission4]
    · simp [h1, h2]

/-- The phase part of an iteration in automatic mode once started, as the composition
of its blocks. -/
theorem phaseStep_started (P : Params) (op : Operator) (s : Supervisor)
    (h : op.manual = false) (hs : s.regbotStarted = true) :
    phaseStep P op s
      = showState (advanceMission (switchMission P (resumeAuto (countLoop s)))) := by
  have hc : (countLoop s).regbotStarted = true := hs
  simp [phaseStep, h, hc]

theorem iterations_append (P : Params) (toMission : Int) (l1 l2 : List LoopInput) :
    ∀ s : Supervisor,
      iterations P toMission (l1 ++ l2) s
        = iterations P toMission l2 (iterations P toMission l1 s) := by
  induction l1 with
  | nil => intro s; rfl
  | cons i l1 ih => intro s; simp only [List.cons_append, iterations]; exact ih _

/-- One iteration in manual override, whole body. -/
theorem iteration_manual (P : Params) (toMission : Int) (i : LoopInput) (s : Supervisor)
    (h : i.op.manual = true) :
    (iteration P toMission i s).mission = s.mission ∧
    (iteration P toMission i s).missionState = s.missionState ∧
    (iteration P toMission i s).regbotStarted = s.regbotStarted ∧
    (iteration P toMission i s).ended = s.ended ∧
    (iteration P toMission i s).handlerCalls = s.handlerCalls ∧
    (iteration P toMission i s).obj.snippetCalls = s.obj.snippetCalls ∧
    (iteration P toMission i s).obj.threadActive = s.obj.threadActive ∧
    (∀ c ∈ newCmds s.obj (iteration P toMission i s).obj, c.isMod = false ∧ c.isArm = false) := by
  have hb := published_frame i.ext s
  have hp := phaseStep_manual P i.op (published i.ext s) h
  have hg := globalChecks_frame toMission i.op (phaseStep P i.op (published i.ext s))
  unfold iteration loopBody
  refine ⟨hg.1.trans (hp.1.trans hb.1), hg.2.1.trans (hp.2.1.trans hb.2.1),
    hg.2.2.1.trans (hp.2.2.1.trans hb.2.2.1), hg.2.2.2.1.trans (hp.2.2.2.1.trans hb.2.2.2.1),
    hg.2.2.2.2.1.trans (hp.2.2.2.2.2.1.trans hb.2.2.2.2.2.1),
    hg.2.2.2.2.2.1.trans (hp.2.2.2.2.2.2.1.trans hb.2.2.2.2.2.2.2.2.1),
    hg.2.2.2.2.2.2.1.trans (hp.2.2.2.2.2.2.2.1.trans hb.2.2.2.2.2.2.2.2.2.1), ?_⟩
  obtain ⟨extra, hsent, hextra⟩ := hg.2.2.2.2.2.2.2.2.2
  intro c hc
  unfold newCmds at hc
  rw [hsent, hp.2.2.2.2.2.2.2.2.2, hb.2.2.2.2.2.2.2.1, List.append_assoc,
    List.drop_left] at hc
  rcases List.mem_append.1 hc with h1 | h1
  · rw [List.mem_singleton.1 h1]; exact ⟨rfl, rfl⟩
  · rw [hextra c h1]; exact ⟨rfl, rfl⟩

/-- Any number of iterations in manual override. -/
theorem iterations_manual (P : Params) (toMission : Int) (inps : List LoopInput) :
    ∀ s : Supervisor, (∀ j ∈ inps, j.op.manual = true) →
      (iterations P toMission inps s).mission = s.mission ∧
      (iterations P toMission inps s).missionState = s.missionState ∧
      (iterations P toMission inps s).regbotStarted = s.regbotStarted ∧
      (iterations P toMission inps s).ended = s.ended ∧
      (iterations P toMission inps s).handlerCalls = s.handlerCalls ∧
      (iterations P toMission inps s).obj.snippetCalls = s.obj.snippetCalls := by
  induction inps with
  | nil => intro s _; exact ⟨rfl, rfl, rfl, rfl, rfl, rfl⟩
  | cons i inps ih =>
    intro s h
    have h1 := iteration_manual P toMission i s (h i (List.mem_cons_self _ _))
    have h2 := ih (iteration P toMission i s) (fun j hj => h j (List.mem_cons_of_mem _ hj))
    simp only [iterations]
    exact ⟨h2.1.trans h1.1, h2.2.1.trans h1.2.1, h2.2.2.1.trans h1.2.2.1,
      h2.2.2.2.1.trans h1.2.2.2.1, h2.2.2.2.2.1.trans h1.2.2.2.2.1,
      h2.2.2.2.2.2.trans h1.2.2.2.2.2.1⟩

/-- One iteration in automatic mode once started: which handler is called, with which
state, and what becomes of `mission` and `missionState`. -/
theorem iteration_started (P : Params) (toMission : Int) (i : LoopInput) (s : Supervisor)
    (h : i.op.manual = false) (hs : s.regbotStarted = true) :
    (iteration P toMission i s).regbotStarted = true ∧
    (iteration P toMission i s).ended = false ∧
    (iteration P toMission i s).polled = s.polled ++ [0] ∧
    (s.mission = 1 →
      (iteration P toMission i s).handlerCalls = s.handlerCalls ++ [(1, s.missionState)] ∧
      ((mission1 P s.missionState (resumeAuto (published i.ext s)).obj).finished = true →
        (iteration P toMission i s).mission = 2 ∧
        (iteration P toMission i s).missionState = 0) ∧
      ((mission1 P s.missionState (resumeAuto (published i.ext s)).obj).finished = false →
        (iteration P toMission i s).mission = 1 ∧
        (iteration P toMission i s).missionState
          = (mission1 P s.missionState (resumeAuto (published i.ext s)).obj).state)) ∧
    (s.mission = 2 →
      (iteration P toMission i s).handlerCalls = s.handlerCalls ++ [(2, s.missionState)] ∧
      (iteration P toMission i s).mission = 3 ∧
      (iteration P toMission i s).missionState = 0) ∧
    (s.mission ≠ 1 → s.mission ≠ 2 →
      (iteration P toMission i s).handlerCalls = s.handlerCalls ∧
      (iteration P toMission i s).finished = true ∧
      (s.ended = false →
        (iteration P toMission i s).mission = s.mission ∧
        (iteration P toMission i s).missionState = s.missionState)) := by
  have hb := published_frame i.ext s
  have hcl := countLoop_frame (published i.ext s)
  have hr := resumeAuto_frame (countLoop (published i.ext s))
  have hobj := resumeAuto_countLoop (published i.ext s)
  have hsw := switchMission_spec P (resumeAuto (countLoop (published i.ext s)))
  have hadv := advanceMission_frame
    (switchMission P (resumeAuto (countLoop (published i.ext s))))
  have hsh := showState_frame (advanceMission
    (switchMission P (resumeAuto (countLoop (published i.ext s)))))
  have hg := globalChecks_frame toMission i.op (showState (advanceMission
    (switchMission P (resumeAuto (countLoop (published i.ext s))))))
  have hiter : iteration P toMission i s
      = globalChecks toMission i.op (showState (advanceMission
          (switchMission P (resumeAuto (countLoop (published i.ext s)))))) := by
    unfold iteration loopBody
    rw [phaseStep_started P i.op (published i.ext s) h (hb.2.2.1.trans hs)]
  have hmis : (resumeAuto (countLoop (published i.ext s))).mission = s.mission :=
    hr.1.trans (hcl.1.trans hb.1)
  have hst : (resumeAuto (countLoop (published i.ext s))).missionState = s.missionState :=
    hr.2.1.trans (hcl.2.1.trans hb.2.1)
  have hcalls : (resumeAuto (countLoop (published i.ext s))).handlerCalls = s.handlerCalls :=
    hr.2.2.2.2.2.1.trans (hcl.2.2.2.2.2.1.trans hb.2.2.2.2.2.1)
  have hend : (resumeAuto (countLoop (published i.ext s))).ended = s.ended :=
    hr.2.2.2.1.trans (hcl.2.2.2.1.trans hb.2.2.2.1)
  rw [hmis, hst, hcalls, hend, hobj] at hsw
  rw [hiter]
  refine ⟨?_, ?_, ?_, ?_, ?_, ?_⟩
  · rw [hg.2.2.1, hsh.2.2.1, hadv.1, hsw.2.1, hr.2.2.1, hcl.2.2.1, hb.2.2.1, hs]
  · rw [hg.2.2.2.1, hsh.2.2.2.1, hadv.2.1]
  · rw [hg.2.2.2.2.2.2.2.1, hsh.2.2.2.2.2.2, hadv.2.2.2.2.1, hsw.2.2.1, hr.2.2.2.2.2.2,
      hcl.2.2.2.2.2.2.1, hb.2.2.2.2.2.2.1]
  · intro h1
    obtain ⟨hc, he, hst', _⟩ := hsw.2.2.2.1 h1
    rw [hg.2.2.2.2.1, hsh.2.2.2.2.2.1, hadv.2.2.2.1, hg.1, hsh.1, hg.2.1, hsh.2.1]
    refine ⟨hc, ?_, ?_⟩
    · intro hfin
      have := hadv.2.2.2.2.2.1 (he.trans hfin)
      rw [hsw.1, h1] at this
      exact ⟨this.1, this.2⟩
    · intro hfin
      have := hadv.2.2.2.2.2.2 (he.trans hfin)
      rw [hsw.1, h1, hst'] at this
      exact this
  · intro h2
    obtain ⟨hc, he, _, _⟩ := hsw.2.2.2.2.1 h2
    rw [hg.2.2.2.2.1, hsh.2.2.2.2.2.1, hadv.2.2.2.1, hg.1, hsh.1, hg.2.1, hsh.2.1]
    have := hadv.2.2.2.2.2.1 he
    rw [hsw.1, h2] at this
    exact ⟨hc, this.1, this.2⟩
  · intro h1 h2
    obtain ⟨hc, he, hst', hfin⟩ := hsw.2.2.2.2.2 h1 h2
    rw [hg.2.2.2.2.1, hsh.2.2.2.2.2.1, hadv.2.2.2.1, hg.1, hsh.1, hg.2.1, hsh.2.1]
    refine ⟨hc, ?_, ?_⟩
    · apply hg.2.2.2.2.2.2.2.2.1
      rw [hsh.2.2.2.2.1, hadv.2.2.1, hfin]
    · intro hended
      have := hadv.2.2.2.2.2.2 (he.trans hended)
      rw [hsw.1, hst'] at this
      exact this

theorem runLoop_finished (P : Params) (toMission : Int) (inps : List LoopInput)
    (s : Supervisor) (h : s.finished = true) : runLoop P toMission inps s = s := by
  cases inps with
  | nil => rfl
  | cons i rest => simp [runLoop, h]

/-- One iteration in automatic mode before the start event, whole body. -/
theorem iteration_waiting (P : Params) (toMission : Int) (i : LoopInput) (s : Supervisor)
    (h : i.op.manual = false) (hs : s.regbotStarted = false) :
    (iteration P toMission i s).handlerCalls = s.handlerCalls ∧
    (iteration P toMission i s).regbotStarted = i.ext.eventFlags 33 ∧
    (iteration P toMission i s).polled = s.polled ++ [33, 0] ∧
    (iteration P toMission i s).mission = s.mission ∧
    (iteration P toMission i s).missionState = s.missionState := by
  have hb := published_frame i.ext s
  have hp := phaseStep_waiting P i.op (published i.ext s) h (hb.2.2.1.trans hs)
  have hg := globalChecks_frame toMission i.op (phaseStep P i.op (published i.ext s))
  unfold iteration loopBody
  refine ⟨hg.2.2.2.2.1.trans (hp.2.2.2.2.2.1.trans hb.2.2.2.2.2.1), ?_, ?_,
    hg.1.trans (hp.1.trans hb.1), hg.2.1.trans (hp.2.1.trans hb.2.1)⟩
  · rw [hg.2.2.1, hp.2.2.1, hb.2.2.2.2.2.2.2.2.2.2]
  · rw [hg.2.2.2.2.2.2.2.1, hp.2.2.2.2.2.2.2.1, hb.2.2.2.2.2.2.1]
    simp

/-- Before the start event no handler has been called. -/
theorem handlerCalls_before_start (P : Params) (toMission : Int) (inps : List LoopInput) :
    ∀ s : Supervisor, s.handlerCalls = [] →
      (iterations P toMission inps s).regbotStarted = false →
      (iterations P toMission inps s).handlerCalls = [] ∧ s.regbotStarted = false := by
  induction inps with
  | nil => intro s h hs; exact ⟨h, hs⟩
  | cons i inps ih =>
    intro s h hs
    simp only [iterations] at hs ⊢
    have hstart : s.regbotStarted = false := by
      cases hst : s.regbotStarted
      · rfl
      · exfalso
        by_cases hm : i.op.manual = true
        · have h1 := iteration_manual P toMission i s hm
          have hcalls : (iteration P toMission i s).handlerCalls = [] := h1.2.2.2.2.1.trans h
          have h2 := (ih (iteration P toMission i s) hcalls hs).2
          rw [h1.2.2.1, hst] at h2
          exact absurd h2 (by decide)
        · have hm' : i.op.manual = false := by simpa using hm
          have h1 := iteration_started P toMission i s hm' hst
          have key : ∀ (l : List LoopInput) (t : Supervisor), t.regbotStarted = true →
              (iterations P toMission l t).regbotStarted = true := by
            intro l
            induction l with
            | nil => intro t ht; exact ht
            | cons j l ihl =>
              intro t ht
              simp only [iterations]
              apply ihl
              by_cases hj : j.op.manual = true
              · rw [(iteration_manual P toMission j t hj).2.2.1]; exact ht
              · exact (iteration_started P toMission j t (by simpa using hj) ht).1
          rw [key inps _ h1.1] at hs
          exact absurd hs (by decide)
    refine ⟨?_, hstart⟩
    have hcalls : (iteration P toMission i s).handlerCalls = [] := by
      by_cases hm : i.op.manual = true
      · exact (iteration_manual P toMission i s hm).2.2.2.2.1.trans h
      · exact (iteration_waiting P toMission i s (by simpa using hm) hstart).1.trans h
    exact (ih (iteration P toMission i s) hcalls hs).1

/-! ## The claims on `runMission` -/

/-- C12, override gating. An iteration executed while `manual` is asserted calls no
handler, submits no snippet (no modify or arm command is sent, `threadActive` keeps its
value) and leaves `mission`, `missionState` and the started flag as they are; after any
number of such iterations of a started mission these three are what they were before
the override, and the next iteration with `manual` cleared calls the handler of that
mission part (1 or 2) with that `missionState`. -/
theorem override_gating (P : Params) (toMission : Int) :
    (∀ (i : LoopInput) (s : Supervisor), i.op.manual = true →
      (iteration P toMission i s).handlerCalls = s.handlerCalls ∧
      (iteration P toMission i s).obj.snippetCalls = s.obj.snippetCalls ∧
      (iteration P toMission i s).obj.threadActive = s.obj.threadActive ∧
      (∀ c ∈ newCmds s.obj (iteration P toMission i s).obj,
        c.isMod = false ∧ c.isArm = false) ∧
      (iteration P toMission i s).mission = s.mission ∧
      (iteration P toMission i s).missionState = s.missionState ∧
      (iteration P toMission i s).regbotStarted = s.regbotStarted) ∧
    (∀ (inps : List LoopInput) (i : LoopInput) (s : Supervisor),
      (∀ j ∈ inps, j.op.manual = true) → s.regbotStarted = true → i.op.manual = false →
      (iterations P toMission inps s).handlerCalls = s.handlerCalls ∧
      (iterations P toMission inps s).obj.snippetCalls = s.obj.snippetCalls ∧
      (iterations P toMission inps s).mission = s.mission ∧
      (iterations P toMission inps s).missionState = s.missionState ∧
      (iterations P toMission inps s).regbotStarted = true ∧
      (s.mission = 1 →
        (iteration P toMission i (iterations P toMission inps s)).handlerCalls
          = s.handlerCalls ++ [(1, s.missionState)]) ∧
      (s.mission = 2 →
        (iteration P toMission i (iterations P toMission inps s)).handlerCalls
          = s.handlerCalls ++ [(2, s.missionState)])) := by
  constructor
  · intro i s h
    have m := iteration_manual P toMission i s h
    exact ⟨m.2.2.2.2.1, m.2.2.2.2.2.1, m.2.2.2.2.2.2.1, m.2.2.2.2.2.2.2, m.1, m.2.1, m.2.2.1⟩
  · intro inps i s hman hs hi
    have m := iterations_manual P toMission inps s hman
    have hst : (iterations P toMission inps s).regbotStarted = true := m.2.2.1.trans hs
    have a := iteration_started P toMission i (iterations P toMission inps s) hi hst
    refine ⟨m.2.2.2.2.1, m.2.2.2.2.2, m.1, m.2.1, hst, ?_, ?_⟩
    · intro h1
      have := (a.2.2.2.1 (m.1.trans h1)).1
      rw [m.2.2.2.2.1, m.2.1] at this
      exact this
    · intro h2
      have := (a.2.2.2.2.1 (m.1.trans h2)).1
      rw [m.2.2.2.2.1, m.2.1] at this
      exact this

/-- The stop check. Whatever the mission part and its state, a loop iteration in which
event 0 reads set at the stop check ends with `finished` set; the loop then runs no
further iteration whatever inputs follow; and from that check to the end of
`runMission` the commands sent are `stop` and the display text, `stop` exactly once. -/
theorem global_stop (P : Params) (toMission : Int) (i : LoopInput) (s : Supervisor)
    (rest : List LoopInput) (robotname : String)
    (h0 : (phaseStep P i.op (published i.ext s)).obj.eventFlags 0 = true) :
    (iteration P toMission i s).finished = true ∧
    runLoop P toMission rest (iteration P toMission i s) = iteration P toMission i s ∧
    newCmds (phaseStep P i.op (published i.ext s)).obj
        (runMissionExit robotname (runLoop P toMission rest (iteration P toMission i s))).obj
      = [Cmd.text "stop\n", Cmd.text "oled 3 finished\n"] ∧
    (newCmds (phaseStep P i.op (published i.ext s)).obj
        (runMissionExit robotname
          (runLoop P toMission rest (iteration P toMission i s))).obj).count
      (Cmd.text "stop\n") = 1 := by
  have hg := globalChecks_allStop toMission i.op (phaseStep P i.op (published i.ext s)) h0
  have hfin : (iteration P toMission i s).finished = true := hg.1
  have hsent : (iteration P toMission i s).obj.sent
      = (phaseStep P i.op (published i.ext s)).obj.sent := hg.2
  have hcmds : newCmds (phaseStep P i.op (published i.ext s)).obj
      (runMissionExit robotname (runLoop P toMission rest (iteration P toMission i s))).obj
      = [Cmd.text "stop\n", Cmd.text "oled 3 finished\n"] := by
    rw [runLoop_finished P toMission rest _ hfin]
    simp [newCmds, runMissionExit, send, printf, hsent]
  refine ⟨hfin, runLoop_finished P toMission rest _ hfin, hcmds, ?_⟩
  rw [hcmds]
  decide

/-- An instance of the stop check: an iteration in manual override with every event set, event 0
included. -/
theorem global_stop_witness :
    (phaseStep exampleParams manualOp (published scenarioExt startedSupervisor)).obj.eventFlags 0
      = true ∧
    (iteration exampleParams 2 ⟨scenarioExt, manualOp, false⟩ startedSupervisor).finished
      = true :=
  ⟨by decide,
    (global_stop exampleParams 2 ⟨scenarioExt, manualOp, false⟩ startedSupervisor [] "robobot"
      (by decide)).1⟩

/-- C14, go-signal gating. An iteration that starts before the start event has been
seen calls no handler, also when it is the one that reads event 33 as set; the started
flag is set by exactly such an iteration in automatic mode, so that in a run of
`runMission` no handler has been called up to and including it and the first tick
comes in a later iteration; an iteration that starts with the flag set keeps it set and
polls event 0 only, never event 33. -/
theorem go_signal_gating (P : Params) (toMission fromMission : Int) (fin : Bool)
    (m0 : UMission) :
    (∀ (i : LoopInput) (s : Supervisor), s.regbotStarted = false →
      (iteration P toMission i s).handlerCalls = s.handlerCalls ∧
      ((iteration P toMission i s).regbotStarted = true ↔
        (i.op.manual = false ∧ i.ext.eventFlags 33 = true))) ∧
    (runMissionEntry P fromMission fin m0).regbotStarted = false ∧
    (runMissionEntry P fromMission fin m0).handlerCalls = [] ∧
    (∀ (inps : List LoopInput) (i : LoopInput),
      (iterations P toMission inps (runMissionEntry P fromMission fin m0)).regbotStarted = false →
      (iterations P toMission (inps ++ [i])
        (runMissionEntry P fromMission fin m0)).handlerCalls = []) ∧
    (∀ (i : LoopInput) (s : Supervisor), s.regbotStarted = true →
      (iteration P toMission i s).regbotStarted = true ∧
      ((iteration P toMission i s).polled = s.polled ∨
        (iteration P toMission i s).polled = s.polled ++ [0]) ∧
      (i.op.manual = false → (iteration P toMission i s).polled = s.polled ++ [0])) ∧
    (∀ (i : LoopInput) (s : Supervisor), s.regbotStarted = false → i.op.manual = false →
      (iteration P toMission i s).polled = s.polled ++ [33, 0]) := by
  refine ⟨?_, rfl, rfl, ?_, ?_, ?_⟩
  · intro i s hs
    by_cases hm : i.op.manual = true
    · have m := iteration_manual P toMission i s hm
      refine ⟨m.2.2.2.2.1, ?_⟩
      rw [m.2.2.1, hs]
      simp [hm]
    · have hm' : i.op.manual = false := by simpa using hm
      have w := iteration_waiting P toMission i s hm' hs
      refine ⟨w.1, ?_⟩
      rw [w.2.1]
      simp [hm']
  · intro inps i hs
    have hb := handlerCalls_before_start P toMission inps
      (runMissionEntry P fromMission fin m0) rfl hs
    rw [iterations_append]
    simp only [iterations]
    by_cases hm : i.op.manual = true
    · exact (iteration_manual P toMission i _ hm).2.2.2.2.1.trans hb.1
    · exact (iteration_waiting P toMission i _ (by simpa using hm) hs).1.trans hb.1
  · intro i s hs
    by_cases hm : i.op.manual = true
    · have hb := published_frame i.ext s
      have hp := phaseStep_manual P i.op (published i.ext s) hm
      have hg := globalChecks_frame toMission i.op (phaseStep P i.op (published i.ext s))
      have hpoll : (iteration P toMission i s).polled = s.polled ++ [0] := by
        unfold iteration loopBody
        rw [hg.2.2.2.2.2.2.2.1, hp.2.2.2.2.2.2.2.2.1, hb.2.2.2.2.2.2.1]
      refine ⟨?_, Or.inr hpoll, fun _ => hpoll⟩
      rw [(iteration_manual P toMission i s hm).2.2.1]
      exact hs
    · have a := iteration_started P toMission i s (by simpa using hm) hs
      exact ⟨a.1, Or.inr a.2.2.1, fun _ => a.2.2.1⟩
  · intro i s hs hm
    exact (iteration_waiting P toMission i s hm hs).2.2.1

/-- C15, phase advance. In an iteration in automatic mode of a started mission: when the
mission part is 1 the handler `mission1` is called with the current `missionState`, and
if it returns true `mission` becomes 2 and `missionState` 0, if it returns false
`mission` stays 1 and `missionState` is the state the handler left; when the part is 2
the handler `mission4` is called, returns true, and `mission` becomes 3 with
`missionState` 0; for any other part no handler is called, `finished` is set and
`mission` and `missionState` keep their values. The flag `ended` is clear when the loop
is entered and after every iteration that found it clear. -/
theorem phase_advance (P : Params) (toMission : Int) (i : LoopInput) (s : Supervisor)
    (hm : i.op.manual = false) (hs : s.regbotStarted = true) (he : s.ended = false) :
    (s.mission = 1 →
      (iteration P toMission i s).handlerCalls = s.handlerCalls ++ [(1, s.missionState)] ∧
      ((mission1 P s.missionState (resumeAuto (published i.ext s)).obj).finished = true →
        (iteration P toMission i s).mission = s.mission + 1 ∧
        (iteration P toMission i s).missionState = 0) ∧
      ((mission1 P s.missionState (resumeAuto (published i.ext s)).obj).finished = false →
        (iteration P toMission i s).mission = s.mission ∧
        (iteration P toMission i s).missionState
          = (mission1 P s.missionState (resumeAuto (published i.ext s)).obj).state)) ∧
    (s.mission = 2 →
      (iteration P toMission i s).handlerCalls = s.handlerCalls ++ [(2, s.missionState)] ∧
      (mission4 s.missionState (resumeAuto (published i.ext s)).obj).finished = true ∧
      (iteration P toMission i s).mission = s.mission + 1 ∧
      (iteration P toMission i s).missionState = 0) ∧
    (s.mission ≠ 1 → s.mission ≠ 2 →
      (iteration P toMission i s).handlerCalls = s.handlerCalls ∧
      (iteration P toMission i s).finished = true ∧
      (iteration P toMission i s).mission = s.mission ∧
      (iteration P toMission i s).missionState = s.missionState) ∧
    (iteration P toMission i s).ended = false ∧
    (∀ (fromMission : Int) (fin : Bool) (m0 : UMission),
      (runMissionEntry P fromMission fin m0).ended = false) ∧
    (∀ (j : LoopInput) (t : Supervisor), t.ended = false →
      (iteration P toMission j t).ended = false) := by
  have a := iteration_started P toMission i s hm hs
  refine ⟨?_, ?_, ?_, a.2.1, fun _ _ _ => rfl, ?_⟩
  · intro h1
    obtain ⟨hc, ht, hf⟩ := a.2.2.2.1 h1
    refine ⟨hc, fun hfin => ?_, fun hfin => ?_⟩
    · rw [h1]; exact ht hfin
    · rw [h1]; exact hf hfin
  · intro h2
    obtain ⟨hc, hmis, hst⟩ := a.2.2.2.2.1 h2
    exact ⟨hc, rfl, by rw [h2]; exact hmis, hst⟩
  · intro h1 h2
    obtain ⟨hc, hf, hkeep⟩ := a.2.2.2.2.2 h1 h2
    exact ⟨hc, hf, (hkeep he).1, (hkeep he).2⟩
  · intro j t ht
    by_cases hj : j.op.manual = true
    · exact (iteration_manual P toMission j t hj).2.2.2.1.trans ht
    · have hj' : j.op.manual = false := by simpa using hj
      cases hst : t.regbotStarted
      · have hb := published_frame j.ext t
        have hp := phaseStep_waiting P j.op (published j.ext t) hj' (hb.2.2.1.trans hst)
        have hg := globalChecks_frame toMission j.op (phaseStep P j.op (published j.ext t))
        unfold iteration loopBody
        exact hg.2.2.2.1.trans (hp.2.2.2.1.trans (hb.2.2.2.1.trans ht))
      · exact (iteration_started P toMission j t hj' hst).2.1

/-- Witness of C15: the first tick of mission part 1 in automatic mode; `mission1`
returns false in state 0 and leaves state 10. -/
theorem phase_advance_witness :
    autoOp.manual = false ∧ startedSupervisor.regbotStarted = true ∧
    startedSupervisor.ended = false ∧ startedSupervisor.mission = 1 ∧
    (iteration exampleParams 2 ⟨nothingFoundExt, autoOp, false⟩ startedSupervisor).handlerCalls
      = startedSupervisor.handlerCalls ++ [(1, startedSupervisor.missionState)] :=
  ⟨rfl, rfl, rfl, rfl,
    ((phase_advance exampleParams 2 ⟨nothingFoundExt, autoOp, false⟩ startedSupervisor
      rfl rfl rfl).1 rfl).1⟩

/-! ## Empty snippets, the approach range and the snippet sizes -/

/-- C21, zero-line buffer. A call of `sendAndActivateSnippet` with a count that is zero
or negative, or with a buffer whose first line is empty, sends no modify command: the
only command of the call is the arm command of the thread that was inactive on entry
(event 30 for thread 100, event 31 for thread 101), and `threadActive` becomes that
thread. -/
theorem zero_line_buffer (P : Params) (buf : Nat → String) (cnt : Int) (m : UMission)
    (h : cnt ≤ 0 ∨ buf 0 = "") :
    (newCmds m (sendAndActivateSnippet P buf cnt m)).countP Cmd.isMod = 0 ∧
    newCmds m (sendAndActivateSnippet P buf cnt m)
      = [Cmd.event (if m.threadActive = 101 then 30 else 31)] ∧
    (sendAndActivateSnippet P buf cnt m).threadActive
      = (if m.threadActive = 101 then 100 else 101) ∧
    (sendAndActivateSnippet P buf cnt m).threadActive ≠ m.threadActive ∧
    (Cmd.event (if m.threadActive = 101 then 30 else 31)).thread
      = some (sendAndActivateSnippet P buf cnt m).threadActive ∧
    (sendAndActivateSnippet P buf cnt m).snippetCalls = m.snippetCalls + 1 := by
  have hshape : newCmds m (sendAndActivateSnippet P buf cnt m)
      = [Cmd.event (if m.threadActive = 101 then 30 else 31)] := by
    have hk := newCmds_of_firstEmpty P buf cnt m 0 (Nat.zero_le _)
      (fun j hj => absurd hj (Nat.not_lt_zero j))
      (fun hpos => by
        rcases h with hc | hb
        · exfalso
          have : (min cnt (P.missionLineMax : Int)).toNat = 0 := by
            apply Int.toNat_eq_zero.2
            exact le_trans (min_le_left _ _) hc
          omega
        · exact hb)
    simpa using hk
  refine ⟨by rw [hshape]; rfl, hshape, rfl, ?_, ?_, rfl⟩
  · rw [threadActive_sendAndActivateSnippet]
    by_cases h101 : m.threadActive = 101
    · simp [h101]
    · simp only [h101, if_false]
      exact fun e => h101 e.symm
  · rw [threadActive_sendAndActivateSnippet]
    by_cases h101 : m.threadActive = 101 <;> simp [Cmd.thread, h101]

/-- Witness of C21: a buffer whose first line is empty, offered with count 3. -/
theorem zero_line_buffer_witness :
    ((3 : Int) ≤ 0 ∨ bufferOf ["", "b", "c"] 0 = "") ∧
    newCmds freshObject (sendAndActivateSnippet exampleParams (bufferOf ["", "b", "c"]) 3
      freshObject) = [Cmd.event (if freshObject.threadActive = 101 then 30 else 31)] :=
  ⟨Or.inr rfl,
    (zero_line_buffer exampleParams (bufferOf ["", "b", "c"]) 3 freshObject (Or.inr rfl)).2.1⟩

/-- C23, approach drive range. When a tick in state 11 (request served) accepts the
reading `d = distanceToObject`, that is moves to state 30, and state 30 then runs on an
object with the same reading, the drive distance `dist = d / 1000 - 0.20` it stores and
writes into the snippet lies strictly between -0.20 and 0.90, and it is non-negative
exactly when `d >= 200`. -/
theorem approach_drive_range (P : Params) (m o : UMission)
    (hreq : m.doObjectDetection = false) (hacc : (mission1 P 11 m).state = 30)
    (hsame : o.distanceToObject = m.distanceToObject) :
    (0 < m.distanceToObject ∧ m.distanceToObject < 1100) ∧
    (mission1 P 30 o).obj.dist = m.distanceToObject / 1000 - 1 / 5 ∧
    -(1 / 5 : ℚ) < (mission1 P 30 o).obj.dist ∧ (mission1 P 30 o).obj.dist < 9 / 10 ∧
    (0 ≤ (mission1 P 30 o).obj.dist ↔ 200 ≤ m.distanceToObject) ∧
    (mission1 P 30 o).obj.lines 1
      = snprintf P.MAX_LEN ("vel=0.2,acc=2 :dist=" ++ P.fmtF3 (mission1 P 30 o).obj.dist) := by
  have c := mission1_case11 P m
  have hd : 0 < m.distanceToObject ∧ m.distanceToObject < 1100 := by
    by_contra hn
    rw [c.2.2.2.2.2.2.1 hreq hn] at hacc
    exact absurd hacc (by decide)
  have hdist : (mission1 P 30 o).obj.dist = m.distanceToObject / 1000 - 1 / 5 := by
    rw [← hsame]
    simp [mission1, submitLines, sendAndActivateSnippet, writeLines, isEventSet, printf]
    norm_num
  refine ⟨hd, hdist, ?_, ?_, ?_, ?_⟩
  · rw [hdist]
    have := hd.1
    linarith
  · rw [hdist]
    have := hd.2
    linarith
  · rw [hdist]
    constructor <;> intro h <;> linarith
  · simp [mission1, submitLines, sendAndActivateSnippet, writeLines, isEventSet, printf,
      snippet30]

/-- Witness of C23: the reading 450 is accepted and gives the drive distance 0.25. -/
theorem approach_drive_range_witness :
    (publish scenarioExt freshObject).doObjectDetection = false ∧
    (mission1 exampleParams 11 (publish scenarioExt freshObject)).state = 30 ∧
    -(1 / 5 : ℚ) < (mission1 exampleParams 30 (publish scenarioExt freshObject)).obj.dist ∧
    (mission1 exampleParams 30 (publish scenarioExt freshObject)).obj.dist < 9 / 10 :=
  ⟨rfl, by decide,
    (approach_drive_range exampleParams (publish scenarioExt freshObject)
      (publish scenarioExt freshObject) rfl (by decide) rfl).2.2.1,
    (approach_drive_range exampleParams (publish scenarioExt freshObject)
      (publish scenarioExt freshObject) rfl (by decide) rfl).2.2.2.1⟩

/-! ## The upper bound of the mission range -/

/-- After the stop checks either `finished` is set or the mission part is within the
range. -/
theorem globalChecks_post (toMission : Int) (op : Operator) (s : Supervisor) :
    (globalChecks toMission op s).finished = true ∨
      (globalChecks toMission op s).mission ≤ toMission := by
  have hc := stopChecks_spec toMission (yellowButton op (redButton op s))
  unfold globalChecks
  cases h0 : (yellowButton op (redButton op s)).obj.eventFlags 0
  · by_cases hm : (yellowButton op (redButton op s)).mission > toMission
    · exact Or.inl (hc.2.2.2.2.2.2.2.2.2.2.1 h0 hm).1
    · right
      rw [hc.1]
      exact not_lt.1 hm
  · exact Or.inl (hc.2.2.2.2.2.2.2.2.2.1 h0).1

theorem iteration_post (P : Params) (toMission : Int) (i : LoopInput) (s : Supervisor) :
    (iteration P toMission i s).finished = true ∨
      (iteration P toMission i s).mission ≤ toMission :=
  globalChecks_post toMission i.op (phaseStep P i.op (published i.ext s))

/-- The handler calls of one iteration: none, or one call for the mission part the
iteration started with, in automatic mode of a started mission. -/
theorem iteration_calls (P : Params) (toMission : Int) (i : LoopInput) (s : Supervisor) :
    (iteration P toMission i s).handlerCalls = s.handlerCalls ∨
    ((iteration P toMission i s).handlerCalls = s.handlerCalls ++ [(s.mission, s.missionState)] ∧
      s.regbotStarted = true ∧ i.op.manual = false ∧ (s.mission = 1 ∨ s.mission = 2)) := by
  by_cases hm : i.op.manual = true
  · exact Or.inl (iteration_manual P toMission i s hm).2.2.2.2.1
  · have hm' : i.op.manual = false := by simpa using hm
    cases hs : s.regbotStarted
    · exact Or.inl (iteration_waiting P toMission i s hm' hs).1
    · have a := iteration_started P toMission i s hm' hs
      by_cases h1 : s.mission = 1
      · right
        refine ⟨?_, rfl, hm', Or.inl h1⟩
        rw [(a.2.2.2.1 h1).1, h1]
      · by_cases h2 : s.mission = 2
        · right
          refine ⟨?_, rfl, hm', Or.inr h2⟩
          rw [(a.2.2.2.2.1 h2).1, h2]
        · exact Or.inl (a.2.2.2.2.2 h1 h2).1

/-- The loop keeps: every handler call so far was for a mission part within the range,
and a started mission that is not finished is at a part within the range. -/
theorem runLoop_bound (P : Params) (toMission : Int) (inps : List LoopInput) :
    ∀ s : Supervisor,
      (∀ c ∈ s.handlerCalls, c.1 ≤ toMission) →
      (s.finished = false → s.regbotStarted = true → s.mission ≤ toMission) →
      (∀ c ∈ (runLoop P toMission inps s).handlerCalls, c.1 ≤ toMission) ∧
      ((runLoop P toMission inps s).finished = false →
        (runLoop P toMission inps s).regbotStarted = true →
        (runLoop P toMission inps s).mission ≤ toMission) := by
  induction inps with
  | nil => intro s h1 h2; exact ⟨h1, h2⟩
  | cons i rest ih =>
    intro s h1 h2
    by_cases hc : s.finished = false ∧ i.th1stop = false
    · rw [runLoop, if_pos hc]
      apply ih
      · intro c hmem
        rcases iteration_calls P toMission i s with hsame | ⟨happ, hst, _, _⟩
        · rw [hsame] at hmem
          exact h1 c hmem
        · rw [happ] at hmem
          rcases List.mem_append.1 hmem with hold | hnew
          · exact h1 c hold
          · rw [List.mem_singleton.1 hnew]
            exact h2 hc.1 hst
      · intro hfin _
        rcases iteration_post P toMission i s with hf | hle
        · rw [hf] at hfin
          exact absurd hfin (by decide)
        · exact hle
    · rw [runLoop, if_neg hc]
      exact ⟨h1, h2⟩

/-- C22, no tick beyond the upper bound. In every run of the loop of `runMission`, for
every `fromMission` and `toMission` and every sequence of inputs, every handler call
made is for a mission part that is at most `toMission`, and the call is for the part
with which its iteration started (in automatic mode, mission started); whenever the
loop is about to go on with a started mission the part is at most `toMission`; and an
iteration that ends with `mission` above `toMission`, as when the handler completes the
last part, ends with `finished` set, so that the handler of the new part is never
called. -/
theorem no_tick_beyond_bound (P : Params) (fromMission toMission : Int) (fin : Bool)
    (m0 : UMission) (inps : List LoopInput) :
    (∀ c ∈ (runLoop P toMission inps (runMissionEntry P fromMission fin m0)).handlerCalls,
      c.1 ≤ toMission) ∧
    ((runLoop P toMission inps (runMissionEntry P fromMission fin m0)).finished = false →
      (runLoop P toMission inps (runMissionEntry P fromMission fin m0)).regbotStarted = true →
      (runLoop P toMission inps (runMissionEntry P fromMission fin m0)).mission ≤ toMission) ∧
    (∀ (i : LoopInput) (s : Supervisor),
      (iteration P toMission i s).handlerCalls = s.handlerCalls ∨
      ((iteration P toMission i s).handlerCalls
          = s.handlerCalls ++ [(s.mission, s.missionState)] ∧
        s.regbotStarted = true ∧ i.op.manual = false ∧ (s.mission = 1 ∨ s.mission = 2))) ∧
    (∀ (i : LoopInput) (s : Supervisor), (iteration P toMission i s).mission > toMission →
      (iteration P toMission i s).finished = true ∧
      ∀ rest : List LoopInput,
        runLoop P toMission rest (iteration P toMission i s) = iteration P toMission i s) := by
  have hb := runLoop_bound P toMission inps (runMissionEntry P fromMission fin m0)
    (fun c hc => absurd hc (List.not_mem_nil c))
    (fun _ hst => by
      have hfalse : (runMissionEntry P fromMission fin m0).regbotStarted = false := rfl
      rw [hfalse] at hst
      exact absurd hst (by decide))
  refine ⟨hb.1, hb.2, iteration_calls P toMission, ?_⟩
  intro i s hgt
  have hfin : (iteration P toMission i s).finished = true := by
    rcases iteration_post P toMission i s with hf | hle
    · exact hf
    · exact absurd hle (not_le.2 hgt)
  exact ⟨hfin, fun rest => runLoop_finished P toMission rest _ hfin⟩

/-! ## Snippet sizes -/

theorem lines_writeLines_ge (P : Params) (texts : List String) (m : UMission) (i : Nat)
    (hi : texts.length ≤ i) : (writeLines P texts m).lines i = m.lines i := by
  simp [writeLines, List.getElem?_eq_none hi]

theorem stdout_submitLines (P : Params) (texts : List String) (m : UMission)
    (hlen : texts.length ≤ P.missionLineMax) :
    (submitLines P texts m).stdout = m.stdout := by
  unfold submitLines
  rw [stdout_sendAndActivateSnippet, if_neg (by
    have : (texts.length : Int) ≤ (P.missionLineMax : Int) := by exact_mod_cast hlen
    exact not_lt.2 this)]
  rfl

/-- The line list after a tick: the lines of the snippet written over the old ones in
the states that submit, the old list otherwise. -/
theorem mission1_lines (P : Params) (m : UMission) :
    (mission1 P 0 m).obj.lines = (writeLines P (snippet0 m.distanceCount) m).lines ∧
    (mission1 P 10 m).obj.lines = m.lines ∧
    (mission1 P 11 m).obj.lines = m.lines ∧
    (mission1 P 20 m).obj.lines = (writeLines P (snippet20 m.distanceCount) m).lines ∧
    (mission1 P 30 m).obj.lines
      = (writeLines P (snippet30 P m.angleToObject (m.distanceToObject / 1000 - 0.20)) m).lines ∧
    (m.eventFlags 1 = true →
      (mission1 P 40 m).obj.lines = (writeLines P (snippet40 P m.angle) m).lines ∧
      (mission1 P 41 m).obj.lines = (writeLines P snippet41 m).lines ∧
      (mission1 P 66 m).obj.lines = (writeLines P snippet66 m).lines) ∧
    (m.eventFlags 1 = false →
      (mission1 P 40 m).obj.lines = m.lines ∧ (mission1 P 41 m).obj.lines = m.lines ∧
      (mission1 P 66 m).obj.lines = m.lines) ∧
    (∀ s : Int, s ≠ 0 ∧ s ≠ 10 ∧ s ≠ 11 ∧ s ≠ 20 ∧ s ≠ 30 ∧ s ≠ 40 ∧ s ≠ 41 ∧ s ≠ 66 →
      (mission1 P s m).obj.lines = m.lines) := by
  refine ⟨?_, ?_, ?_, ?_, ?_, ?_, ?_, ?_⟩
  · simp [mission1, submitLines, sendAndActivateSnippet, writeLines, isEventSet]
  · cases h : m.eventFlags m.distanceCount <;> simp [mission1, isEventSet, printf, h]
  · cases h : m.doObjectDetection
    · by_cases hd : m.distanceToObject > 0 ∧ m.distanceToObject < 1100
      · simp [mission1, printf, h, hd]
      · simp only [mission1, printf, h, hd]
        simp
    · simp [mission1, printf, h]
  · by_cases h : m.distanceCount < 3 <;>
      simp [mission1, submitLines, sendAndActivateSnippet, writeLines, isEventSet, printf, h]
  · simp [mission1, submitLines, sendAndActivateSnippet, writeLines, isEventSet, printf]
  · intro h
    refine ⟨?_, ?_, ?_⟩ <;>
      simp [mission1, submitLines, sendAndActivateSnippet, writeLines, isEventSet, printf, h]
  · intro h
    refine ⟨?_, ?_, ?_⟩ <;> simp [mission1, isEventSet, h]
  · rintro s ⟨h0, h10, h11, h20, h30, h40, h41, h66⟩
    simp [mission1, printf, h0, h10, h11, h20, h30, h40, h41, h66]

/-- No tick of `mission1` writes a line at an index of 9 or more. -/
theorem lines_mission1_ge (P : Params) (s : Int) (m : UMission) (i : Nat) (hi : 9 ≤ i) :
    (mission1 P s m).obj.lines i = m.lines i := by
  have h0 := lines_writeLines_ge P (snippet0 m.distanceCount) m i (by simpa [snippet0] using hi)
  have h20 := lines_writeLines_ge P (snippet20 m.distanceCount) m i
    (by simp only [snippet20, List.length_cons, List.length_nil]; omega)
  have h30 := lines_writeLines_ge P
    (snippet30 P m.angleToObject (m.distanceToObject / 1000 - 0.20)) m i
    (by simp only [snippet30, List.length_cons, List.length_nil]; omega)
  have h40 := lines_writeLines_ge P (snippet40 P m.angle) m i
    (by simp only [snippet40, List.length_cons, List.length_nil]; omega)
  have h41 := lines_writeLines_ge P snippet41 m i (by simpa [snippet41] using hi)
  have h66 := lines_writeLines_ge P snippet66 m i
    (by simp only [snippet66, List.length_cons, List.length_nil]; omega)
  have L := mission1_lines P m
  by_cases e0 : s = 0
  · subst e0; rw [L.1]; exact h0
  by_cases e10 : s = 10
  · subst e10; rw [L.2.1]
  by_cases e11 : s = 11
  · subst e11; rw [L.2.2.1]
  by_cases e20 : s = 20
  · subst e20; rw [L.2.2.2.1]; exact h20
  by_cases e30 : s = 30
  · subst e30; rw [L.2.2.2.2.1]; exact h30
  by_cases e40 : s = 40
  · subst e40
    cases hf : m.eventFlags 1
    · rw [(L.2.2.2.2.2.2.1 hf).1]
    · rw [(L.2.2.2.2.2.1 hf).1]; exact h40
  by_cases e41 : s = 41
  · subst e41
    cases hf : m.eventFlags 1
    · rw [(L.2.2.2.2.2.2.1 hf).2.1]
    · rw [(L.2.2.2.2.2.1 hf).2.1]; exact h41
  by_cases e66 : s = 66
  · subst e66
    cases hf : m.eventFlags 1
    · rw [(L.2.2.2.2.2.2.1 hf).2.2]
    · rw [(L.2.2.2.2.2.1 hf).2.2]; exact h66
  rw [L.2.2.2.2.2.2.2 s ⟨e0, e10, e11, e20, e30, e40, e41, e66⟩]

/-- What a tick that submits a snippet prints: the output of the submission, then its
own state message. -/
theorem mission1_stdout (P : Params) (m : UMission) :
    (mission1 P 0 m).obj.stdout = (submitLines P (snippet0 m.distanceCount) m).stdout ∧
    (mission1 P 20 m).obj.stdout
      = (submitLines P (snippet20 m.distanceCount) m).stdout
        ++ [if m.distanceCount < 3
            then "State 20, distanceCount: " ++ fmtD (m.distanceCount + 1) ++ "\n"
            else "State 20, max distanceCount reached\n"] ∧
    (mission1 P 30 m).obj.stdout
      = (submitLines P (snippet30 P m.angleToObject (m.distanceToObject / 1000 - 0.20))
          (printf ("The angle result is: " ++ P.fmtF m.angleToObject ++ "\n")
            (printf ("The distance result is: "
              ++ P.fmtF (m.distanceToObject / 1000 - 0.20) ++ "\n") m))).stdout
        ++ ["State 30\n"] ∧
    (m.eventFlags 1 = true →
      (mission1 P 40 m).obj.stdout
        = (submitLines P (snippet40 P m.angle) m).stdout ++ ["State 40\n"] ∧
      (mission1 P 41 m).obj.stdout = (submitLines P snippet41 m).stdout ++ ["State 41\n"] ∧
      (mission1 P 66 m).obj.stdout
        = (submitLines P snippet66 m).stdout ++ ["Finishing task\n"]) := by
  refine ⟨?_, ?_, ?_, ?_⟩
  · simp [mission1, submitLines, sendAndActivateSnippet, writeLines, isEventSet]
  · by_cases h : m.distanceCount < 3 <;>
      simp [mission1, submitLines, sendAndActivateSnippet, writeLines, isEventSet, printf, h]
  · simp [mission1, submitLines, sendAndActivateSnippet, writeLines, isEventSet, printf]
  · intro h
    refine ⟨?_, ?_, ?_⟩ <;>
      simp [mission1, submitLines, sendAndActivateSnippet, writeLines, isEventSet, printf, h]

/-- C24, snippet sizes. The snippets of `mission1` have 9, 8, 3, 4, 9 and 4 lines in the
states 0, 20, 30, 40, 41 and 66, none of them empty, also once cut to a line buffer of at
least 2 bytes, and no tick writes a line at an index of 9 or more. When `missionLineMax`
is at least 9 the submission of each of them prints no too-many-lines report and
uploads every line: the modify commands of the tick are one per line, in order, the
last one carrying the last line, followed by the arm command. -/
theorem snippet_sizes (P : Params) (m : UMission)
    (h9 : 9 ≤ P.missionLineMax) (h2 : 2 ≤ P.MAX_LEN) :
    ((snippet0 m.distanceCount).length = 9 ∧ (snippet20 m.distanceCount).length = 8 ∧
      (∀ a d : ℚ, (snippet30 P a d).length = 3) ∧ (∀ a : ℚ, (snippet40 P a).length = 4) ∧
      snippet41.length = 9 ∧ snippet66.length = 4) ∧
    (∀ t : String,
      (t ∈ snippet0 m.distanceCount ∨ t ∈ snippet20 m.distanceCount ∨
        (∃ a d : ℚ, t ∈ snippet30 P a d) ∨ (∃ a : ℚ, t ∈ snippet40 P a) ∨
        t ∈ snippet41 ∨ t ∈ snippet66) →
      t ≠ "" ∧ snprintf P.MAX_LEN t ≠ "") ∧
    (∀ (s : Int) (i : Nat), 9 ≤ i → (mission1 P s m).obj.lines i = m.lines i) ∧
    ((mission1 P 0 m).obj.stdout = m.stdout ∧
      newCmds m (mission1 P 0 m).obj
        = (List.range 9).map
            (fun j : Nat =>
              Cmd.mod (if m.threadActive = 101 then 100 else 101) ((j : Int) + 1)
                (snprintf P.MAX_LEN ((snippet0 m.distanceCount).getD j "")))
          ++ [Cmd.event (if m.threadActive = 101 then 30 else 31)]) ∧
    ((mission1 P 20 m).obj.stdout
        = m.stdout ++ [if m.distanceCount < 3
            then "State 20, distanceCount: " ++ fmtD (m.distanceCount + 1) ++ "\n"
            else "State 20, max distanceCount reached\n"] ∧
      newCmds m (mission1 P 20 m).obj
        = (List.range 8).map
            (fun j : Nat =>
              Cmd.mod (if m.threadActive = 101 then 100 else 101) ((j : Int) + 1)
                (snprintf P.MAX_LEN ((snippet20 m.distanceCount).getD j "")))
          ++ [Cmd.event (if m.threadActive = 101 then 30 else 31)]) ∧
    ((mission1 P 30 m).obj.stdout
        = m.stdout ++ ["The distance result is: "
              ++ P.fmtF (m.distanceToObject / 1000 - 0.20) ++ "\n",
            "The angle result is: " ++ P.fmtF m.angleToObject ++ "\n", "State 30\n"] ∧
      newCmds m (mission1 P 30 m).obj
        = (List.range 3).map
            (fun j : Nat =>
              Cmd.mod (if m.threadActive = 101 then 100 else 101) ((j : Int) + 1)
                (snprintf P.MAX_LEN
                  ((snippet30 P m.angleToObject (m.distanceToObject / 1000 - 0.20)).getD j "")))
          ++ [Cmd.event (if m.threadActive = 101 then 30 else 31)]) ∧
    (m.eventFlags 1 = true →
      ((mission1 P 40 m).obj.stdout = m.stdout ++ ["State 40\n"] ∧
        newCmds m (mission1 P 40 m).obj
          = (List.range 4).map
              (fun j : Nat =>
                Cmd.mod (if m.threadActive = 101 then 100 else 101) ((j : Int) + 1)
                  (snprintf P.MAX_LEN ((snippet40 P m.angle).getD j "")))
            ++ [Cmd.event (if m.threadActive = 101 then 30 else 31)]) ∧
      ((mission1 P 41 m).obj.stdout = m.stdout ++ ["State 41\n"] ∧
        newCmds m (mission1 P 41 m).obj
          = (List.range 9).map
              (fun j : Nat =>
                Cmd.mod (if m.threadActive = 101 then 100 else 101) ((j : Int) + 1)
                  (snprintf P.MAX_LEN (snippet41.getD j "")))
            ++ [Cmd.event (if m.threadActive = 101 then 30 else 31)]) ∧
      ((mission1 P 66 m).obj.stdout = m.stdout ++ ["Finishing task\n"] ∧
        newCmds m (mission1 P 66 m).obj
          = (List.range 4).map
              (fun j : Nat =>
                Cmd.mod (if m.threadActive = 101 then 100 else 101) ((j : Int) + 1)
                  (snprintf P.MAX_LEN (snippet66.getD j "")))
            ++ [Cmd.event (if m.threadActive = 101 then 30 else 31)])) := by
  have l0 : (snippet0 m.distanceCount).length = 9 := rfl
  have l20 : (snippet20 m.distanceCount).length = 8 := rfl
  have l30 : ∀ a d : ℚ, (snippet30 P a d).length = 3 := fun _ _ => rfl
  have l40 : ∀ a : ℚ, (snippet40 P a).length = 4 := fun _ => rfl
  have l41 : snippet41.length = 9 := rfl
  have l66 : snippet66.length = 4 := rfl
  have hne : ∀ t : String,
      (t ∈ snippet0 m.distanceCount ∨ t ∈ snippet20 m.distanceCount ∨
        (∃ a d : ℚ, t ∈ snippet30 P a d) ∨ (∃ a : ℚ, t ∈ snippet40 P a) ∨
        t ∈ snippet41 ∨ t ∈ snippet66) → t ≠ "" := by
    rintro t (h | h | ⟨a, d, h⟩ | ⟨a, h⟩ | h | h)
    · exact snippet0_ne_empty _ t h
    · exact snippet20_ne_empty _ t h
    · exact snippet30_ne_empty P a d t h
    · exact snippet40_ne_empty P a t h
    · exact snippet41_ne_empty t h
    · exact snippet66_ne_empty t h
  have hcut : ∀ t : String,
      (t ∈ snippet0 m.distanceCount ∨ t ∈ snippet20 m.distanceCount ∨
        (∃ a d : ℚ, t ∈ snippet30 P a d) ∨ (∃ a : ℚ, t ∈ snippet40 P a) ∨
        t ∈ snippet41 ∨ t ∈ snippet66) → snprintf P.MAX_LEN t ≠ "" :=
    fun t ht => snprintf_ne_empty _ _ (hne t ht) h2
  have hc := mission1_newCmds P m
  have ho := mission1_stdout P m
  refine ⟨⟨l0, l20, l30, l40, l41, l66⟩, fun t ht => ⟨hne t ht, hcut t ht⟩,
    fun s i hi => lines_mission1_ge P s m i hi, ⟨?_, ?_⟩, ⟨?_, ?_⟩, ⟨?_, ?_⟩, ?_⟩
  · rw [ho.1, stdout_submitLines P _ m (by rw [l0]; exact h9)]
  · rw [hc.1, newCmds_submitLines P _ m (by rw [l0]; exact h9)
      (fun t ht => hcut t (Or.inl ht)), l0]
  · rw [ho.2.1, stdout_submitLines P _ m (by rw [l20]; omega)]
  · rw [hc.2.1, newCmds_submitLines P _ m (by rw [l20]; omega)
      (fun t ht => hcut t (Or.inr (Or.inl ht))), l20]
  · rw [ho.2.2.1, stdout_submitLines P _ _ (by rw [l30]; omega)]
    simp [printf]
  · rw [hc.2.2.1, newCmds_submitLines P _ m (by rw [l30]; omega)
      (fun t ht => hcut t (Or.inr (Or.inr (Or.inl ⟨_, _, ht⟩)))), l30]
  · intro hf
    refine ⟨⟨?_, ?_⟩, ⟨?_, ?_⟩, ⟨?_, ?_⟩⟩
    · rw [(ho.2.2.2 hf).1, stdout_submitLines P _ m (by rw [l40]; omega)]
    · rw [(hc.2.2.2 hf).1, newCmds_submitLines P _ m (by rw [l40]; omega)
        (fun t ht => hcut t (Or.inr (Or.inr (Or.inr (Or.inl ⟨_, ht⟩))))), l40]
    · rw [(ho.2.2.2 hf).2.1, stdout_submitLines P _ m (by rw [l41]; exact h9)]
    · rw [(hc.2.2.2 hf).2.1, newCmds_submitLines P _ m (by rw [l41]; exact h9)
        (fun t ht => hcut t (Or.inr (Or.inr (Or.inr (Or.inr (Or.inl ht)))))), l41]
    · rw [(ho.2.2.2 hf).2.2, stdout_submitLines P _ m (by rw [l66]; omega)]
    · rw [(hc.2.2.2 hf).2.2, newCmds_submitLines P _ m (by rw [l66]; omega)
        (fun t ht => hcut t (Or.inr (Or.inr (Or.inr (Or.inr (Or.inr ht)))))), l66]

/-- Witness of C24: the example parameters, 20 lines per thread and 100 bytes per line;
the tick in state 0 on a fresh object sends nine modify commands and the arm command. -/
theorem snippet_sizes_witness :
    (9 ≤ exampleParams.missionLineMax) ∧ (2 ≤ exampleParams.MAX_LEN) ∧
    (mission1 exampleParams 0 freshObject).obj.stdout = freshObject.stdout ∧
    (newCmds freshObject (mission1 exampleParams 0 freshObject).obj).length = 10 :=
  ⟨by decide, by decide,
    (snippet_sizes exampleParams freshObject (by decide) (by decide)).2.2.2.1.1,
    by
      rw [(snippet_sizes exampleParams freshObject (by decide) (by decide)).2.2.2.1.2]
      simp⟩

/-! ## Event 0: the all-stop and the attempt counter -/

/-- C13, global stop, evaluated on the code with the example parameters. The operator
asserts event 0 and nothing else while mission part 1 waits in state 10 with the attempt
counter at 0, automatic mode: `mission1` reads event 0 as its completion event and clears
it, the state becomes 11, the stop check then polls event 0 and reads it clear, `finished`
stays false, no `stop` is sent and the loop goes on with the next tick. The same happens
in the states 0 and 20, which clear event `distanceCount` before they submit. In state 11,
which polls no event, and in manual override the same input does set `finished`. -/
theorem all_stop_swallowed :
    allStopExt.eventFlags 0 = true ∧ waitingSupervisor.obj.distanceCount = 0 ∧
    (iteration exampleParams 2 ⟨allStopExt, autoOp, false⟩ waitingSupervisor).finished = false ∧
    (iteration exampleParams 2 ⟨allStopExt, autoOp, false⟩ waitingSupervisor).missionState = 11 ∧
    (iteration exampleParams 2 ⟨allStopExt, autoOp, false⟩ waitingSupervisor).handlerCalls
      = [(1, 10)] ∧
    (iteration exampleParams 2 ⟨allStopExt, autoOp, false⟩ waitingSupervisor).polled = [0] ∧
    (iteration exampleParams 2 ⟨allStopExt, autoOp, false⟩ waitingSupervisor).obj.eventFlags 0
      = false ∧
    Cmd.text "stop\n"
      ∉ (iteration exampleParams 2 ⟨allStopExt, autoOp, false⟩ waitingSupervisor).obj.sent ∧
    (runLoop exampleParams 2 [⟨allStopExt, autoOp, false⟩, ⟨quietExt, autoOp, false⟩]
      waitingSupervisor).handlerCalls = [(1, 10), (1, 11)] ∧
    (iteration exampleParams 2 ⟨allStopExt, autoOp, false⟩ startedSupervisor).finished = false ∧
    (iteration exampleParams 2 ⟨allStopExt, autoOp, false⟩
      { startedSupervisor with missionState := 20 }).finished = false ∧
    (iteration exampleParams 2 ⟨allStopExt, autoOp, false⟩
      { startedSupervisor with missionState := 11 }).finished = true ∧
    (iteration exampleParams 2 ⟨allStopExt, manualOp, false⟩ waitingSupervisor).finished
      = true := by
  refine ⟨by decide, by decide, by decide, by decide, by decide, by decide, by decide,
    by decide, by decide, by decide, by decide, by decide, by decide⟩

/-- C20, reserved event ids, evaluated on the code with the example parameters. At the
attempt counter value 0 the snippets of the states 0 and 20 write the event id 0, the id
that `runMission` polls as all-stop. In closed loop, with a controller that raises only
the events of the submitted snippets and a search that finds nothing, the event 0 of the
retry snippet is read by the stop check of the fifth iteration: the loop ends with
`finished` set in state 10 with the counter at 1, announcing a stop nobody asked for. -/
theorem reserved_event_collision :
    (0 : Int) ≤ 0 ∧ (0 : Int) ≤ 3 ∧
    eventIds (snippet0 0) = [0] ∧ eventIds (snippet20 0) = [0] ∧
    (0 : Int) ∈ reservedEvents ∧
    syncEvent (newCmds freshObject (mission1 exampleParams 0 freshObject).obj) = some 0 ∧
    syncEvent (newCmds freshObject (mission1 exampleParams 20 freshObject).obj) = some 0 ∧
    (List.range 6).map
        (fun n =>
          ((closedLoopRun exampleParams 2 0 autoOp n startedSupervisor).missionState,
            (closedLoopRun exampleParams 2 0 autoOp n startedSupervisor).obj.distanceCount,
            (closedLoopRun exampleParams 2 0 autoOp n startedSupervisor).finished))
      = [(0, 0, false), (10, 0, false), (11, 0, false), (20, 0, false), (10, 1, false),
         (10, 1, true)] ∧
    (closedLoopRun exampleParams 2 0 autoOp 5 startedSupervisor).mission = 1 ∧
    (closedLoopRun exampleParams 2 0 autoOp 5 startedSupervisor).obj.stdout
      = ["State 10\n", "State 11, no object detected\n", "State 20, distanceCount: 1\n",
         "Mission:: insist we are finished\n"] := by
  refine ⟨by decide, by decide, by decide, by decide, by decide, by decide, by decide,
    by decide, by decide, by decide⟩

end Robobot
